import Mathlib

/-!
# Session authentication of `migos`: embedding and properties

The Go code of `backend/internal` is embedded as pure functions with explicit state passing.

* A dependency injected through a Go interface (`domain.TokenProvider`,
  `domain.SessionRepository`, `domain.AuthRepository`, `domain.PasswordHasher`) is a record of
  functions over an arbitrary world state `σ`: every method takes the state and returns its
  result together with the next state, so a dependency may answer differently on every call.
* The handler's observable effects are collected in a `Context`: the `Set-Cookie` headers
  written, the values stored with `c.Set`, and the trace of dependency calls it made. A method
  of the account service leaves a `Run`: the trace of its calls and the world.
* `return next(c)` is the outcome `Outcome.next`; `return c.JSON(status, body)` is
  `Outcome.json status body`.
* Logging calls have no influence on control flow and are left out.
-/

set_option linter.dupNamespace false

namespace Migos

/-! ## Go runtime values -/

/-- A `time.Time` instant, in nanoseconds since January 1 of year 1 (UTC). The zero value of
`time.Time` is `0`. -/
abbrev Time := Int

/-- A `time.Duration`: a signed 64-bit count of nanoseconds. -/
abbrev Duration := Int

/-- Two's-complement wrap-around of a mathematical integer into `int64`. -/
def wrapInt64 (x : Int) : Int := (x + 2 ^ 63) % 2 ^ 64 - 2 ^ 63

/-- The constant `time.Minute`. -/
def Minute : Duration := 60000000000

/-- The method `Time.IsZero`. -/
def Time.IsZero (t : Time) : Bool := t == 0

/-- The method `Time.Before`. -/
def Time.Before (t u : Time) : Bool := decide (t < u)

/-- The method `Time.Add`; the saturation of Go at the ends of its range of some 292 billion
years is out of reach of a clock and is left out. -/
def Time.Add (t : Time) (d : Duration) : Time := t + d

/-- The expression `time.Duration(n) * time.Minute` for a Go `int` n: an `int64` product. -/
def minutes (n : Int) : Duration := wrapInt64 (n * Minute)

/-- A `*time.Location`, the time zone of the process that Go reads from `TZ`: the offset from
UTC, in seconds, that holds at first, and the changes of offset in ascending order, each with
the instant from which it holds. The default is UTC. -/
structure Location where
  offset : Int := 0
  changes : List (Time × Int) := []
  deriving DecidableEq, Repr

/-- The offset from UTC, in seconds, that the zone has at an instant: the one of the last
change at or before the instant. -/
def Location.offsetAt (l : Location) (t : Time) : Int :=
  l.changes.foldl (fun current change => if change.1 ≤ t then change.2 else current) l.offset

/-- A `uuid.UUID`: sixteen bytes, read as one number. -/
structure UUID where
  value : Nat
  deriving DecidableEq, Repr

/-- Go `error` values: the sentinels of `domain`, `gorm.ErrRecordNotFound`, any other error
identified by its message, and `fmt.Errorf("<msg>: %w", inner)`. -/
inductive Error where
  | ErrSessionNotFound
  | ErrEmailAlreadyExists
  | ErrInvalidCredentials
  | ErrUserNotFound
  | ErrInvalidCurrentPassword
  | ErrUserDeactivated
  | ErrUserNotDeactivated
  | ErrRecordNotFound
  | other (msg : String)
  | wrapped (msg : String) (inner : Error)
  deriving DecidableEq, Repr

/-- The function `errors.Is`: the target is looked for along the chain of wrapped errors. -/
def errorsIs (err target : Error) : Bool :=
  if err = target then true
  else match err with
    | .wrapped _ inner => errorsIs inner target
    | _ => false

/-- The method `Error()` of an error value. -/
def Error.Error : Error → String
  | .ErrSessionNotFound => "session not found"
  | .ErrEmailAlreadyExists => "Error Email Already Exists"
  | .ErrInvalidCredentials => "Error Invalid Credentials"
  | .ErrUserNotFound => "Error User Not Found"
  | .ErrInvalidCurrentPassword => "Error Invalid Current Password"
  | .ErrUserDeactivated => "Error User Deactivated"
  | .ErrUserNotDeactivated => "Error User Not Deactivated"
  | .ErrRecordNotFound => "record not found"
  | .other msg => msg
  | .wrapped msg inner => msg ++ ": " ++ inner.Error

/-! ## `domain` -/

/-- The record `domain.Session`. -/
structure Session where
  ID : UUID
  UserID : UUID
  CreatedAt : Time := 0
  UpdatedAt : Time := 0
  ExpiresAt : Time := 0
  deriving DecidableEq, Repr

/-- The record `domain.User`; `DeletedAt` is a nullable `*time.Time`. -/
structure User where
  ID : UUID
  Name : String := ""
  Email : String := ""
  Password : String := ""
  Avatar : String := ""
  DeletedAt : Option Time := none
  CreatedAt : Time := 0
  UpdatedAt : Time := 0
  deriving DecidableEq, Repr

/-- The record `domain.AuthResponse`. -/
structure AuthResponse where
  AccessToken : String
  RefreshToken : String
  deriving DecidableEq, Repr

/-- The record `domain.AccessTokenClaims`. -/
structure AccessTokenClaims where
  SessionID : String
  deriving DecidableEq, Repr

/-- The record `domain.RefreshTokenClaims`. -/
structure RefreshTokenClaims where
  UserID : String
  SessionID : String
  deriving DecidableEq, Repr

/-- The record `domain.TokenConfig`: both expiries are Go `int` minutes. -/
structure TokenConfig where
  AccessTokenExpiry : Int := 60
  RefreshTokenExpiry : Int := 10080
  deriving DecidableEq, Repr

/-- The fields of `domain.Config` read by the authentication code. -/
structure Config where
  Env : String := "development"
  Token : TokenConfig := {}
  deriving DecidableEq, Repr

/-- The interface `domain.TokenProvider` over a world state `σ`. -/
structure TokenProvider (σ : Type) where
  GenerateAccessToken : String → σ → Except Error String × σ
  GenerateRefreshToken : String → String → σ → Except Error String × σ
  ParseAccessToken : String → σ → Except Error AccessTokenClaims × σ
  ParseRefreshToken : String → σ → Except Error RefreshTokenClaims × σ

/-- The interface `domain.SessionRepository` over a world state `σ`; a Go `error` result is
`none` for `nil`. -/
structure SessionRepository (σ : Type) where
  CreateSession : Session → σ → Option Error × σ
  FindSessionByID : UUID → σ → Except Error Session × σ
  DeleteSession : UUID → σ → Except Error Session × σ
  UpdateSessionExpiry : UUID → Time → σ → Option Error × σ
  DeleteExpiredSessions : σ → Except Error Int × σ
  DeleteSessionsByUserID : UUID → σ → Option Error × σ

/-- The interface `domain.AuthRepository` over a world state `σ`. -/
structure AuthRepository (σ : Type) where
  CreateUser : User → σ → Option Error × σ
  FindUserByEmail : String → σ → Except Error User × σ
  FindUserByID : UUID → σ → Except Error User × σ
  UpdateUser : User → σ → Option Error × σ
  DeleteUser : UUID → σ → Option Error × σ
  DeleteDeactivatedUsers : σ → Except Error Int × σ

/-- What the code takes from its surroundings rather than from its arguments: the global
`config.Env`, the clock behind `time.Now()`, and the functions `uuid.Parse` and
`UUID.String` of the uuid library. -/
structure Ambient (σ : Type) where
  Env : Config
  timeNow : σ → Time × σ
  uuidParse : String → Except Error UUID
  uuidString : UUID → String

/-! ## `pkg/error` -/

/-- The record `ProblemDetailsFieldError`. -/
structure ProblemDetailsFieldError where
  Field : String
  Message : String
  deriving DecidableEq, Repr

/-- The record `ProblemDetails` (RFC 7807). -/
structure ProblemDetails where
  /-- The Go field `Type`. -/
  Type_ : String := ""
  Title : String := ""
  Status : Int := 0
  Detail : String := ""
  Instance : String := ""
  FieldErrors : List ProblemDetailsFieldError := []
  Limit : Int := 0
  Code : Int := 0
  deriving DecidableEq, Repr

def NewProblemDetails : ProblemDetails := { Type_ := "about:blank" }

def ProblemDetails.WithType (p : ProblemDetails) (typeContext t : String) : ProblemDetails :=
  { p with Type_ := "urn:auth-session-api/" ++ typeContext ++ "/" ++ t }

def ProblemDetails.WithTitle (p : ProblemDetails) (title : String) : ProblemDetails :=
  { p with Title := title }

def ProblemDetails.WithStatus (p : ProblemDetails) (status : Int) : ProblemDetails :=
  { p with Status := status }

def ProblemDetails.WithDetail (p : ProblemDetails) (detail : String) : ProblemDetails :=
  { p with Detail := detail }

def ProblemDetails.WithInstance (p : ProblemDetails) (inst : String) : ProblemDetails :=
  { p with Instance := inst }

/-! ## `net/http` and `echo` -/

def StatusUnauthorized : Int := 401

def StatusInternalServerError : Int := 500

/-- The constant `http.SameSiteStrictMode` (`SameSite` counts from `SameSiteDefaultMode = 1`;
the zero value is an unset attribute). -/
def SameSiteStrictMode : Nat := 3

/-- The record `http.Cookie`, with the fields the code sets. -/
structure Cookie where
  Name : String
  Value : String
  Path : String := ""
  MaxAge : Int := 0
  HttpOnly : Bool := false
  Secure : Bool := false
  SameSite : Nat := 0
  deriving DecidableEq, Repr

/-- The request as the handler reads it: the cookies it carries and the URL path. -/
structure Request where
  cookies : List Cookie
  path : String
  deriving DecidableEq, Repr

/-- The method `c.Cookie(name)`: the first cookie of that name, `none` for `http.ErrNoCookie`. -/
def Request.Cookie (r : Request) (name : String) : Option Cookie :=
  r.cookies.find? (fun k => k.Name = name)

/-- A call made on an injected dependency, a reading of the clock, or a draw of `uuid.New()`. -/
inductive Call where
  | GenerateAccessToken (sessionID : String)
  | GenerateRefreshToken (userID sessionID : String)
  | ParseAccessToken (tokenString : String)
  | ParseRefreshToken (tokenString : String)
  | CreateSession (session : Session)
  | FindSessionByID (sessionID : UUID)
  | DeleteSession (sessionID : UUID)
  | UpdateSessionExpiry (sessionID : UUID) (expiresAt : Time)
  | DeleteExpiredSessions
  | DeleteSessionsByUserID (userID : UUID)
  | CreateUser (user : User)
  | FindUserByEmail (email : String)
  | FindUserByID (id : UUID)
  | UpdateUser (user : User)
  | DeleteUser (id : UUID)
  | DeleteDeactivatedUsers
  | Hash (password : String)
  | Check (password hash : String)
  | timeNow (t : Time)
  | uuidNew (id : UUID)
  deriving DecidableEq, Repr

/-- The `echo.Context` of one request together with the world the dependencies act on. -/
structure Context (σ : Type) where
  request : Request
  /-- The cookies written with `c.SetCookie`, oldest first. -/
  cookies : List Cookie := []
  /-- The values stored with `c.Set`, oldest first. -/
  store : List (String × String) := []
  /-- The dependency calls made so far, oldest first. -/
  calls : List Call := []
  world : σ

/-- How a handler returns. -/
inductive Outcome where
  | json (status : Int) (body : ProblemDetails)
  | next
  deriving DecidableEq, Repr

/-- The method `c.SetCookie`. -/
def Context.SetCookie {σ : Type} (c : Context σ) (k : Cookie) : Context σ :=
  { c with cookies := c.cookies ++ [k] }

/-- The method `c.Set`. -/
def Context.Set {σ : Type} (c : Context σ) (key val : String) : Context σ :=
  { c with store := c.store ++ [(key, val)] }

/-- The method `c.Get`: the value last stored under the key. -/
def Context.Get {σ : Type} (c : Context σ) (key : String) : Option String :=
  (c.store.reverse.find? (fun kv => kv.1 = key)).map Prod.snd

/-- A dependency method is run on the current world; the call is appended to the trace. -/
def Context.invoke {σ α : Type} (c : Context σ) (call : Call) (f : σ → α × σ) : α × Context σ :=
  ((f c.world).1, { c with calls := c.calls ++ [call], world := (f c.world).2 })

/-- The clock is read through `time.Now()`; the reading is appended to the trace. -/
def Context.timeNow {σ : Type} (c : Context σ) (amb : Ambient σ) : Time × Context σ :=
  ((amb.timeNow c.world).1,
    { c with calls := c.calls ++ [Call.timeNow (amb.timeNow c.world).1],
             world := (amb.timeNow c.world).2 })

/-! ## `middleware/session_auth.go` -/

def clearAuthCookies {σ : Type} (c : Context σ) : Context σ :=
  (c.SetCookie
    { Name := "access_token", Value := "", Path := "/", MaxAge := -1, HttpOnly := true }).SetCookie
    { Name := "refresh_token", Value := "", Path := "/", MaxAge := -1, HttpOnly := true }

/-- The two `MaxAge` products are Go `int` (64-bit) multiplications. -/
def setAuthCookies {σ : Type} (amb : Ambient σ) (c : Context σ) (response : AuthResponse) :
    Context σ :=
  let isProduction := decide (amb.Env.Env = "production")
  (c.SetCookie
    { Name := "access_token", Value := response.AccessToken, Path := "/",
      MaxAge := wrapInt64 (amb.Env.Token.AccessTokenExpiry * 60), HttpOnly := true,
      Secure := isProduction, SameSite := SameSiteStrictMode }).SetCookie
    { Name := "refresh_token", Value := response.RefreshToken, Path := "/",
      MaxAge := wrapInt64 (amb.Env.Token.RefreshTokenExpiry * 60), HttpOnly := true,
      Secure := isProduction, SameSite := SameSiteStrictMode }

def unauthorizedResponse {σ : Type} (c : Context σ) : Outcome × Context σ :=
  let problemDetails :=
    ((((NewProblemDetails.WithType "auth" "unauthorized").WithTitle "Unauthorized").WithStatus
      StatusUnauthorized).WithDetail "Authentication required").WithInstance c.request.path
  (Outcome.json StatusUnauthorized problemDetails, c)

def internalErrorResponse {σ : Type} (c : Context σ) : Outcome × Context σ :=
  let problemDetails :=
    ((((NewProblemDetails.WithType "auth" "internal-error").WithTitle
      "Internal Server Error").WithStatus StatusInternalServerError).WithDetail
      "An unexpected error occurred").WithInstance c.request.path
  (Outcome.json StatusInternalServerError problemDetails, c)

/-- The handler returned by `SessionAuth(tokenProvider, sessionRepo, authRepo)(next)`, run on
the context `c`. -/
def SessionAuth {σ : Type} (amb : Ambient σ) (tokenProvider : TokenProvider σ)
    (sessionRepo : SessionRepository σ) (authRepo : AuthRepository σ) (c : Context σ) :
    Outcome × Context σ :=
  match c.request.Cookie "access_token" with
  | none => unauthorizedResponse c
  | some cookie =>
  if cookie.Value = "" then unauthorizedResponse c else
  match c.invoke (.ParseAccessToken cookie.Value) (tokenProvider.ParseAccessToken cookie.Value) with
  | (.error _, c) => unauthorizedResponse c
  | (.ok accessClaims, c) =>
  match amb.uuidParse accessClaims.SessionID with
  | .error _ => unauthorizedResponse c
  | .ok sessionID =>
  match c.invoke (.FindSessionByID sessionID) (sessionRepo.FindSessionByID sessionID) with
  | (.error err, c) =>
    if errorsIs err Error.ErrSessionNotFound then unauthorizedResponse (clearAuthCookies c)
    else internalErrorResponse c
  | (.ok session, c) =>
  match c.request.Cookie "refresh_token" with
  | none => unauthorizedResponse (clearAuthCookies c)
  | some refreshCookie =>
  if refreshCookie.Value = "" then unauthorizedResponse (clearAuthCookies c) else
  match c.invoke (.ParseRefreshToken refreshCookie.Value)
      (tokenProvider.ParseRefreshToken refreshCookie.Value) with
  | (.error _, c) =>
    -- the result of `DeleteSession` is only logged
    let c := (c.invoke (.DeleteSession sessionID) (sessionRepo.DeleteSession sessionID)).2
    unauthorizedResponse (clearAuthCookies c)
  | (.ok _, c) =>
  match c.invoke (.FindUserByID session.UserID) (authRepo.FindUserByID session.UserID) with
  | (.error err, c) =>
    if errorsIs err Error.ErrUserNotFound then unauthorizedResponse c
    else internalErrorResponse c
  | (.ok user, c) =>
  match c.invoke (.GenerateAccessToken (amb.uuidString session.ID))
      (tokenProvider.GenerateAccessToken (amb.uuidString session.ID)) with
  | (.error _, c) => internalErrorResponse c
  | (.ok newAccessToken, c) =>
  match c.invoke (.GenerateRefreshToken (amb.uuidString user.ID) (amb.uuidString session.ID))
      (tokenProvider.GenerateRefreshToken (amb.uuidString user.ID)
        (amb.uuidString session.ID)) with
  | (.error _, c) => internalErrorResponse c
  | (.ok newRefreshToken, c) =>
  let c := setAuthCookies amb c { AccessToken := newAccessToken, RefreshToken := newRefreshToken }
  let (now, c) := c.timeNow amb
  let newExpiry := Time.Add now (minutes amb.Env.Token.RefreshTokenExpiry)
  -- the result of `UpdateSessionExpiry` is only logged
  let c := (c.invoke (.UpdateSessionExpiry sessionID newExpiry)
      (sessionRepo.UpdateSessionExpiry sessionID newExpiry)).2
  let c := c.Set "user_id" (amb.uuidString user.ID)
  let c := c.Set "email" user.Email
  let c := c.Set "name" user.Name
  let c := c.Set "avatar" user.Avatar
  let c := c.Set "session_id" (amb.uuidString session.ID)
  (Outcome.next, c)

/-! ## `storage/sqlite`: the database behind gorm

The tables `session` and `user` are lists of rows. A statement sent to the database may fail
(I/O error, the one-second or five-second timeout of its context): the failures to come are a
script in the world, one entry consumed per statement. The clock is part of the world too: every
`time.Now()` consumes one scripted advance, so successive readings never decrease.

Go compares times as instants. The database does not: the driver (`mattn/go-sqlite3`, behind
`gorm.io/driver/sqlite`) writes a `time.Time`, as a column value and as a query argument alike,
as the text `2006-01-02 15:04:05.999999999-07:00` in the location of the value, and SQLite
compares two such texts byte by byte. The times the code stores in `expires_at` and
`deleted_at` are readings of `time.Now()`, moved by a duration or not, hence in the local zone
of the process; the zero `time.Time` is in UTC. -/

/-- A time as the driver writes it, as far as the comparison of two such texts goes: the wall
clock reading in the location of the value, in nanoseconds since the start of year 1, and the
offset printed behind it, in whole minutes. For the years 0000 to 9999 the text is of fixed
width up to the seconds, so the earlier wall clock reading gives the smaller text (a fraction
of a second is printed without its trailing zeros, and `.` comes after `+` and `-`); at equal
readings the offsets decide. -/
structure TimeText where
  wall : Int
  zoneMinutes : Int
  deriving DecidableEq, Repr

/-- The comparison `a <= b` of SQLite on two such texts: by the wall clock reading, then by the
offset as printed, `+hh:mm` before `-hh:mm` and equal signs by the digits. -/
def TimeText.le (a b : TimeText) : Bool :=
  decide (a.wall < b.wall) ||
    (decide (a.wall = b.wall) &&
      (if 0 ≤ a.zoneMinutes then
        decide (b.zoneMinutes < 0) || decide (a.zoneMinutes ≤ b.zoneMinutes)
      else decide (b.zoneMinutes < 0) && decide (-a.zoneMinutes ≤ -b.zoneMinutes)))

/-- The text of a time in the local zone, such as a reading of `time.Now()`: the offset is the
one the zone has at that instant, printed in minutes as Go does (`offset / 60`). -/
def Location.text (l : Location) (t : Time) : TimeText :=
  { wall := t + l.offsetAt t * 1000000000, zoneMinutes := Int.tdiv (l.offsetAt t) 60 }

/-- The text of a stored time: the zero time is in UTC, any other time in the local zone. -/
def Location.stored (l : Location) (t : Time) : TimeText :=
  if t = 0 then { wall := 0, zoneMinutes := 0 } else l.text t

/-- The database, the clock, and the scripts of what is to happen to them. -/
structure World where
  session : List Session := []
  user : List User := []
  /-- Outcome of the statements to come: `some e` makes the statement fail with `e`. -/
  faults : List (Option Error) := []
  /-- The latest clock reading. -/
  clock : Time := 0
  /-- By how much the clock will have advanced at each of the readings to come. -/
  ticks : List Nat := []
  /-- The local time zone of the process. -/
  location : Location := {}
  deriving DecidableEq, Repr

/-- The function `time.Now()` on the world clock. -/
def World.timeNow (w : World) : Time × World :=
  match w.ticks with
  | [] => (w.clock, w)
  | d :: rest => (w.clock + d, { w with clock := w.clock + d, ticks := rest })

/-- A statement reaches the database: the next scripted outcome is consumed. -/
def World.exec (w : World) : Option Error × World :=
  match w.faults with
  | [] => (none, w)
  | f :: rest => (f, { w with faults := rest })

/-- The method `SQLiteStorage.Insert` on the table `session`: `Create(data)`, which fills the
zero `CreatedAt` and `UpdatedAt` with gorm's `NowFunc()`; the primary key `id` is unique. -/
def SQLiteStorage.InsertSession (data : Session) (w : World) : Option Error × World :=
  let (now, w) := w.timeNow
  match w.exec with
  | (some e, w) => (some (.wrapped "failed to insert data" e), w)
  | (none, w) =>
    if w.session.any (fun r => r.ID = data.ID) then
      (some (.wrapped "failed to insert data" (.other "UNIQUE constraint failed: session.id")), w)
    else
      (none, { w with session := w.session ++
        [{ data with CreatedAt := if data.CreatedAt = 0 then now else data.CreatedAt,
                     UpdatedAt := if data.UpdatedAt = 0 then now else data.UpdatedAt }] })

/-- The method `SQLiteStorage.Insert` on the table `user`: the primary key `id` and the column
`email` are unique. -/
def SQLiteStorage.InsertUser (data : User) (w : World) : Option Error × World :=
  let (now, w) := w.timeNow
  match w.exec with
  | (some e, w) => (some (.wrapped "failed to insert data" e), w)
  | (none, w) =>
    if w.user.any (fun r => r.ID = data.ID) then
      (some (.wrapped "failed to insert data" (.other "UNIQUE constraint failed: user.id")), w)
    else if w.user.any (fun r => r.Email = data.Email) then
      (some (.wrapped "failed to insert data" (.other "UNIQUE constraint failed: user.email")), w)
    else
      (none, { w with user := w.user ++
        [{ data with CreatedAt := if data.CreatedAt = 0 then now else data.CreatedAt,
                     UpdatedAt := if data.UpdatedAt = 0 then now else data.UpdatedAt }] })

/-- The method `SQLiteStorage.Update` on the table `user`: `Save(data)` writes every column of
the row with the primary key of `data`, `UpdatedAt` being set to `NowFunc()`, and inserts the
row when there is none. -/
def SQLiteStorage.UpdateUser (data : User) (w : World) : Option Error × World :=
  let (now, w) := w.timeNow
  match w.exec with
  | (some e, w) => (some (.wrapped "failed to update data" e), w)
  | (none, w) =>
    if w.user.any (fun r => r.ID ≠ data.ID ∧ r.Email = data.Email) then
      (some (.wrapped "failed to update data" (.other "UNIQUE constraint failed: user.email")), w)
    else if w.user.any (fun r => r.ID = data.ID) then
      let rows := w.user.map (fun r => if r.ID = data.ID then { data with UpdatedAt := now } else r)
      (none, { w with user := rows })
    else
      (none, { w with user := w.user ++
        [{ data with CreatedAt := if data.CreatedAt = 0 then now else data.CreatedAt,
                     UpdatedAt := now }] })

/-- The method `SQLiteStorage.FindByID` on the table `session`:
`Where("id = ?", id).First(dest)`, whose error is returned as it is. -/
def SQLiteStorage.FindByID (id : UUID) (w : World) : Except Error Session × World :=
  match w.exec with
  | (some e, w) => (.error e, w)
  | (none, w) =>
    match w.session.find? (fun r => r.ID = id) with
    | none => (.error .ErrRecordNotFound, w)
    | some dest => (.ok dest, w)

/-- The method `SQLiteStorage.FindOneAndDelete` on the table `session`: a `First` whose error is
returned as it is, then a `Delete` of the rows with that id. -/
def SQLiteStorage.FindOneAndDelete (id : UUID) (w : World) : Except Error Session × World :=
  match w.exec with
  | (some e, w) => (.error e, w)
  | (none, w) =>
    match w.session.find? (fun r => r.ID = id) with
    | none => (.error .ErrRecordNotFound, w)
    | some dest =>
      match w.exec with
      | (some e, w) => (.error (.wrapped "failed to delete data" e), w)
      | (none, w) => (.ok dest, { w with session := w.session.filter (fun r => r.ID ≠ id) })

/-- The method `SQLiteStorage.FindByEmail` on the table `user`. -/
def SQLiteStorage.FindByEmail (email : String) (w : World) : Except Error User × World :=
  match w.exec with
  | (some e, w) => (.error e, w)
  | (none, w) =>
    match w.user.find? (fun r => r.Email = email) with
    | none => (.error .ErrRecordNotFound, w)
    | some dest => (.ok dest, w)

/-! ## `repository/session.go` -/

def SessionRepositoryImpl.CreateSession (session : Session) (w : World) : Option Error × World :=
  match SQLiteStorage.InsertSession session w with
  | (some err, w) => (some err, w)
  | (none, w) => (none, w)

def SessionRepositoryImpl.FindSessionByID (sessionID : UUID) (w : World) :
    Except Error Session × World :=
  match SQLiteStorage.FindByID sessionID w with
  | (.error err, w) =>
    if errorsIs err Error.ErrRecordNotFound then (.error Error.ErrSessionNotFound, w)
    else (.error err, w)
  | (.ok session, w) =>
    -- `!session.ExpiresAt.IsZero() && session.ExpiresAt.Before(time.Now())`
    if Time.IsZero session.ExpiresAt then (.ok session, w)
    else
      let (now, w) := w.timeNow
      if Time.Before session.ExpiresAt now then (.error Error.ErrSessionNotFound, w)
      else (.ok session, w)

def SessionRepositoryImpl.DeleteSession (sessionID : UUID) (w : World) :
    Except Error Session × World :=
  match SQLiteStorage.FindOneAndDelete sessionID w with
  | (.error err, w) => (.error err, w)
  | (.ok session, w) => (.ok session, w)

/-- `GetDB()` of the SQLite storage is always a `*gorm.DB`. The statement is
`Table("session").Where("id = ?", sessionID).Update("expires_at", expiresAt)`: it writes the one
column of the matching rows and reports no error when no row matches. -/
def SessionRepositoryImpl.UpdateSessionExpiry (sessionID : UUID) (expiresAt : Time) (w : World) :
    Option Error × World :=
  match w.exec with
  | (some e, w) => (some (.wrapped "failed to update session expiry" e), w)
  | (none, w) =>
    let rows := w.session.map
      (fun r => if r.ID = sessionID then { r with ExpiresAt := expiresAt } else r)
    (none, { w with session := rows })

def SessionRepositoryImpl.DeleteSessionsByUserID (userID : UUID) (w : World) :
    Option Error × World :=
  match w.exec with
  | (some e, w) => (some e, w)
  | (none, w) => (none, { w with session := w.session.filter (fun r => r.UserID ≠ userID) })

/-- The statement is `Where("expires_at <= ?", time.Now()).Delete(...)`: the database compares
the text stored in `expires_at` with the text of the local reading of the clock. The result is
`RowsAffected`. -/
def SessionRepositoryImpl.DeleteExpiredSessions (w : World) : Except Error Int × World :=
  let (now, w) := w.timeNow
  match w.exec with
  | (some e, w) => (.error (.wrapped "failed to delete expired sessions" e), w)
  | (none, w) =>
    let expired : Session → Bool := fun r =>
      TimeText.le (w.location.stored r.ExpiresAt) (w.location.text now)
    (.ok ((w.session.filter expired).length : Int),
      { w with session := w.session.filter (fun r => ¬ expired r) })

/-- The repository built by `NewSessionRepository` over the SQLite storage. -/
def NewSessionRepository : SessionRepository World where
  CreateSession := SessionRepositoryImpl.CreateSession
  FindSessionByID := SessionRepositoryImpl.FindSessionByID
  DeleteSession := SessionRepositoryImpl.DeleteSession
  UpdateSessionExpiry := SessionRepositoryImpl.UpdateSessionExpiry
  DeleteExpiredSessions := SessionRepositoryImpl.DeleteExpiredSessions
  DeleteSessionsByUserID := SessionRepositoryImpl.DeleteSessionsByUserID

/-! ## `repository/auth.go` -/

def AuthRepositoryImpl.CreateUser (user : User) (w : World) : Option Error × World :=
  match SQLiteStorage.InsertUser user w with
  | (some err, w) => (some err, w)
  | (none, w) => (none, w)

def AuthRepositoryImpl.FindUserByEmail (email : String) (w : World) : Except Error User × World :=
  match SQLiteStorage.FindByEmail email w with
  | (.error err, w) =>
    if errorsIs err Error.ErrRecordNotFound then (.error Error.ErrUserNotFound, w)
    else (.error err, w)
  | (.ok user, w) => (.ok user, w)

/-- The statement is `Where("id = ? AND deleted_at IS NULL", id).First(&user)`. -/
def AuthRepositoryImpl.FindUserByID (id : UUID) (w : World) : Except Error User × World :=
  match w.exec with
  | (some err, w) =>
    if errorsIs err Error.ErrRecordNotFound then (.error Error.ErrUserNotFound, w)
    else (.error err, w)
  | (none, w) =>
    match w.user.find? (fun r => r.ID = id ∧ r.DeletedAt = none) with
    | none => (.error Error.ErrUserNotFound, w)
    | some user => (.ok user, w)

def AuthRepositoryImpl.UpdateUser (user : User) (w : World) : Option Error × World :=
  SQLiteStorage.UpdateUser user w

/-- The statement is `Where("id = ?", id).Update("deleted_at", now)`. -/
def AuthRepositoryImpl.DeleteUser (id : UUID) (w : World) : Option Error × World :=
  let (now, w) := w.timeNow
  match w.exec with
  | (some e, w) => (some e, w)
  | (none, w) =>
    let rows := w.user.map (fun r => if r.ID = id then { r with DeletedAt := some now } else r)
    (none, { w with user := rows })

/-- Seven days, the value of `7 * 24 * time.Hour`. -/
def sevenDays : Duration := 604800000000000

/-- The statement is
`Where("deleted_at IS NOT NULL AND deleted_at <= ?", sevenDaysAgo).Delete(...)`, a comparison
of texts like the one of `DeleteExpiredSessions`. -/
def AuthRepositoryImpl.DeleteDeactivatedUsers (w : World) : Except Error Int × World :=
  let (now, w) := w.timeNow
  let sevenDaysAgo := Time.Add now (-sevenDays)
  let gone : User → Bool := fun r =>
    match r.DeletedAt with
    | none => false
    | some t => TimeText.le (w.location.stored t) (w.location.text sevenDaysAgo)
  match w.exec with
  | (some e, w) => (.error (.wrapped "failed to delete deactivated users" e), w)
  | (none, w) =>
    (.ok ((w.user.filter gone).length : Int), { w with user := w.user.filter (fun r => ¬ gone r) })

/-- The repository built by `NewAuthRepository` over the SQLite storage. -/
def NewAuthRepository : AuthRepository World where
  CreateUser := AuthRepositoryImpl.CreateUser
  FindUserByEmail := AuthRepositoryImpl.FindUserByEmail
  FindUserByID := AuthRepositoryImpl.FindUserByID
  UpdateUser := AuthRepositoryImpl.UpdateUser
  DeleteUser := AuthRepositoryImpl.DeleteUser
  DeleteDeactivatedUsers := AuthRepositoryImpl.DeleteDeactivatedUsers

/-- A token provider without state of its own, as the JWT provider is: each method reads the
world (the clock) and leaves it as it is. -/
def TokenProvider.stateless {σ : Type}
    (generateAccess : σ → String → Except Error String)
    (generateRefresh : σ → String → String → Except Error String)
    (parseAccess : σ → String → Except Error AccessTokenClaims)
    (parseRefresh : σ → String → Except Error RefreshTokenClaims) : TokenProvider σ where
  GenerateAccessToken := fun sessionID w => (generateAccess w sessionID, w)
  GenerateRefreshToken := fun userID sessionID w => (generateRefresh w userID sessionID, w)
  ParseAccessToken := fun tokenString w => (parseAccess w tokenString, w)
  ParseRefreshToken := fun tokenString w => (parseRefresh w tokenString, w)

/-- The surroundings of the code when it runs on a `World`. -/
def World.ambient (cfg : Config) (uuidParse : String → Except Error UUID)
    (uuidString : UUID → String) : Ambient World where
  Env := cfg
  timeNow := World.timeNow
  uuidParse := uuidParse
  uuidString := uuidString

/-! ## `golang-jwt/jwt/v5`, as `security/jwt.go` uses it

The library is outside the repository. Its signing and parsing steps are written down in the
order the library takes them; the wire codec (base64url and JSON) and the RSA primitives are
parameters, collected in `JWTLibrary`. -/

/-- A value of a claim set or header (`map[string]interface{}`): a string, a number, or
anything else. Numbers are taken integer-valued, as every number the provider issues is: an
`int64` when the claims are built, the same number as a `float64` once decoded. -/
inductive Value where
  | string (s : String)
  | number (n : Int)
  | other
  deriving DecidableEq, Repr

/-- The type `jwt.MapClaims`, as the list of its entries. -/
abbrev MapClaims := List (String × Value)

/-- The signing methods the library registers, by Go type: `*SigningMethodHMAC`,
`*SigningMethodRSA`, `*SigningMethodRSAPSS`, `*SigningMethodECDSA`, `*SigningMethodEd25519`
and the method `none`. -/
inductive SigningMethod where
  | HMAC (alg : String)
  | RSA (alg : String)
  | RSAPSS (alg : String)
  | ECDSA (alg : String)
  | Ed25519
  | None
  deriving DecidableEq, Repr

/-- The method `Alg()`. -/
def SigningMethod.Alg : SigningMethod → String
  | .HMAC alg => alg
  | .RSA alg => alg
  | .RSAPSS alg => alg
  | .ECDSA alg => alg
  | .Ed25519 => "EdDSA"
  | .None => "none"

/-- The variable `jwt.SigningMethodRS256`. -/
def SigningMethodRS256 : SigningMethod := SigningMethod.RSA "RS256"

/-- The function `jwt.GetSigningMethod`: the method registered under the name, if any. -/
def GetSigningMethod (alg : String) : Option SigningMethod :=
  if alg = "HS256" ∨ alg = "HS384" ∨ alg = "HS512" then some (.HMAC alg)
  else if alg = "RS256" ∨ alg = "RS384" ∨ alg = "RS512" then some (.RSA alg)
  else if alg = "PS256" ∨ alg = "PS384" ∨ alg = "PS512" then some (.RSAPSS alg)
  else if alg = "ES256" ∨ alg = "ES384" ∨ alg = "ES512" then some (.ECDSA alg)
  else if alg = "EdDSA" then some .Ed25519
  else if alg = "none" then some .None
  else none

/-- An `*rsa.PrivateKey`. -/
structure PrivateKey where
  id : Nat
  deriving DecidableEq, Repr

/-- An `*rsa.PublicKey`. -/
structure PublicKey where
  id : Nat
  deriving DecidableEq, Repr

/-- What the decoding of a token string yields: the header and the claims, the signing string
(the first two segments) and the signature. -/
structure Segments where
  Header : List (String × Value)
  Claims : MapClaims
  signingString : String
  Signature : String
  deriving DecidableEq, Repr

/-- The codec and the signature primitives behind the library. -/
structure JWTLibrary where
  /-- The decoding done by `Parser.ParseUnverified` and of the signature segment: three
  segments separated by dots, the first two base64url JSON objects. -/
  decode : String → Except Error Segments
  /-- The method `Token.SigningString`: header and claims, encoded and joined by a dot. -/
  signingString : List (String × Value) → MapClaims → String
  /-- The method `Sign` of a signing method, with the encoding of the signature segment. -/
  sign : SigningMethod → PrivateKey → String → Except Error String
  /-- The method `Verify` of a signing method: `none` for a valid signature. -/
  verify : SigningMethod → PublicKey → String → String → Option Error

/-- The record `jwt.Token`. -/
structure Token where
  Raw : String := ""
  Method : SigningMethod
  Header : List (String × Value)
  Claims : MapClaims
  Signature : String := ""
  Valid : Bool := false
  deriving DecidableEq, Repr

def ErrTokenMalformed : Error := Error.other "token is malformed"

def ErrTokenUnverifiable : Error := Error.other "token is unverifiable"

def ErrTokenSignatureInvalid : Error := Error.other "token signature is invalid"

def ErrTokenExpired : Error := Error.other "token is expired"

def ErrTokenNotValidYet : Error := Error.other "token is not valid yet"

/-- The method `Time.Unix`: whole seconds since January 1, 1970 UTC. -/
def Time.Unix (t : Time) : Int := t / 1000000000 - 62135596800

/-- The function `time.Unix(sec, 0)`. -/
def timeUnix (sec : Int) : Time := (sec + 62135596800) * 1000000000

/-- The method `MapClaims.parseNumericDate`: an absent key and the number 0 give no date, a
number gives the date of that many seconds, any other value is an error. -/
def parseNumericDate (m : MapClaims) (key : String) : Except Error (Option Time) :=
  match List.lookup key m with
  | none => .ok none
  | some (.number n) => if n = 0 then .ok none else .ok (some (timeUnix n))
  | some _ => .error (.other (key ++ " is invalid"))

/-- The method `Validator.Validate` of the default validator on map claims: `exp`, when there,
must be after `now`, and `nbf`, when there, not after `now`; neither claim is required, there
is no leeway, and issued-at, audience, issuer and subject are not checked. Of the errors
found the first is kept. -/
def validateClaims (claims : MapClaims) (now : Time) : Option Error :=
  let expErr : Option Error :=
    match parseNumericDate claims "exp" with
    | .error err => some err
    | .ok none => none
    | .ok (some exp) => if Time.Before now exp then none else some ErrTokenExpired
  let nbfErr : Option Error :=
    match parseNumericDate claims "nbf" with
    | .error err => some err
    | .ok none => none
    | .ok (some nbf) => if Time.Before now nbf then some ErrTokenNotValidYet else none
  match expErr with
  | some err => some err
  | none => nbfErr

/-- The function `jwt.NewWithClaims`. -/
def NewWithClaims (method : SigningMethod) (claims : MapClaims) : Token :=
  { Method := method,
    Header := [("typ", Value.string "JWT"), ("alg", Value.string method.Alg)],
    Claims := claims }

/-- The method `Token.SignedString`. -/
def Token.SignedString (lib : JWTLibrary) (t : Token) (key : PrivateKey) :
    Except Error String :=
  let sstr := lib.signingString t.Header t.Claims
  match lib.sign t.Method key sstr with
  | .error err => .error err
  | .ok sig => .ok (sstr ++ "." ++ sig)

/-- The function `jwt.Parse(tokenString, keyFunc, opts...)` into map claims, the option being
`jwt.WithoutClaimsValidation()` or none: decoding, lookup of the method named by the header,
the key function, the signature, and then, unless skipped, the claims at `time.Now()`. -/
def jwtParse (lib : JWTLibrary) (tokenString : String)
    (keyFunc : Token → Except Error PublicKey) (skipClaimsValidation : Bool) (w : World) :
    Except Error Token × World :=
  match lib.decode tokenString with
  | .error err => (.error (.wrapped "token is malformed" err), w)
  | .ok seg =>
    match List.lookup "alg" seg.Header with
    | some (.string alg) =>
      match GetSigningMethod alg with
      | none => (.error (.wrapped "signing method (alg) is unavailable" ErrTokenUnverifiable), w)
      | some method =>
        let token : Token :=
          { Raw := tokenString, Method := method, Header := seg.Header, Claims := seg.Claims,
            Signature := seg.Signature }
        match keyFunc token with
        | .error err => (.error (.wrapped "error while executing keyfunc" err), w)
        | .ok key =>
          match lib.verify method key seg.signingString seg.Signature with
          | some _ => (.error ErrTokenSignatureInvalid, w)
          | none =>
            if skipClaimsValidation then (.ok { token with Valid := true }, w)
            else
              let (now, w) := w.timeNow
              match validateClaims token.Claims now with
              | some err => (.error (.wrapped "token has invalid claims" err), w)
              | none => (.ok { token with Valid := true }, w)
    | _ => (.error (.wrapped "signing method (alg) is unspecified" ErrTokenUnverifiable), w)

/-! ## `security/jwt.go` -/

/-- How a Go function that returns a value and an error can end: with the value, with the
error, or in a run-time panic. -/
inductive GoResult (α : Type) where
  | ok (a : α)
  | error (err : Error)
  | panic
  deriving DecidableEq, Repr

/-- The record `JWTProvider`. -/
structure JWTProvider where
  privateKey : PrivateKey
  publicKey : PublicKey
  accessTokenExpiry : Duration
  refreshTokenExpiry : Duration
  deriving DecidableEq, Repr

/-- The function `NewJWTProvider`, on the two keys read from the configured files. -/
def NewJWTProvider (cfg : Config) (privateKey : PrivateKey) (publicKey : PublicKey) :
    JWTProvider :=
  { privateKey := privateKey,
    publicKey := publicKey,
    accessTokenExpiry := minutes cfg.Token.AccessTokenExpiry,
    refreshTokenExpiry := minutes cfg.Token.RefreshTokenExpiry }

/-- The claims built in `GenerateAccessToken` at the clock reading `now`. -/
def JWTProvider.accessClaims (j : JWTProvider) (sessionID : String) (now : Time) : MapClaims :=
  [("sub", Value.string sessionID),
   ("iat", Value.number (Time.Unix now)),
   ("exp", Value.number (Time.Unix (Time.Add now j.accessTokenExpiry)))]

/-- The claims built in `GenerateRefreshToken` at the clock reading `now`. -/
def JWTProvider.refreshClaims (j : JWTProvider) (userID sessionID : String) (now : Time) :
    MapClaims :=
  [("sub", Value.string userID),
   ("session_id", Value.string sessionID),
   ("iat", Value.number (Time.Unix now)),
   ("exp", Value.number (Time.Unix (Time.Add now j.refreshTokenExpiry)))]

def JWTProvider.GenerateAccessToken (lib : JWTLibrary) (j : JWTProvider) (sessionID : String)
    (w : World) : Except Error String × World :=
  let (now, w) := w.timeNow
  let claims := j.accessClaims sessionID now
  let token := NewWithClaims SigningMethodRS256 claims
  match token.SignedString lib j.privateKey with
  | .error err => (.error (.wrapped "failed to sign access token" err), w)
  | .ok signed => (.ok signed, w)

def JWTProvider.GenerateRefreshToken (lib : JWTLibrary) (j : JWTProvider)
    (userID sessionID : String) (w : World) : Except Error String × World :=
  let (now, w) := w.timeNow
  let claims := j.refreshClaims userID sessionID now
  let token := NewWithClaims SigningMethodRS256 claims
  match token.SignedString lib j.privateKey with
  | .error err => (.error (.wrapped "failed to sign refresh token" err), w)
  | .ok signed => (.ok signed, w)

/-- The key function of `parseToken`: the public key for a method of type
`*jwt.SigningMethodRSA`, an error for any other. -/
def JWTProvider.keyFunc (j : JWTProvider) (token : Token) : Except Error PublicKey :=
  match token.Method with
  | .RSA _ => .ok j.publicKey
  | _ =>
    .error (.other ("unexpected signing method: " ++
      match List.lookup "alg" token.Header with
      | some (.string alg) => alg
      | _ => "<nil>"))

def JWTProvider.parseToken (lib : JWTLibrary) (j : JWTProvider) (tokenString : String)
    (skipClaimsValidation : Bool) (w : World) : Except Error Token × World :=
  match jwtParse lib tokenString j.keyFunc skipClaimsValidation w with
  | (.error err, w) => (.error (.wrapped "failed to parse token" err), w)
  | (.ok token, w) => (.ok token, w)

/-- The assertion `token.Claims.(jwt.MapClaims)` holds for every token of `jwt.Parse`; the
assertion `claims["sub"].(string)` has no second result and panics on anything but a
string. -/
def JWTProvider.ParseAccessToken (lib : JWTLibrary) (j : JWTProvider) (tokenString : String)
    (w : World) : GoResult AccessTokenClaims × World :=
  match j.parseToken lib tokenString true w with
  | (.error err, w) => (.error err, w)
  | (.ok token, w) =>
    match List.lookup "sub" token.Claims with
    | some (.string sub) => (.ok { SessionID := sub }, w)
    | _ => (.panic, w)

/-- Both assertions `claims["sub"].(string)` and `claims["session_id"].(string)` panic on
anything but a string. -/
def JWTProvider.ParseRefreshToken (lib : JWTLibrary) (j : JWTProvider) (tokenString : String)
    (w : World) : GoResult RefreshTokenClaims × World :=
  match j.parseToken lib tokenString false w with
  | (.error err, w) => (.error err, w)
  | (.ok token, w) =>
    match List.lookup "sub" token.Claims with
    | some (.string sub) =>
      match List.lookup "session_id" token.Claims with
      | some (.string sessionID) => (.ok { UserID := sub, SessionID := sessionID }, w)
      | _ => (.panic, w)
    | _ => (.panic, w)

/-- The token decodes into the segments `seg`, its header names the registered signing method
`method`, and its signature verifies under the provider's public key. -/
def CorrectlySigned (lib : JWTLibrary) (j : JWTProvider) (tokenString : String)
    (seg : Segments) (method : SigningMethod) : Prop :=
  lib.decode tokenString = .ok seg ∧
  (∃ alg, List.lookup "alg" seg.Header = some (.string alg) ∧
    GetSigningMethod alg = some method) ∧
  lib.verify method j.publicKey seg.signingString seg.Signature = none

/-- The header of a token signed with the method of the given name. -/
def headerOf (alg : String) : List (String × Value) :=
  [("typ", Value.string "JWT"), ("alg", Value.string alg)]

/-- The provider's key signs `claims` with RS256 into `token`, and `token` decodes back into
the same header, claims and signature, which verifies under the provider's public key: the
keypair matches. -/
def Issued (lib : JWTLibrary) (j : JWTProvider) (claims : MapClaims) (token : String) : Prop :=
  ∃ sig,
    lib.sign SigningMethodRS256 j.privateKey (lib.signingString (headerOf "RS256") claims) =
      .ok sig ∧
    token = lib.signingString (headerOf "RS256") claims ++ "." ++ sig ∧
    CorrectlySigned lib j token
      { Header := headerOf "RS256", Claims := claims,
        signingString := lib.signingString (headerOf "RS256") claims, Signature := sig }
      SigningMethodRS256

/-! ## Sample data

The dependencies of the handler's own test file: the token provider knows the tokens
`valid-token` and `valid-refresh`, rejects every other token, and issues `new-access` and
`new-refresh`. The uuid functions are the library's on the two canonical strings used. -/

def sampleSessionID : UUID := ⟨1⟩

def sampleUserID : UUID := ⟨2⟩

def sampleUUIDParse (s : String) : Except Error UUID :=
  if s = "00000000-0000-0000-0000-000000000001" then .ok sampleSessionID
  else if s = "00000000-0000-0000-0000-000000000002" then .ok sampleUserID
  else .error (.other "invalid UUID")

def sampleUUIDString (u : UUID) : String :=
  if u = sampleSessionID then "00000000-0000-0000-0000-000000000001"
  else if u = sampleUserID then "00000000-0000-0000-0000-000000000002"
  else "ffffffff-ffff-ffff-ffff-ffffffffffff"

def sampleTokenProvider : TokenProvider World :=
  TokenProvider.stateless
    (fun _ _ => .ok "new-access")
    (fun _ _ _ => .ok "new-refresh")
    (fun _ tokenString =>
      if tokenString = "valid-token" then
        .ok { SessionID := "00000000-0000-0000-0000-000000000001" }
      else .error (.other "invalid"))
    (fun _ tokenString =>
      if tokenString = "valid-refresh" then
        .ok { UserID := "00000000-0000-0000-0000-000000000002",
              SessionID := "00000000-0000-0000-0000-000000000001" }
      else .error (.other "expired"))

/-- The default configuration: access tokens of 60 minutes, refresh tokens of 10080 minutes. -/
def sampleAmbient : Ambient World := World.ambient {} sampleUUIDParse sampleUUIDString

def sampleUser : User := { ID := sampleUserID, Email := "user@test.com", Name := "User" }

/-- A clock reading in nanoseconds. -/
def sampleNow : Time := 63900000000000000000

/-- One session of the sample user, expiring an hour after `sampleNow`. -/
def sampleSession : Session :=
  { ID := sampleSessionID, UserID := sampleUserID, ExpiresAt := sampleNow + 60 * Minute }

def sampleWorld : World :=
  { session := [sampleSession], user := [sampleUser], clock := sampleNow }

/-- The request of the test file, with the given cookie values (no cookie for `none`). -/
def sampleRequest (accessToken refreshToken : Option String) : Request :=
  { cookies :=
      (match accessToken with
        | some v => [{ Name := "access_token", Value := v }]
        | none => []) ++
      (match refreshToken with
        | some v => [{ Name := "refresh_token", Value := v }]
        | none => []),
    path := "/v1/auth/logout" }

/-- The context in which the sample request arrives. -/
def sampleContext (accessToken refreshToken : Option String) (w : World) : Context World :=
  { request := sampleRequest accessToken refreshToken, world := w }

/-- The handler over the SQLite repositories and the sample token provider. -/
def sampleRun (accessToken refreshToken : Option String) (w : World) : Outcome × Context World :=
  SessionAuth sampleAmbient sampleTokenProvider NewSessionRepository NewAuthRepository
    (sampleContext accessToken refreshToken w)

/-! ## Stages of a request

The values a request meets on its way through the handler, and the checks it has passed at each
stage, each check on the world the previous one left. -/

/-- The values met along the way: the two cookies, what each dependency returned, and the world
after each call. -/
structure Steps (σ : Type) where
  cookie : Cookie
  accessClaims : AccessTokenClaims
  w1 : σ
  sessionID : UUID
  session : Session
  w2 : σ
  refreshCookie : Cookie
  refreshClaims : RefreshTokenClaims
  w3 : σ
  user : User
  w4 : σ
  newAccessToken : String
  w5 : σ
  newRefreshToken : String
  w6 : σ

/-- The `access_token` cookie is present and non-empty, `ParseAccessToken` succeeds on it, and
the session id of its claims parses as a UUID. -/
def AccessVerified {σ : Type} (amb : Ambient σ) (tp : TokenProvider σ) (c : Context σ)
    (p : Steps σ) : Prop :=
  c.request.Cookie "access_token" = some p.cookie ∧ p.cookie.Value ≠ "" ∧
  tp.ParseAccessToken p.cookie.Value c.world = (.ok p.accessClaims, p.w1) ∧
  amb.uuidParse p.accessClaims.SessionID = .ok p.sessionID

/-- The access token is verified and `FindSessionByID` succeeds. -/
def SessionFound {σ : Type} (amb : Ambient σ) (tp : TokenProvider σ) (sr : SessionRepository σ)
    (c : Context σ) (p : Steps σ) : Prop :=
  AccessVerified amb tp c p ∧ sr.FindSessionByID p.sessionID p.w1 = (.ok p.session, p.w2)

/-- The session is found, the `refresh_token` cookie is present and non-empty, and
`ParseRefreshToken` succeeds on it. -/
def RefreshVerified {σ : Type} (amb : Ambient σ) (tp : TokenProvider σ)
    (sr : SessionRepository σ) (c : Context σ) (p : Steps σ) : Prop :=
  SessionFound amb tp sr c p ∧
  c.request.Cookie "refresh_token" = some p.refreshCookie ∧ p.refreshCookie.Value ≠ "" ∧
  tp.ParseRefreshToken p.refreshCookie.Value p.w2 = (.ok p.refreshClaims, p.w3)

/-- The refresh token is verified and `FindUserByID` succeeds on the session's user id. -/
def OwnerFound {σ : Type} (amb : Ambient σ) (tp : TokenProvider σ) (sr : SessionRepository σ)
    (ar : AuthRepository σ) (c : Context σ) (p : Steps σ) : Prop :=
  RefreshVerified amb tp sr c p ∧ ar.FindUserByID p.session.UserID p.w3 = (.ok p.user, p.w4)

/-- The owner is found and both token generations succeed: every validation step of the
handler has passed. -/
def TokensIssued {σ : Type} (amb : Ambient σ) (tp : TokenProvider σ) (sr : SessionRepository σ)
    (ar : AuthRepository σ) (c : Context σ) (p : Steps σ) : Prop :=
  OwnerFound amb tp sr ar c p ∧
  tp.GenerateAccessToken (amb.uuidString p.session.ID) p.w4 = (.ok p.newAccessToken, p.w5) ∧
  tp.GenerateRefreshToken (amb.uuidString p.user.ID) (amb.uuidString p.session.ID) p.w5 =
    (.ok p.newRefreshToken, p.w6)

/-- The clock reading taken by the handler once both tokens are issued. -/
def Steps.now {σ : Type} (amb : Ambient σ) (p : Steps σ) : Time := (amb.timeNow p.w6).1

/-- The expiry the handler computes from that reading: now plus the refresh lifetime. -/
def Steps.newExpiry {σ : Type} (amb : Ambient σ) (p : Steps σ) : Time :=
  Time.Add (p.now amb) (minutes amb.Env.Token.RefreshTokenExpiry)

/-- The context a rotation leaves: the two new cookies, the identity, the eight calls, and the
world as `UpdateSessionExpiry` left it. -/
def rotated {σ : Type} (amb : Ambient σ) (sr : SessionRepository σ) (c : Context σ)
    (p : Steps σ) : Context σ :=
  { request := c.request,
    cookies := c.cookies ++
      [{ Name := "access_token", Value := p.newAccessToken, Path := "/",
         MaxAge := wrapInt64 (amb.Env.Token.AccessTokenExpiry * 60), HttpOnly := true,
         Secure := decide (amb.Env.Env = "production"), SameSite := SameSiteStrictMode },
       { Name := "refresh_token", Value := p.newRefreshToken, Path := "/",
         MaxAge := wrapInt64 (amb.Env.Token.RefreshTokenExpiry * 60), HttpOnly := true,
         Secure := decide (amb.Env.Env = "production"), SameSite := SameSiteStrictMode }],
    store := c.store ++
      [("user_id", amb.uuidString p.user.ID), ("email", p.user.Email), ("name", p.user.Name),
       ("avatar", p.user.Avatar), ("session_id", amb.uuidString p.session.ID)],
    calls := c.calls ++
      [Call.ParseAccessToken p.cookie.Value, Call.FindSessionByID p.sessionID,
       Call.ParseRefreshToken p.refreshCookie.Value, Call.FindUserByID p.session.UserID,
       Call.GenerateAccessToken (amb.uuidString p.session.ID),
       Call.GenerateRefreshToken (amb.uuidString p.user.ID) (amb.uuidString p.session.ID),
       Call.timeNow (p.now amb), Call.UpdateSessionExpiry p.sessionID (p.newExpiry amb)],
    world := (sr.UpdateSessionExpiry p.sessionID (p.newExpiry amb) (amb.timeNow p.w6).2).2 }

/-- The values the sample request meets on the sample world when it carries both valid
tokens. -/
def sampleSteps : Steps World :=
  { cookie := { Name := "access_token", Value := "valid-token" },
    accessClaims := { SessionID := "00000000-0000-0000-0000-000000000001" },
    w1 := sampleWorld,
    sessionID := sampleSessionID,
    session := sampleSession,
    w2 := sampleWorld,
    refreshCookie := { Name := "refresh_token", Value := "valid-refresh" },
    refreshClaims := { UserID := "00000000-0000-0000-0000-000000000002",
                       SessionID := "00000000-0000-0000-0000-000000000001" },
    w3 := sampleWorld,
    user := sampleUser,
    w4 := sampleWorld,
    newAccessToken := "new-access",
    w5 := sampleWorld,
    newRefreshToken := "new-refresh",
    w6 := sampleWorld }

/-- The sample steps of a request whose refresh cookie is `expired-refresh`. -/
def sampleStepsExpired : Steps World :=
  { sampleSteps with refreshCookie := { Name := "refresh_token", Value := "expired-refresh" } }

/-- The sample world once the sample session is gone. -/
def worldWithoutSession : World := { user := [sampleUser], clock := sampleNow }

/-- The sample world without the owner of the sample session. -/
def worldWithoutUser : World := { session := [sampleSession], clock := sampleNow }

/-- The sample world with a script of statement outcomes. -/
def worldWithFaults (faults : List (Option Error)) : World :=
  { sampleWorld with faults := faults }

/-- The sample steps with every intermediate world replaced by `w`. -/
def sampleStepsOn (w : World) : Steps World :=
  { sampleSteps with w1 := w, w2 := w, w3 := w, w4 := w, w5 := w, w6 := w }

/-- The sample world when the stored session expires 20000 minutes after `sampleNow`, later
than a rotation with the default refresh lifetime of 10080 minutes would set. -/
def worldWithLongSession : World :=
  { session := [{ sampleSession with ExpiresAt := sampleNow + 20000 * Minute }],
    user := [sampleUser], clock := sampleNow }

/-- A second session of the sample user, expired a minute before `sampleNow`. -/
def expiredSession : Session :=
  { ID := ⟨3⟩, UserID := sampleUserID, ExpiresAt := sampleNow - Minute }

/-- The sample world with the expired session next to the sample session. -/
def worldWithExpiredSession : World :=
  { session := [sampleSession, expiredSession], user := [sampleUser], clock := sampleNow }

/-- The sample world when the stored session expires exactly at the clock reading. -/
def worldWithSessionExpiringNow : World :=
  { session := [{ sampleSession with ExpiresAt := sampleNow }], user := [sampleUser],
    clock := sampleNow }

/-! ## Rejections

The seven ways in which the handler answers that authentication is required, each with the
checks passed before and the one that failed. -/

/-- The kinds of rejection. -/
inductive Rejection where
  | MissingAccessToken
  | InvalidAccessToken
  | MalformedSessionRef
  | SessionGone
  | MissingRefreshToken
  | RefreshInvalid
  | OwnerMissing
  deriving DecidableEq, Repr

/-- The request is rejected in the given way, its values being those of the steps `p`. -/
def Rejected {σ : Type} (amb : Ambient σ) (tp : TokenProvider σ) (sr : SessionRepository σ)
    (ar : AuthRepository σ) (c : Context σ) (p : Steps σ) : Rejection → Prop
  | .MissingAccessToken =>
    c.request.Cookie "access_token" = none ∨
      ∃ k, c.request.Cookie "access_token" = some k ∧ k.Value = ""
  | .InvalidAccessToken =>
    c.request.Cookie "access_token" = some p.cookie ∧ p.cookie.Value ≠ "" ∧
      ∃ err, tp.ParseAccessToken p.cookie.Value c.world = (.error err, p.w1)
  | .MalformedSessionRef =>
    c.request.Cookie "access_token" = some p.cookie ∧ p.cookie.Value ≠ "" ∧
      tp.ParseAccessToken p.cookie.Value c.world = (.ok p.accessClaims, p.w1) ∧
      ∃ err, amb.uuidParse p.accessClaims.SessionID = .error err
  | .SessionGone =>
    AccessVerified amb tp c p ∧
      ∃ err, sr.FindSessionByID p.sessionID p.w1 = (.error err, p.w2) ∧
        errorsIs err Error.ErrSessionNotFound = true
  | .MissingRefreshToken =>
    SessionFound amb tp sr c p ∧
      (c.request.Cookie "refresh_token" = none ∨
        ∃ k, c.request.Cookie "refresh_token" = some k ∧ k.Value = "")
  | .RefreshInvalid =>
    SessionFound amb tp sr c p ∧
      c.request.Cookie "refresh_token" = some p.refreshCookie ∧ p.refreshCookie.Value ≠ "" ∧
      ∃ err, tp.ParseRefreshToken p.refreshCookie.Value p.w2 = (.error err, p.w3)
  | .OwnerMissing =>
    RefreshVerified amb tp sr c p ∧
      ∃ err, ar.FindUserByID p.session.UserID p.w3 = (.error err, p.w4) ∧
        errorsIs err Error.ErrUserNotFound = true

/-- The calls the handler has made when it rejects in the given way. -/
def Rejection.calls {σ : Type} (p : Steps σ) : Rejection → List Call
  | .MissingAccessToken => []
  | .InvalidAccessToken => [Call.ParseAccessToken p.cookie.Value]
  | .MalformedSessionRef => [Call.ParseAccessToken p.cookie.Value]
  | .SessionGone => [Call.ParseAccessToken p.cookie.Value, Call.FindSessionByID p.sessionID]
  | .MissingRefreshToken =>
    [Call.ParseAccessToken p.cookie.Value, Call.FindSessionByID p.sessionID]
  | .RefreshInvalid =>
    [Call.ParseAccessToken p.cookie.Value, Call.FindSessionByID p.sessionID,
     Call.ParseRefreshToken p.refreshCookie.Value, Call.DeleteSession p.sessionID]
  | .OwnerMissing =>
    [Call.ParseAccessToken p.cookie.Value, Call.FindSessionByID p.sessionID,
     Call.ParseRefreshToken p.refreshCookie.Value, Call.FindUserByID p.session.UserID]

/-- The cookies the handler writes when it rejects in the given way: the two clearing cookies
on the three rejections that come with `clearAuthCookies`, none on the other four. -/
def Rejection.cookies : Rejection → List Cookie
  | .SessionGone | .MissingRefreshToken | .RefreshInvalid =>
    [{ Name := "access_token", Value := "", Path := "/", MaxAge := -1, HttpOnly := true },
     { Name := "refresh_token", Value := "", Path := "/", MaxAge := -1, HttpOnly := true }]
  | _ => []

/-! ## Sample tokens

A provider with the default lifetimes, and a stand-in for the library whose token strings are
`<alg>.<claims>.<signature>` for a handful of claim sets, every text being signed `signed`. -/

def sampleJWT : JWTProvider := NewJWTProvider {} ⟨1⟩ ⟨1⟩

/-- The claims of an access token for the sample session issued at `sampleNow`, which is
1764403200 in Unix seconds. -/
def sampleAccessClaims : MapClaims :=
  [("sub", Value.string "00000000-0000-0000-0000-000000000001"),
   ("iat", Value.number 1764403200),
   ("exp", Value.number 1764406800)]

/-- The claims of a refresh token for the sample user and session issued at `sampleNow`. -/
def sampleRefreshClaims : MapClaims :=
  [("sub", Value.string "00000000-0000-0000-0000-000000000002"),
   ("session_id", Value.string "00000000-0000-0000-0000-000000000001"),
   ("iat", Value.number 1764403200),
   ("exp", Value.number 1765008000)]

/-- The claims of a refresh token whose `exp` is the number 0, January 1, 1970. -/
def zeroExpClaims : MapClaims :=
  [("sub", Value.string "00000000-0000-0000-0000-000000000002"),
   ("session_id", Value.string "00000000-0000-0000-0000-000000000001"),
   ("iat", Value.number 1764403200),
   ("exp", Value.number 0)]

def sampleLib : JWTLibrary where
  signingString := fun header claims =>
    (match List.lookup "alg" header with
      | some (.string alg) => alg
      | _ => "") ++ "." ++
    (if claims = sampleAccessClaims then "access"
      else if claims = sampleRefreshClaims then "refresh"
      else if claims = zeroExpClaims then "zero"
      else "other")
  sign := fun _ _ _ => .ok "signed"
  verify := fun _ _ _ sig =>
    if sig = "signed" then none else some (.other "crypto/rsa: verification error")
  decode := fun tokenString =>
    if tokenString = "RS256.access.signed" then
      .ok { Header := headerOf "RS256", Claims := sampleAccessClaims,
            signingString := "RS256.access", Signature := "signed" }
    else if tokenString = "RS256.refresh.signed" then
      .ok { Header := headerOf "RS256", Claims := sampleRefreshClaims,
            signingString := "RS256.refresh", Signature := "signed" }
    else if tokenString = "RS256.zero.signed" then
      .ok { Header := headerOf "RS256", Claims := zeroExpClaims,
            signingString := "RS256.zero", Signature := "signed" }
    else if tokenString = "RS384.access.signed" then
      .ok { Header := headerOf "RS384", Claims := sampleAccessClaims,
            signingString := "RS384.access", Signature := "signed" }
    else if tokenString = "none.access." then
      .ok { Header := headerOf "none", Claims := sampleAccessClaims,
            signingString := "none.access", Signature := "" }
    else .error (.other "token contains an invalid number of segments")

/-- A provider configured with access tokens of 200000000 minutes, some 380 years: more
nanoseconds than a `time.Duration` holds. -/
def longLivedJWT : JWTProvider :=
  NewJWTProvider { Token := { AccessTokenExpiry := 200000000 } } ⟨1⟩ ⟨1⟩

/-! ## `service/auth.go`

The service takes a `context.Context`, not the `echo.Context` of a request: what it does is
collected in a `Run`, the trace of its dependency calls and the world they act on. The function
`uuid.New()` of the uuid library is a parameter, like the clock. The repositories are handed
the records `user` and `session` by pointer; what is written through the pointer is gorm's
timestamps, which the service does not read afterwards, so the records are passed by value. -/

/-- The record `domain.CreateAccountRequest`. -/
structure CreateAccountRequest where
  Name : String := ""
  Avatar : String := ""
  Email : String := ""
  Password : String := ""
  deriving DecidableEq, Repr

/-- The record `domain.LoginRequest`. -/
structure LoginRequest where
  Email : String := ""
  Password : String := ""
  deriving DecidableEq, Repr

/-- The interface `domain.PasswordHasher` over a world state `σ`, with the two methods that
`security.BcryptHasher` implements and the service calls. -/
structure PasswordHasher (σ : Type) where
  Hash : String → σ → Except Error String × σ
  Check : String → String → σ → Option Error × σ

/-- The record `AuthServiceImpl`. -/
structure AuthServiceImpl (σ : Type) where
  authRepository : AuthRepository σ
  sessionRepository : SessionRepository σ
  tokenProvider : TokenProvider σ
  passwordHasher : PasswordHasher σ

/-- The dependency calls a service method has made so far, oldest first, and the world they
act on. -/
structure Run (σ : Type) where
  calls : List Call := []
  world : σ

/-- A dependency method is run on the current world; the call is appended to the trace. -/
def Run.invoke {σ α : Type} (t : Run σ) (call : Call) (f : σ → α × σ) : α × Run σ :=
  ((f t.world).1, { calls := t.calls ++ [call], world := (f t.world).2 })

/-- The clock is read through `time.Now()`; the reading is appended to the trace. -/
def Run.timeNow {σ : Type} (t : Run σ) (amb : Ambient σ) : Time × Run σ :=
  ((amb.timeNow t.world).1,
    { calls := t.calls ++ [Call.timeNow (amb.timeNow t.world).1],
      world := (amb.timeNow t.world).2 })

/-- An id is drawn with `uuid.New()`; the id is appended to the trace. -/
def Run.uuidNew {σ : Type} (t : Run σ) (uuidNew : σ → UUID × σ) : UUID × Run σ :=
  ((uuidNew t.world).1,
    { calls := t.calls ++ [Call.uuidNew (uuidNew t.world).1], world := (uuidNew t.world).2 })

def AuthServiceImpl.CreateAccount {σ : Type} (amb : Ambient σ) (uuidNew : σ → UUID × σ)
    (s : AuthServiceImpl σ) (req : CreateAccountRequest) (t : Run σ) :
    Except Error AuthResponse × Run σ :=
  match t.invoke (.FindUserByEmail req.Email) (s.authRepository.FindUserByEmail req.Email) with
  | (.ok _, t) => (.error Error.ErrEmailAlreadyExists, t)
  | (.error err, t) =>
  if ¬ errorsIs err Error.ErrUserNotFound then
    (.error (.wrapped "failed to check existing email" err), t)
  else
  match t.invoke (.Hash req.Password) (s.passwordHasher.Hash req.Password) with
  | (.error err, t) => (.error (.wrapped "failed to hash password" err), t)
  | (.ok hashedPassword, t) =>
  let (id, t) := t.uuidNew uuidNew
  let user : User :=
    { ID := id, Name := req.Name, Email := req.Email, Password := hashedPassword,
      Avatar := req.Avatar }
  match t.invoke (.CreateUser user) (s.authRepository.CreateUser user) with
  | (some err, t) => (.error (.wrapped "failed to create user" err), t)
  | (none, t) =>
  let (sid, t) := t.uuidNew uuidNew
  let (now, t) := t.timeNow amb
  let session : Session :=
    { ID := sid, UserID := user.ID,
      ExpiresAt := Time.Add now (minutes amb.Env.Token.RefreshTokenExpiry) }
  match t.invoke (.CreateSession session) (s.sessionRepository.CreateSession session) with
  | (some err, t) => (.error (.wrapped "failed to create session" err), t)
  | (none, t) =>
  match t.invoke (.GenerateAccessToken (amb.uuidString session.ID))
      (s.tokenProvider.GenerateAccessToken (amb.uuidString session.ID)) with
  | (.error err, t) => (.error (.wrapped "failed to generate access token" err), t)
  | (.ok accessToken, t) =>
  match t.invoke (.GenerateRefreshToken (amb.uuidString user.ID) (amb.uuidString session.ID))
      (s.tokenProvider.GenerateRefreshToken (amb.uuidString user.ID)
        (amb.uuidString session.ID)) with
  | (.error err, t) => (.error (.wrapped "failed to generate refresh token" err), t)
  | (.ok refreshToken, t) =>
  (.ok { AccessToken := accessToken, RefreshToken := refreshToken }, t)

def AuthServiceImpl.Login {σ : Type} (amb : Ambient σ) (uuidNew : σ → UUID × σ)
    (s : AuthServiceImpl σ) (req : LoginRequest) (t : Run σ) :
    Except Error AuthResponse × Run σ :=
  match t.invoke (.FindUserByEmail req.Email) (s.authRepository.FindUserByEmail req.Email) with
  | (.error err, t) =>
    if errorsIs err Error.ErrUserNotFound then (.error Error.ErrInvalidCredentials, t)
    else (.error (.wrapped "failed to find user" err), t)
  | (.ok user, t) =>
  if user.DeletedAt ≠ none then (.error Error.ErrUserDeactivated, t) else
  match t.invoke (.Check req.Password user.Password)
      (s.passwordHasher.Check req.Password user.Password) with
  | (some _, t) => (.error Error.ErrInvalidCredentials, t)
  | (none, t) =>
  let (sid, t) := t.uuidNew uuidNew
  let (now, t) := t.timeNow amb
  let session : Session :=
    { ID := sid, UserID := user.ID,
      ExpiresAt := Time.Add now (minutes amb.Env.Token.RefreshTokenExpiry) }
  match t.invoke (.CreateSession session) (s.sessionRepository.CreateSession session) with
  | (some createErr, t) => (.error (.wrapped "failed to create session" createErr), t)
  | (none, t) =>
  match t.invoke (.GenerateAccessToken (amb.uuidString session.ID))
      (s.tokenProvider.GenerateAccessToken (amb.uuidString session.ID)) with
  | (.error err, t) => (.error (.wrapped "failed to generate access token" err), t)
  | (.ok accessToken, t) =>
  match t.invoke (.GenerateRefreshToken (amb.uuidString user.ID) (amb.uuidString session.ID))
      (s.tokenProvider.GenerateRefreshToken (amb.uuidString user.ID)
        (amb.uuidString session.ID)) with
  | (.error err, t) => (.error (.wrapped "failed to generate refresh token" err), t)
  | (.ok refreshToken, t) =>
  (.ok { AccessToken := accessToken, RefreshToken := refreshToken }, t)

def AuthServiceImpl.DeleteUser {σ : Type} (amb : Ambient σ) (s : AuthServiceImpl σ)
    (userID : String) (t : Run σ) : Option Error × Run σ :=
  match amb.uuidParse userID with
  | .error err => (some (.wrapped "invalid user ID" err), t)
  | .ok id =>
  match t.invoke (.DeleteSessionsByUserID id) (s.sessionRepository.DeleteSessionsByUserID id) with
  | (some err, t) => (some (.wrapped "failed to delete user sessions" err), t)
  | (none, t) =>
  match t.invoke (.DeleteUser id) (s.authRepository.DeleteUser id) with
  | (some err, t) => (some (.wrapped "failed to delete user" err), t)
  | (none, t) => (none, t)

def AuthServiceImpl.ReactivateAccount {σ : Type} (amb : Ambient σ) (uuidNew : σ → UUID × σ)
    (s : AuthServiceImpl σ) (req : LoginRequest) (t : Run σ) :
    Except Error AuthResponse × Run σ :=
  match t.invoke (.FindUserByEmail req.Email) (s.authRepository.FindUserByEmail req.Email) with
  | (.error err, t) =>
    if errorsIs err Error.ErrUserNotFound then (.error Error.ErrInvalidCredentials, t)
    else (.error (.wrapped "failed to find user" err), t)
  | (.ok user, t) =>
  if user.DeletedAt = none then (.error Error.ErrUserNotDeactivated, t) else
  match t.invoke (.Check req.Password user.Password)
      (s.passwordHasher.Check req.Password user.Password) with
  | (some _, t) => (.error Error.ErrInvalidCredentials, t)
  | (none, t) =>
  let user : User := { user with DeletedAt := none }
  match t.invoke (.UpdateUser user) (s.authRepository.UpdateUser user) with
  | (some updateErr, t) => (.error (.wrapped "failed to reactivate user" updateErr), t)
  | (none, t) =>
  let (sid, t) := t.uuidNew uuidNew
  let (now, t) := t.timeNow amb
  let session : Session :=
    { ID := sid, UserID := user.ID,
      ExpiresAt := Time.Add now (minutes amb.Env.Token.RefreshTokenExpiry) }
  match t.invoke (.CreateSession session) (s.sessionRepository.CreateSession session) with
  | (some createErr, t) => (.error (.wrapped "failed to create session" createErr), t)
  | (none, t) =>
  match t.invoke (.GenerateAccessToken (amb.uuidString session.ID))
      (s.tokenProvider.GenerateAccessToken (amb.uuidString session.ID)) with
  | (.error err, t) => (.error (.wrapped "failed to generate access token" err), t)
  | (.ok accessToken, t) =>
  match t.invoke (.GenerateRefreshToken (amb.uuidString user.ID) (amb.uuidString session.ID))
      (s.tokenProvider.GenerateRefreshToken (amb.uuidString user.ID)
        (amb.uuidString session.ID)) with
  | (.error err, t) => (.error (.wrapped "failed to generate refresh token" err), t)
  | (.ok refreshToken, t) =>
  (.ok { AccessToken := accessToken, RefreshToken := refreshToken }, t)

/-- The statements on which `CreateAccount`, `Login` and `ReactivateAccount` each end, for the
user with the id `userID`. The source repeats them in the three methods, and so do the
definitions above; what they do is proved once, on this copy. -/
def AuthServiceImpl.startSession {σ : Type} (amb : Ambient σ) (uuidNew : σ → UUID × σ)
    (s : AuthServiceImpl σ) (userID : UUID) (t : Run σ) : Except Error AuthResponse × Run σ :=
  let (sid, t) := t.uuidNew uuidNew
  let (now, t) := t.timeNow amb
  let session : Session :=
    { ID := sid, UserID := userID,
      ExpiresAt := Time.Add now (minutes amb.Env.Token.RefreshTokenExpiry) }
  match t.invoke (.CreateSession session) (s.sessionRepository.CreateSession session) with
  | (some err, t) => (.error (.wrapped "failed to create session" err), t)
  | (none, t) =>
  match t.invoke (.GenerateAccessToken (amb.uuidString session.ID))
      (s.tokenProvider.GenerateAccessToken (amb.uuidString session.ID)) with
  | (.error err, t) => (.error (.wrapped "failed to generate access token" err), t)
  | (.ok accessToken, t) =>
  match t.invoke (.GenerateRefreshToken (amb.uuidString userID) (amb.uuidString session.ID))
      (s.tokenProvider.GenerateRefreshToken (amb.uuidString userID)
        (amb.uuidString session.ID)) with
  | (.error err, t) => (.error (.wrapped "failed to generate refresh token" err), t)
  | (.ok refreshToken, t) =>
  (.ok { AccessToken := accessToken, RefreshToken := refreshToken }, t)

/-- The calls with which a service method creates the session of a user and issues its tokens:
a fresh id, a clock reading, the session expiring the refresh lifetime after the reading, and
the two tokens generated for the ids of the session and of the user. -/
def sessionCalls {σ : Type} (amb : Ambient σ) (userID sid : UUID) (now : Time) : List Call :=
  [Call.uuidNew sid, Call.timeNow now,
   Call.CreateSession
     { ID := sid, UserID := userID,
       ExpiresAt := Time.Add now (minutes amb.Env.Token.RefreshTokenExpiry) },
   Call.GenerateAccessToken (amb.uuidString sid),
   Call.GenerateRefreshToken (amb.uuidString userID) (amb.uuidString sid)]

/-- From the world `w`, the session of the user `userID` is created with the fresh id `sid` at
the clock reading `now`, `CreateSession` succeeds on it, and the tokens of `response` are the
ones generated for the ids of that session and of that user; `final` is the world left. -/
def SessionStarted {σ : Type} (amb : Ambient σ) (uuidNew : σ → UUID × σ)
    (s : AuthServiceImpl σ) (userID : UUID) (w : σ) (sid : UUID) (now : Time)
    (response : AuthResponse) (final : σ) : Prop :=
  sid = (uuidNew w).1 ∧ now = (amb.timeNow (uuidNew w).2).1 ∧
  ∃ w2 w3,
    s.sessionRepository.CreateSession
      { ID := sid, UserID := userID,
        ExpiresAt := Time.Add now (minutes amb.Env.Token.RefreshTokenExpiry) }
      (amb.timeNow (uuidNew w).2).2 = (none, w2) ∧
    s.tokenProvider.GenerateAccessToken (amb.uuidString sid) w2 =
      (.ok response.AccessToken, w3) ∧
    s.tokenProvider.GenerateRefreshToken (amb.uuidString userID) (amb.uuidString sid) w3 =
      (.ok response.RefreshToken, final)

/-- The sentinel errors of `domain` with which the service refuses a request. -/
def domainErrors : List Error :=
  [Error.ErrInvalidCredentials, Error.ErrUserDeactivated, Error.ErrUserNotDeactivated,
   Error.ErrEmailAlreadyExists]

/-! ## `handler/auth.go` -/

/-- The function `setAuthCookies` of the package `handler`, which repeats the one of the
middleware. -/
def handler.setAuthCookies {σ : Type} (amb : Ambient σ) (c : Context σ)
    (response : AuthResponse) : Context σ :=
  let isProduction := decide (amb.Env.Env = "production")
  (c.SetCookie
    { Name := "access_token", Value := response.AccessToken, Path := "/",
      MaxAge := wrapInt64 (amb.Env.Token.AccessTokenExpiry * 60), HttpOnly := true,
      Secure := isProduction, SameSite := SameSiteStrictMode }).SetCookie
    { Name := "refresh_token", Value := response.RefreshToken, Path := "/",
      MaxAge := wrapInt64 (amb.Env.Token.RefreshTokenExpiry * 60), HttpOnly := true,
      Secure := isProduction, SameSite := SameSiteStrictMode }

/-! ## Further sample data -/

/-- The call with the token of a `ParseRefreshToken` blanked: what the trace shows apart from
the refresh token that was presented. -/
def Call.blankRefreshToken : Call → Call
  | .ParseRefreshToken _ => .ParseRefreshToken ""
  | call => call

/-- The sample token provider when it also verifies `foreign-refresh`, a refresh token issued
for the user `…0004` and the session `…0003`. -/
def foreignTokenProvider : TokenProvider World :=
  TokenProvider.stateless
    (fun _ _ => .ok "new-access")
    (fun _ _ _ => .ok "new-refresh")
    (fun _ tokenString =>
      if tokenString = "valid-token" then
        .ok { SessionID := "00000000-0000-0000-0000-000000000001" }
      else .error (.other "invalid"))
    (fun _ tokenString =>
      if tokenString = "valid-refresh" then
        .ok { UserID := "00000000-0000-0000-0000-000000000002",
              SessionID := "00000000-0000-0000-0000-000000000001" }
      else if tokenString = "foreign-refresh" then
        .ok { UserID := "00000000-0000-0000-0000-000000000004",
              SessionID := "00000000-0000-0000-0000-000000000003" }
      else .error (.other "expired"))

/-- The surroundings of a deployment whose `ENV` is `staging`. -/
def stagingAmbient : Ambient World :=
  World.ambient { Env := "staging" } sampleUUIDParse sampleUUIDString

/-- The surroundings of a deployment whose `ENV` is `production`. -/
def productionAmbient : Ambient World :=
  World.ambient { Env := "production" } sampleUUIDParse sampleUUIDString

/-- The sample world with a clock that advances by one minute at each of its next four
readings. -/
def tickingWorld : World :=
  { sampleWorld with ticks := [60000000000, 60000000000, 60000000000, 60000000000] }

/-- The values the sample request meets on the ticking world: the lookup of the session reads
the clock once. -/
def tickingSteps : Steps World :=
  { sampleSteps with
    w1 := tickingWorld,
    w2 := (World.timeNow tickingWorld).2,
    w3 := (World.timeNow tickingWorld).2,
    w4 := (World.timeNow tickingWorld).2,
    w5 := (World.timeNow tickingWorld).2,
    w6 := (World.timeNow tickingWorld).2 }

/-- A stand-in for bcrypt: the hash of a password is the password behind the prefix `hash:`. -/
def sampleHasher : PasswordHasher World where
  Hash := fun password w => (.ok ("hash:" ++ password), w)
  Check := fun password hash w =>
    (if hash = "hash:" ++ password then none
     else some (.other "crypto/bcrypt: hashedPassword is not the hash of the given password"), w)

/-- A stand-in for `uuid.New()`: the ids are numbered after the rows stored so far. -/
def sampleUUIDNew (w : World) : UUID × World := (⟨10 + w.user.length + w.session.length⟩, w)

/-- The service over the SQLite repositories, the sample token provider and the sample
hasher. -/
def sampleService : AuthServiceImpl World where
  authRepository := NewAuthRepository
  sessionRepository := NewSessionRepository
  tokenProvider := sampleTokenProvider
  passwordHasher := sampleHasher

/-- The sample user once registered with the password `secret`. -/
def registeredUser : User := { sampleUser with Password := "hash:secret" }

/-- A world with the registered user and no session. -/
def worldWithRegisteredUser : World := { user := [registeredUser], clock := sampleNow }

/-- The registered user, deactivated a minute before `sampleNow`. -/
def deactivatedUser : User := { registeredUser with DeletedAt := some (sampleNow - Minute) }

/-- A world with the deactivated user and no session. -/
def worldWithDeactivatedUser : World := { user := [deactivatedUser], clock := sampleNow }

/-- A session of another user than the sample user. -/
def otherSession : Session :=
  { ID := ⟨5⟩, UserID := ⟨6⟩, ExpiresAt := sampleNow + 60 * Minute }

/-- The sample world with a session of another user next to the sample session. -/
def worldWithOtherSession : World :=
  { session := [sampleSession, otherSession], user := [sampleUser], clock := sampleNow }

/-- The surroundings of a deployment whose `REFRESH_TOKEN_EXPIRY` is 200000000 minutes. -/
def longRefreshAmbient : Ambient World :=
  World.ambient { Token := { RefreshTokenExpiry := 200000000 } } sampleUUIDParse
    sampleUUIDString

/-- The request to register `new@test.com`. -/
def sampleRegistration : CreateAccountRequest :=
  { Name := "New", Email := "new@test.com", Password := "secret12" }

/-- The sample service when the token provider cannot sign: both generations fail. -/
def brokenService : AuthServiceImpl World where
  authRepository := NewAuthRepository
  sessionRepository := NewSessionRepository
  tokenProvider := TokenProvider.stateless
    (fun _ _ => .error (.other "failed to sign token"))
    (fun _ _ _ => .error (.other "failed to sign token"))
    (fun _ _ => .error (.other "invalid"))
    (fun _ _ => .error (.other "invalid"))
  passwordHasher := sampleHasher

/-- Central European time in 2024: an hour ahead of UTC, and two hours ahead from 31 March
01:00 UTC until 27 October 01:00 UTC. -/
def berlin : Location :=
  { offset := 3600, changes := [(timeUnix 1711846800, 7200), (timeUnix 1729990800, 3600)] }

/-- A session that expires on 27 October 2024 at 01:15 UTC, which is 02:15 in Berlin, a
quarter of an hour after the clocks there went back from 03:00 to 02:00. -/
def berlinSession : Session :=
  { ID := sampleSessionID, UserID := sampleUserID, ExpiresAt := timeUnix 1729991700 }

/-- A world in Berlin on 27 October 2024 at 00:30 UTC, which is 02:30 there, half an hour
before the clocks go back: the session expires 45 minutes later. -/
def berlinWorld : World :=
  { session := [berlinSession], user := [sampleUser], clock := timeUnix 1729989000,
    location := berlin }

/-- A world in Berlin whose next two clock readings are 00:10 UTC and 00:20 UTC of 27 October
2024, which are 02:10 and 02:20 there: the session expires more than 50 minutes after both. -/
def berlinWorldTwice : World :=
  { session := [berlinSession], user := [sampleUser], clock := timeUnix 1729987800,
    ticks := [0, 600000000000], location := berlin }

/-! ## Properties -/

/-! ### Helper lemmas -/

/-- A request that passes every stage is handed to `next` in the rotated context. -/
theorem SessionAuth_of_tokensIssued {σ : Type} (amb : Ambient σ) (tp : TokenProvider σ)
    (sr : SessionRepository σ) (ar : AuthRepository σ) (c : Context σ) (p : Steps σ)
    (h : TokensIssued amb tp sr ar c p) :
    SessionAuth amb tp sr ar c = (Outcome.next, rotated amb sr c p) := by
  obtain ⟨⟨⟨⟨⟨h1, h2, h3, h4⟩, h5⟩, h6, h7, h8⟩, h9⟩, h10, h11⟩ := h
  simp [SessionAuth, Context.invoke, Context.timeNow, h1, h2, h3, h4, h5, h6, h7, h8, h9, h10,
    h11, rotated, setAuthCookies, Context.SetCookie, Context.Set, Steps.now, Steps.newExpiry]

/-- A request handed to `next` has passed every stage. -/
theorem SessionAuth_next_inv {σ : Type} (amb : Ambient σ) (tp : TokenProvider σ)
    (sr : SessionRepository σ) (ar : AuthRepository σ) (c : Context σ)
    (h : (SessionAuth amb tp sr ar c).1 = Outcome.next) :
    ∃ p, TokensIssued amb tp sr ar c p := by
  cases h1 : c.request.Cookie "access_token" with
  | none => simp [SessionAuth, h1, unauthorizedResponse] at h
  | some cookie =>
  by_cases h2 : cookie.Value = ""
  · simp [SessionAuth, h1, h2, unauthorizedResponse] at h
  rcases h3 : tp.ParseAccessToken cookie.Value c.world with ⟨_ | accessClaims, w1⟩
  · simp [SessionAuth, Context.invoke, h1, h2, h3, unauthorizedResponse] at h
  cases h4 : amb.uuidParse accessClaims.SessionID with
  | error e => simp [SessionAuth, Context.invoke, h1, h2, h3, h4, unauthorizedResponse] at h
  | ok sessionID =>
  rcases h5 : sr.FindSessionByID sessionID w1 with ⟨err | session, w2⟩
  · by_cases he : errorsIs err Error.ErrSessionNotFound = true <;>
      simp [SessionAuth, Context.invoke, h1, h2, h3, h4, h5, he, unauthorizedResponse,
        internalErrorResponse] at h
  cases h6 : c.request.Cookie "refresh_token" with
  | none => simp [SessionAuth, Context.invoke, h1, h2, h3, h4, h5, h6, unauthorizedResponse] at h
  | some refreshCookie =>
  by_cases h7 : refreshCookie.Value = ""
  · simp [SessionAuth, Context.invoke, h1, h2, h3, h4, h5, h6, h7, unauthorizedResponse] at h
  rcases h8 : tp.ParseRefreshToken refreshCookie.Value w2 with ⟨_ | refreshClaims, w3⟩
  · simp [SessionAuth, Context.invoke, h1, h2, h3, h4, h5, h6, h7, h8, unauthorizedResponse] at h
  rcases h9 : ar.FindUserByID session.UserID w3 with ⟨err | user, w4⟩
  · by_cases he : errorsIs err Error.ErrUserNotFound = true <;>
      simp [SessionAuth, Context.invoke, h1, h2, h3, h4, h5, h6, h7, h8, h9, he,
        unauthorizedResponse, internalErrorResponse] at h
  rcases h10 : tp.GenerateAccessToken (amb.uuidString session.ID) w4 with ⟨_ | newAccessToken, w5⟩
  · simp [SessionAuth, Context.invoke, h1, h2, h3, h4, h5, h6, h7, h8, h9, h10,
      internalErrorResponse] at h
  rcases h11 : tp.GenerateRefreshToken (amb.uuidString user.ID) (amb.uuidString session.ID) w5
    with ⟨_ | newRefreshToken, w6⟩
  · simp [SessionAuth, Context.invoke, h1, h2, h3, h4, h5, h6, h7, h8, h9, h10, h11,
      internalErrorResponse] at h
  exact ⟨⟨cookie, accessClaims, w1, sessionID, session, w2, refreshCookie, refreshClaims, w3,
    user, w4, newAccessToken, w5, newRefreshToken, w6⟩,
    ⟨⟨⟨⟨h1, h2, h3, h4⟩, h5⟩, h6, h7, h8⟩, h9⟩, h10, h11⟩

/-- The response of `unauthorizedResponse`, spelled out. -/
theorem unauthorizedResponse_eq {σ : Type} (c : Context σ) :
    unauthorizedResponse c =
      (Outcome.json 401
        { Type_ := "urn:auth-session-api/auth/unauthorized", Title := "Unauthorized",
          Status := 401, Detail := "Authentication required", Instance := c.request.path }, c) := by
  rfl

/-- The response of `internalErrorResponse`, spelled out. -/
theorem internalErrorResponse_eq {σ : Type} (c : Context σ) :
    internalErrorResponse c =
      (Outcome.json 500
        { Type_ := "urn:auth-session-api/auth/internal-error", Title := "Internal Server Error",
          Status := 500, Detail := "An unexpected error occurred",
          Instance := c.request.path }, c) := by
  rfl

/-- The context left by `clearAuthCookies`, spelled out. -/
theorem clearAuthCookies_eq {σ : Type} (c : Context σ) :
    clearAuthCookies c =
      { c with cookies := c.cookies ++
          [{ Name := "access_token", Value := "", Path := "/", MaxAge := -1, HttpOnly := true },
           { Name := "refresh_token", Value := "", Path := "/", MaxAge := -1,
             HttpOnly := true }] } := by
  simp [clearAuthCookies, Context.SetCookie]

/-- A product that fits an `int64` is not changed by the wrap-around. -/
theorem wrapInt64_of_fits (x : Int) (hlo : -(2 ^ 63) ≤ x) (hhi : x < 2 ^ 63) :
    wrapInt64 x = x := by
  unfold wrapInt64
  norm_num at hlo hhi ⊢
  omega

/-- Sending a statement leaves both tables as they are. -/
theorem World.exec_tables (w : World) :
    (World.exec w).2.session = w.session ∧ (World.exec w).2.user = w.user := by
  unfold World.exec
  split <;> simp

/-- Reading the clock leaves both tables as they are. -/
theorem World.timeNow_tables (w : World) :
    (World.timeNow w).2.session = w.session ∧ (World.timeNow w).2.user = w.user := by
  unfold World.timeNow
  split <;> simp

/-- A successful `FindSessionByID` leaves the table `session` as it was and returns a row of
it, the first one with the id asked for. -/
theorem FindSessionByID_ok (id : UUID) (w w2 : World) (session : Session)
    (h : SessionRepositoryImpl.FindSessionByID id w = (.ok session, w2)) :
    w2.session = w.session ∧ w.session.find? (fun r => r.ID = id) = some session := by
  unfold SessionRepositoryImpl.FindSessionByID SQLiteStorage.FindByID at h
  have he := (World.exec_tables w).1
  rcases hx : World.exec w with ⟨_ | e, wx⟩
  · rw [hx] at h he
    simp only at h he
    cases hf : List.find? (fun r => decide (r.ID = id)) wx.session with
    | none =>
      simp only [hf] at h
      split at h <;> simp at h
    | some dest =>
      simp only [hf] at h
      by_cases hz : Time.IsZero dest.ExpiresAt = true
      · simp only [hz, if_true, Prod.mk.injEq, Except.ok.injEq] at h
        obtain ⟨rfl, rfl⟩ := h
        exact ⟨he, by rw [← he]; exact hf⟩
      · have ht := (World.timeNow_tables wx).1
        rcases hn : World.timeNow wx with ⟨now, wn⟩
        rw [hn] at ht
        simp only at ht
        simp only [hz, hn] at h
        by_cases hb : Time.Before dest.ExpiresAt now = true
        · simp [hb] at h
        · simp only [hb, Bool.false_eq_true, if_false, Prod.mk.injEq, Except.ok.injEq] at h
          obtain ⟨rfl, rfl⟩ := h
          exact ⟨by rw [ht, he], by rw [← he]; exact hf⟩
  · rw [hx] at h
    simp only at h
    split at h <;> simp at h

/-- A successful `DeleteSession` leaves no row with the id in the table `session`. -/
theorem DeleteSession_ok (id : UUID) (w w2 : World) (removed : Session)
    (h : SessionRepositoryImpl.DeleteSession id w = (.ok removed, w2)) :
    ∀ r ∈ w2.session, r.ID ≠ id := by
  unfold SessionRepositoryImpl.DeleteSession SQLiteStorage.FindOneAndDelete at h
  rcases hx : World.exec w with ⟨_ | e, wx⟩
  · rw [hx] at h
    simp only at h
    cases hf : List.find? (fun r => decide (r.ID = id)) wx.session with
    | none => simp [hf] at h
    | some dest =>
      simp only [hf] at h
      rcases hy : World.exec wx with ⟨_ | e, wy⟩
      · rw [hy] at h
        simp only [Prod.mk.injEq, Except.ok.injEq] at h
        obtain ⟨-, rfl⟩ := h
        intro r hr
        simpa using (List.mem_filter.mp hr).2
      · rw [hy] at h
        simp at h
  · rw [hx] at h
    simp at h

/-- On a table without a row of the id, `FindSessionByID` fails; it reports `ErrSessionNotFound`
when its statement reaches the database. -/
theorem FindSessionByID_absent (id : UUID) (w : World) (h : ∀ r ∈ w.session, r.ID ≠ id) :
    (∃ err w2, SessionRepositoryImpl.FindSessionByID id w = (.error err, w2)) ∧
    ((World.exec w).1 = none →
      SessionRepositoryImpl.FindSessionByID id w =
        (.error Error.ErrSessionNotFound, (World.exec w).2)) := by
  have he := (World.exec_tables w).1
  have hf : ∀ wx : World, wx.session = w.session →
      List.find? (fun r => decide (r.ID = id)) wx.session = none := by
    intro wx hwx
    rw [hwx, List.find?_eq_none]
    intro r hr
    simpa using h r hr
  unfold SessionRepositoryImpl.FindSessionByID SQLiteStorage.FindByID
  rcases hx : World.exec w with ⟨_ | e, wx⟩
  · rw [hx] at he
    simp only at he
    simp only [hf wx he]
    exact ⟨⟨Error.ErrSessionNotFound, wx, by simp [errorsIs]⟩, fun _ => by simp [errorsIs]⟩
  · simp only
    refine ⟨?_, fun hn => by simp at hn⟩
    by_cases hr : errorsIs e Error.ErrRecordNotFound = true <;> simp [hr]

/-- How the handler answers a failed `FindSessionByID`. -/
theorem SessionAuth_of_find_error {σ : Type} (amb : Ambient σ) (tp : TokenProvider σ)
    (sr : SessionRepository σ) (ar : AuthRepository σ) (c : Context σ) (p : Steps σ)
    (h : AccessVerified amb tp c p) (err : Error) (w2 : σ)
    (hfind : sr.FindSessionByID p.sessionID p.w1 = (.error err, w2)) :
    SessionAuth amb tp sr ar c =
      if errorsIs err Error.ErrSessionNotFound = true then
        unauthorizedResponse (clearAuthCookies
          { request := c.request, cookies := c.cookies, store := c.store,
            calls := c.calls ++
              [Call.ParseAccessToken p.cookie.Value, Call.FindSessionByID p.sessionID],
            world := w2 })
      else
        internalErrorResponse
          { request := c.request, cookies := c.cookies, store := c.store,
            calls := c.calls ++
              [Call.ParseAccessToken p.cookie.Value, Call.FindSessionByID p.sessionID],
            world := w2 } := by
  obtain ⟨h1, h2, h3, h4⟩ := h
  simp [SessionAuth, Context.invoke, h1, h2, h3, h4, hfind]

/-- The sample request with both valid tokens passes every stage on the sample world. -/
theorem sample_tokensIssued :
    TokensIssued sampleAmbient sampleTokenProvider NewSessionRepository NewAuthRepository
      (sampleContext (some "valid-token") (some "valid-refresh") sampleWorld) sampleSteps := by
  unfold TokensIssued OwnerFound RefreshVerified SessionFound AccessVerified
  exact ⟨⟨⟨⟨⟨rfl, by decide, rfl, rfl⟩, rfl⟩, rfl, by decide, rfl⟩, rfl⟩, rfl, rfl⟩

/-- How the handler answers each kind of rejection: the same 401 body, the cookies and the
calls of the kind, no value stored. -/
theorem SessionAuth_of_rejected {σ : Type} (amb : Ambient σ) (tp : TokenProvider σ)
    (sr : SessionRepository σ) (ar : AuthRepository σ) (c : Context σ) (p : Steps σ)
    (kind : Rejection) (h : Rejected amb tp sr ar c p kind) :
    (SessionAuth amb tp sr ar c).1 =
      Outcome.json 401
        { Type_ := "urn:auth-session-api/auth/unauthorized", Title := "Unauthorized",
          Status := 401, Detail := "Authentication required", Instance := c.request.path } ∧
    (SessionAuth amb tp sr ar c).2.cookies = c.cookies ++ kind.cookies ∧
    (SessionAuth amb tp sr ar c).2.store = c.store ∧
    (SessionAuth amb tp sr ar c).2.calls = c.calls ++ Rejection.calls p kind := by
  cases kind with
  | MissingAccessToken =>
    rcases h with h1 | ⟨k, h1, h2⟩
    · simp [SessionAuth, h1, unauthorizedResponse_eq, Rejection.cookies, Rejection.calls]
    · simp [SessionAuth, h1, h2, unauthorizedResponse_eq, Rejection.cookies, Rejection.calls]
  | InvalidAccessToken =>
    obtain ⟨h1, h2, err, h3⟩ := h
    simp [SessionAuth, Context.invoke, h1, h2, h3, unauthorizedResponse_eq, Rejection.cookies,
      Rejection.calls]
  | MalformedSessionRef =>
    obtain ⟨h1, h2, h3, err, h4⟩ := h
    simp [SessionAuth, Context.invoke, h1, h2, h3, h4, unauthorizedResponse_eq,
      Rejection.cookies, Rejection.calls]
  | SessionGone =>
    obtain ⟨⟨h1, h2, h3, h4⟩, err, h5, h6⟩ := h
    simp [SessionAuth, Context.invoke, h1, h2, h3, h4, h5, h6, unauthorizedResponse_eq,
      clearAuthCookies_eq, Rejection.cookies, Rejection.calls]
  | MissingRefreshToken =>
    obtain ⟨⟨⟨h1, h2, h3, h4⟩, h5⟩, h6 | ⟨k, h6, h7⟩⟩ := h
    · simp [SessionAuth, Context.invoke, h1, h2, h3, h4, h5, h6, unauthorizedResponse_eq,
        clearAuthCookies_eq, Rejection.cookies, Rejection.calls]
    · simp [SessionAuth, Context.invoke, h1, h2, h3, h4, h5, h6, h7, unauthorizedResponse_eq,
        clearAuthCookies_eq, Rejection.cookies, Rejection.calls]
  | RefreshInvalid =>
    obtain ⟨⟨⟨h1, h2, h3, h4⟩, h5⟩, h6, h7, err, h8⟩ := h
    simp [SessionAuth, Context.invoke, h1, h2, h3, h4, h5, h6, h7, h8, unauthorizedResponse_eq,
      clearAuthCookies_eq, Rejection.cookies, Rejection.calls]
  | OwnerMissing =>
    obtain ⟨⟨⟨⟨h1, h2, h3, h4⟩, h5⟩, h6, h7, h8⟩, err, h9, h10⟩ := h
    simp [SessionAuth, Context.invoke, h1, h2, h3, h4, h5, h6, h7, h8, h9, h10,
      unauthorizedResponse_eq, Rejection.cookies, Rejection.calls]

/-- Sending a statement leaves the time zone as it is. -/
theorem World.exec_location (w : World) : (World.exec w).2.location = w.location := by
  unfold World.exec
  split <;> rfl

/-- Reading the clock leaves the time zone as it is. -/
theorem World.timeNow_location (w : World) : (World.timeNow w).2.location = w.location := by
  unfold World.timeNow
  split <;> rfl

/-- Two texts of local times with the same offset compare as the instants do. -/
theorem TimeText.le_text_of_same_offset (l : Location) (a b : Time)
    (h : l.offsetAt a = l.offsetAt b) :
    TimeText.le (l.text a) (l.text b) = decide (a ≤ b) := by
  unfold TimeText.le Location.text
  simp only [h]
  by_cases hm : 0 ≤ Int.tdiv (l.offsetAt b) 60
  · rcases lt_trichotomy a b with hlt | heq | hgt
    · simp [hlt, le_of_lt hlt]
    · simp [heq, hm]
    · simp [not_lt.mpr (le_of_lt hgt), not_le.mpr hgt, ne_of_gt hgt]
  · rcases lt_trichotomy a b with hlt | heq | hgt
    · simp [hlt, le_of_lt hlt]
    · simp [heq, hm, not_le.mp hm]
    · simp [not_lt.mpr (le_of_lt hgt), not_le.mpr hgt, ne_of_gt hgt]

/-- What `DeleteExpiredSessions` returns and leaves when its statement reaches the database:
the number of rows whose text is at or before the text of the clock reading, and the table
without them. -/
theorem DeleteExpiredSessions_ok (w : World)
    (hexec : (World.exec (World.timeNow w).2).1 = none) :
    (SessionRepositoryImpl.DeleteExpiredSessions w).1 =
      .ok ((w.session.filter (fun r =>
        TimeText.le (w.location.stored r.ExpiresAt)
          (w.location.text (World.timeNow w).1))).length : Int) ∧
    (SessionRepositoryImpl.DeleteExpiredSessions w).2.session =
      w.session.filter (fun r =>
        ¬ TimeText.le (w.location.stored r.ExpiresAt)
          (w.location.text (World.timeNow w).1)) ∧
    (SessionRepositoryImpl.DeleteExpiredSessions w).2.location = w.location := by
  have ht := (World.timeNow_tables w).1
  have he := (World.exec_tables (World.timeNow w).2).1
  have hlt := World.timeNow_location w
  have hle := World.exec_location (World.timeNow w).2
  unfold SessionRepositoryImpl.DeleteExpiredSessions
  rcases hn : World.timeNow w with ⟨now, wn⟩
  rw [hn] at ht he hexec hlt hle
  simp only at ht he hexec hlt hle ⊢
  rcases hx : World.exec wn with ⟨_ | e, wx⟩
  · rw [hx] at he hle
    simp only at he hle
    simp [he, ht, hle, hlt]
  · rw [hx] at hexec
    simp at hexec

/-- Sending a statement does not touch the clock. -/
theorem World.timeNow_exec (w : World) :
    (World.timeNow (World.exec w).2).1 = (World.timeNow w).1 := by
  rcases w with ⟨session, user, faults, clock, ticks, location⟩
  cases faults <;> cases ticks <;> rfl

/-- What `FindSessionByID` does when its statement reaches the database. -/
theorem FindSessionByID_reached (id : UUID) (w : World) (hexec : (World.exec w).1 = none) :
    (SessionRepositoryImpl.FindSessionByID id w).1 =
      match w.session.find? (fun r => r.ID = id) with
      | none => .error Error.ErrSessionNotFound
      | some r =>
        if r.ExpiresAt ≠ 0 ∧ r.ExpiresAt < (World.timeNow w).1 then
          .error Error.ErrSessionNotFound
        else .ok r := by
  have he := (World.exec_tables w).1
  have hc := World.timeNow_exec w
  unfold SessionRepositoryImpl.FindSessionByID SQLiteStorage.FindByID
  rcases hx : World.exec w with ⟨_ | e, wx⟩
  · rw [hx] at he hc
    simp only at he hc ⊢
    rw [he]
    cases hf : List.find? (fun r => decide (r.ID = id)) w.session with
    | none => simp [errorsIs]
    | some r =>
      simp only
      by_cases hz : r.ExpiresAt = 0
      · simp [Time.IsZero, hz]
      · by_cases hb : r.ExpiresAt < (World.timeNow w).1
        · simp [Time.IsZero, Time.Before, hz, hc, hb]
        · simp [Time.IsZero, Time.Before, hz, hc, hb]
  · rw [hx] at hexec
    simp at hexec

/-- What `parseToken` returns on a token correctly signed under a method of type
`*jwt.SigningMethodRSA`: the token when the claims are not validated, and otherwise the token
or the error of the validation at the clock reading. -/
theorem parseToken_of_correctlySigned (lib : JWTLibrary) (j : JWTProvider)
    (tokenString : String) (seg : Segments) (alg : String)
    (h : CorrectlySigned lib j tokenString seg (SigningMethod.RSA alg)) (w : World) :
    j.parseToken lib tokenString true w =
      (.ok { Raw := tokenString, Method := SigningMethod.RSA alg, Header := seg.Header,
             Claims := seg.Claims, Signature := seg.Signature, Valid := true }, w) ∧
    j.parseToken lib tokenString false w =
      (match validateClaims seg.Claims (World.timeNow w).1 with
        | some err =>
          .error (.wrapped "failed to parse token" (.wrapped "token has invalid claims" err))
        | none =>
          .ok { Raw := tokenString, Method := SigningMethod.RSA alg, Header := seg.Header,
                Claims := seg.Claims, Signature := seg.Signature, Valid := true },
       (World.timeNow w).2) := by
  obtain ⟨hd, ⟨a, ha, hm⟩, hv⟩ := h
  constructor
  · simp [JWTProvider.parseToken, jwtParse, hd, ha, hm, JWTProvider.keyFunc, hv]
  · cases hval : validateClaims seg.Claims (World.timeNow w).1 <;>
      simp [JWTProvider.parseToken, jwtParse, hd, ha, hm, JWTProvider.keyFunc, hv, hval]

/-- A date cut to whole seconds and turned back into an instant is less than a second
earlier. -/
theorem lt_timeUnix_Unix (x y : Int) (h : y + 1000000000 ≤ x) :
    y < (x / 1000000000 - 62135596800 + 62135596800) * 1000000000 := by
  omega

/-- Adding whole seconds to an instant adds as many to its Unix seconds. -/
theorem Unix_add_seconds (t n : Int) :
    (t + n * 1000000000) / 1000000000 - 62135596800 =
      t / 1000000000 - 62135596800 + n := by
  omega

/-- The claims of a refresh token pass the validation at any clock reading that is a second
or more before the reading of the issuance plus the lifetime. -/
theorem validateClaims_refreshClaims (j : JWTProvider) (userID sessionID : String)
    (now later : Time) (hsoon : later + 1000000000 ≤ now + j.refreshTokenExpiry) :
    validateClaims (j.refreshClaims userID sessionID now) later = none := by
  have hexp : List.lookup "exp" (j.refreshClaims userID sessionID now) =
      some (Value.number (Time.Unix (Time.Add now j.refreshTokenExpiry))) := by
    simp [JWTProvider.refreshClaims, List.lookup]
  have hnbf : List.lookup "nbf" (j.refreshClaims userID sessionID now) = none := by
    simp [JWTProvider.refreshClaims, List.lookup]
  unfold validateClaims parseNumericDate
  rw [hexp, hnbf]
  by_cases h0 : Time.Unix (Time.Add now j.refreshTokenExpiry) = 0
  · simp [h0]
  · have hb : Time.Before later (timeUnix (Time.Unix (Time.Add now j.refreshTokenExpiry))) =
        true := by
      simp only [Time.Before, timeUnix, Time.Unix, Time.Add, decide_eq_true_eq]
      exact lt_timeUnix_Unix _ _ hsoon
    simp [h0, hb]

/-- Without scripted failures a statement reaches the database and the script stays empty. -/
theorem World.exec_of_no_faults (w : World) (h : w.faults = []) : World.exec w = (none, w) := by
  unfold World.exec
  rw [h]

/-- Reading the clock leaves the script of failures as it is. -/
theorem World.timeNow_faults (w : World) : (World.timeNow w).2.faults = w.faults := by
  unfold World.timeNow
  split <;> rfl

/-- What `FindSessionByID` returns and leaves on a world without scripted failures. -/
theorem FindSessionByID_no_faults (id : UUID) (w : World) (h : w.faults = []) :
    SessionRepositoryImpl.FindSessionByID id w =
      match w.session.find? (fun r => r.ID = id) with
      | none => (.error Error.ErrSessionNotFound, w)
      | some r =>
        if r.ExpiresAt = 0 then (.ok r, w)
        else if r.ExpiresAt < (World.timeNow w).1 then
          (.error Error.ErrSessionNotFound, (World.timeNow w).2)
        else (.ok r, (World.timeNow w).2) := by
  unfold SessionRepositoryImpl.FindSessionByID SQLiteStorage.FindByID
  rw [World.exec_of_no_faults w h]
  simp only
  cases hf : List.find? (fun r => decide (r.ID = id)) w.session with
  | none => simp [errorsIs]
  | some r =>
    simp only
    by_cases hz : r.ExpiresAt = 0
    · simp [Time.IsZero, hz]
    · by_cases hb : r.ExpiresAt < (World.timeNow w).1 <;>
        simp [Time.IsZero, Time.Before, hz, hb]

/-- On a world without scripted failures `FindSessionByID` changes nothing but the clock. -/
theorem FindSessionByID_world (id : UUID) (w : World) (h : w.faults = []) :
    (SessionRepositoryImpl.FindSessionByID id w).2.faults = [] ∧
    (SessionRepositoryImpl.FindSessionByID id w).2.session = w.session ∧
    (SessionRepositoryImpl.FindSessionByID id w).2.user = w.user := by
  have hf := World.timeNow_faults w
  have ht := World.timeNow_tables w
  rw [FindSessionByID_no_faults id w h]
  cases List.find? (fun r => decide (r.ID = id)) w.session with
  | none => exact ⟨h, rfl, rfl⟩
  | some r =>
    simp only
    split
    · exact ⟨h, rfl, rfl⟩
    · split
      · exact ⟨hf.trans h, ht.1, ht.2⟩
      · exact ⟨hf.trans h, ht.1, ht.2⟩

/-- What `FindUserByID` returns and leaves on a world without scripted failures. -/
theorem FindUserByID_no_faults (id : UUID) (w : World) (h : w.faults = []) :
    AuthRepositoryImpl.FindUserByID id w =
      (match w.user.find? (fun r => r.ID = id ∧ r.DeletedAt = none) with
        | none => .error Error.ErrUserNotFound
        | some user => .ok user, w) := by
  unfold AuthRepositoryImpl.FindUserByID
  rw [World.exec_of_no_faults w h]
  simp only
  cases List.find? (fun r => decide (r.ID = id ∧ r.DeletedAt = none)) w.user <;> rfl

/-- What `UpdateSessionExpiry` leaves on a world without scripted failures. -/
theorem UpdateSessionExpiry_no_faults (id : UUID) (t : Time) (w : World) (h : w.faults = []) :
    (SessionRepositoryImpl.UpdateSessionExpiry id t w).2.session =
      w.session.map (fun r => if r.ID = id then { r with ExpiresAt := t } else r) ∧
    (SessionRepositoryImpl.UpdateSessionExpiry id t w).2.user = w.user ∧
    (SessionRepositoryImpl.UpdateSessionExpiry id t w).2.faults = [] ∧
    (World.timeNow (SessionRepositoryImpl.UpdateSessionExpiry id t w).2).1 =
      (World.timeNow w).1 := by
  unfold SessionRepositoryImpl.UpdateSessionExpiry
  rw [World.exec_of_no_faults w h]
  refine ⟨rfl, rfl, h, ?_⟩
  unfold World.timeNow
  simp only
  split <;> rfl

/-- The first row with an id, after the expiry of the rows with that id is overwritten. -/
theorem find?_map_expiry (id : UUID) (t : Time) (l : List Session) :
    (l.map (fun r => if r.ID = id then { r with ExpiresAt := t } else r)).find?
        (fun r => r.ID = id) =
      (l.find? (fun r => r.ID = id)).map (fun r => { r with ExpiresAt := t }) := by
  induction l with
  | nil => rfl
  | cons a l ih =>
    by_cases ha : a.ID = id
    · simp [ha]
    · simp [ha, ih]

/-- The statement of `AuthRepositoryImpl.DeleteUser` leaves the table `session` as it is. -/
theorem AuthRepositoryImpl.DeleteUser_session (id : UUID) (w : World) :
    (AuthRepositoryImpl.DeleteUser id w).2.session = w.session := by
  have ht := (World.timeNow_tables w).1
  have he := (World.exec_tables (World.timeNow w).2).1
  unfold AuthRepositoryImpl.DeleteUser
  rcases hn : World.timeNow w with ⟨now, wn⟩
  rw [hn] at ht he
  simp only at ht he ⊢
  rcases hx : World.exec wn with ⟨_ | e, wx⟩
  · rw [hx] at he
    simp only at he ⊢
    rw [he, ht]
  · rw [hx] at he
    simp only at he ⊢
    rw [he, ht]

/-- A `DeleteSessionsByUserID` that reports no error has removed the sessions of the user and
no other. -/
theorem DeleteSessionsByUserID_ok (id : UUID) (w w2 : World)
    (h : SessionRepositoryImpl.DeleteSessionsByUserID id w = (none, w2)) :
    w2.session = w.session.filter (fun r => r.UserID ≠ id) := by
  have he := (World.exec_tables w).1
  unfold SessionRepositoryImpl.DeleteSessionsByUserID at h
  rcases hx : World.exec w with ⟨_ | e, wx⟩
  · rw [hx] at h he
    simp only [Prod.mk.injEq, true_and] at h he
    rw [← h, he]
  · rw [hx] at h
    simp at h

/-- A successful end of `CreateAccount`, `Login` or `ReactivateAccount`: the five calls made,
and what they returned. -/
theorem startSession_ok {σ : Type} (amb : Ambient σ) (uuidNew : σ → UUID × σ)
    (s : AuthServiceImpl σ) (userID : UUID) (t t2 : Run σ) (response : AuthResponse)
    (h : AuthServiceImpl.startSession amb uuidNew s userID t = (.ok response, t2)) :
    ∃ sid now, t2.calls = t.calls ++ sessionCalls amb userID sid now ∧
      SessionStarted amb uuidNew s userID t.world sid now response t2.world := by
  unfold AuthServiceImpl.startSession at h
  simp only [Run.invoke, Run.uuidNew, Run.timeNow] at h
  rcases h1 : s.sessionRepository.CreateSession
      { ID := (uuidNew t.world).1, UserID := userID,
        ExpiresAt := Time.Add (amb.timeNow (uuidNew t.world).2).1
          (minutes amb.Env.Token.RefreshTokenExpiry) }
      (amb.timeNow (uuidNew t.world).2).2 with ⟨_ | e1, w2⟩
  swap
  · rw [h1] at h
    simp at h
  rw [h1] at h
  simp only at h
  rcases h2 : s.tokenProvider.GenerateAccessToken (amb.uuidString (uuidNew t.world).1) w2 with
    ⟨e2 | accessToken, w3⟩
  · rw [h2] at h
    simp at h
  rw [h2] at h
  simp only at h
  rcases h3 : s.tokenProvider.GenerateRefreshToken (amb.uuidString userID)
      (amb.uuidString (uuidNew t.world).1) w3 with ⟨e3 | refreshToken, w4⟩
  · rw [h3] at h
    simp at h
  rw [h3] at h
  simp only [Prod.mk.injEq, Except.ok.injEq] at h
  obtain ⟨hr, ht⟩ := h
  subst hr ht
  exact ⟨(uuidNew t.world).1, (amb.timeNow (uuidNew t.world).2).1, by simp [sessionCalls],
    rfl, rfl, w2, w3, h1, h2, h3⟩

/-- A failed end of `CreateAccount`, `Login` or `ReactivateAccount` reports a wrapped error,
none of the sentinels of `domain`. -/
theorem startSession_error {σ : Type} (amb : Ambient σ) (uuidNew : σ → UUID × σ)
    (s : AuthServiceImpl σ) (userID : UUID) (t t2 : Run σ) (e : Error)
    (h : AuthServiceImpl.startSession amb uuidNew s userID t = (.error e, t2)) :
    e ∉ domainErrors := by
  unfold AuthServiceImpl.startSession at h
  simp only [Run.invoke, Run.uuidNew, Run.timeNow] at h
  split at h
  · simp only [Prod.mk.injEq, Except.error.injEq] at h
    rw [← h.1]
    simp [domainErrors]
  · split at h
    · simp only [Prod.mk.injEq, Except.error.injEq] at h
      rw [← h.1]
      simp [domainErrors]
    · split at h
      · simp only [Prod.mk.injEq, Except.error.injEq] at h
        rw [← h.1]
        simp [domainErrors]
      · simp at h

/-- Once the email is free, the password hashed and the user created, `CreateAccount` ends as
`startSession` for the id of the new user. -/
theorem CreateAccount_of_created {σ : Type} (amb : Ambient σ) (uuidNew : σ → UUID × σ)
    (s : AuthServiceImpl σ) (req : CreateAccountRequest) (t : Run σ) (err : Error)
    (w1 w2 w3 : σ) (hashed : String)
    (h1 : s.authRepository.FindUserByEmail req.Email t.world = (.error err, w1))
    (he : errorsIs err Error.ErrUserNotFound = true)
    (h2 : s.passwordHasher.Hash req.Password w1 = (.ok hashed, w2))
    (h3 : s.authRepository.CreateUser
      { ID := (uuidNew w2).1, Name := req.Name, Email := req.Email, Password := hashed,
        Avatar := req.Avatar } (uuidNew w2).2 = (none, w3)) :
    AuthServiceImpl.CreateAccount amb uuidNew s req t =
      AuthServiceImpl.startSession amb uuidNew s (uuidNew w2).1
        { calls := t.calls ++
            [Call.FindUserByEmail req.Email, Call.Hash req.Password,
             Call.uuidNew (uuidNew w2).1,
             Call.CreateUser
               { ID := (uuidNew w2).1, Name := req.Name, Email := req.Email,
                 Password := hashed, Avatar := req.Avatar }],
          world := w3 } := by
  unfold AuthServiceImpl.CreateAccount AuthServiceImpl.startSession
  simp [Run.invoke, Run.uuidNew, Run.timeNow, h1, he, h2, h3]

/-- Once the user is found active and the password checked, `Login` ends as `startSession`
for the id of the user. -/
theorem Login_of_checked {σ : Type} (amb : Ambient σ) (uuidNew : σ → UUID × σ)
    (s : AuthServiceImpl σ) (req : LoginRequest) (t : Run σ) (user : User) (w1 w2 : σ)
    (h1 : s.authRepository.FindUserByEmail req.Email t.world = (.ok user, w1))
    (hd : user.DeletedAt = none)
    (h2 : s.passwordHasher.Check req.Password user.Password w1 = (none, w2)) :
    AuthServiceImpl.Login amb uuidNew s req t =
      AuthServiceImpl.startSession amb uuidNew s user.ID
        { calls := t.calls ++
            [Call.FindUserByEmail req.Email, Call.Check req.Password user.Password],
          world := w2 } := by
  unfold AuthServiceImpl.Login AuthServiceImpl.startSession
  simp [Run.invoke, Run.uuidNew, Run.timeNow, h1, hd, h2]

/-- Once the user is found deactivated, the password checked and the user updated,
`ReactivateAccount` ends as `startSession` for the id of the user. -/
theorem ReactivateAccount_of_updated {σ : Type} (amb : Ambient σ) (uuidNew : σ → UUID × σ)
    (s : AuthServiceImpl σ) (req : LoginRequest) (t : Run σ) (user : User) (w1 w2 w3 : σ)
    (h1 : s.authRepository.FindUserByEmail req.Email t.world = (.ok user, w1))
    (hd : user.DeletedAt ≠ none)
    (h2 : s.passwordHasher.Check req.Password user.Password w1 = (none, w2))
    (h3 : s.authRepository.UpdateUser { user with DeletedAt := none } w2 = (none, w3)) :
    AuthServiceImpl.ReactivateAccount amb uuidNew s req t =
      AuthServiceImpl.startSession amb uuidNew s user.ID
        { calls := t.calls ++
            [Call.FindUserByEmail req.Email, Call.Check req.Password user.Password,
             Call.UpdateUser { user with DeletedAt := none }],
          world := w3 } := by
  unfold AuthServiceImpl.ReactivateAccount AuthServiceImpl.startSession
  simp [Run.invoke, Run.uuidNew, Run.timeNow, h1, hd, h2, h3]

/-- The ways `CreateAccount` can go: the email is taken, a step before the session fails, or it
ends as `startSession` for the id of the user it created. -/
theorem CreateAccount_cases {σ : Type} (amb : Ambient σ) (uuidNew : σ → UUID × σ)
    (s : AuthServiceImpl σ) (req : CreateAccountRequest) (t : Run σ) :
    (∃ made msg inner w, AuthServiceImpl.CreateAccount amb uuidNew s req t =
        (.error (.wrapped msg inner), { calls := t.calls ++ made, world := w }) ∧
      msg ∈ ["failed to check existing email", "failed to hash password",
        "failed to create user"] ∧
      ∀ x, Call.CreateSession x ∉ made) ∨
    (∃ user w1, s.authRepository.FindUserByEmail req.Email t.world = (.ok user, w1) ∧
      AuthServiceImpl.CreateAccount amb uuidNew s req t =
        (.error Error.ErrEmailAlreadyExists,
          { calls := t.calls ++ [Call.FindUserByEmail req.Email], world := w1 })) ∨
    (∃ err w1 hashed w2 w3,
      s.authRepository.FindUserByEmail req.Email t.world = (.error err, w1) ∧
      errorsIs err Error.ErrUserNotFound = true ∧
      s.passwordHasher.Hash req.Password w1 = (.ok hashed, w2) ∧
      s.authRepository.CreateUser
        { ID := (uuidNew w2).1, Name := req.Name, Email := req.Email, Password := hashed,
          Avatar := req.Avatar } (uuidNew w2).2 = (none, w3) ∧
      AuthServiceImpl.CreateAccount amb uuidNew s req t =
        AuthServiceImpl.startSession amb uuidNew s (uuidNew w2).1
          { calls := t.calls ++
              [Call.FindUserByEmail req.Email, Call.Hash req.Password,
               Call.uuidNew (uuidNew w2).1,
               Call.CreateUser
                 { ID := (uuidNew w2).1, Name := req.Name, Email := req.Email,
                   Password := hashed, Avatar := req.Avatar }],
            world := w3 }) := by
  rcases h1 : s.authRepository.FindUserByEmail req.Email t.world with ⟨err | user, w1⟩
  swap
  · right
    left
    refine ⟨user, w1, rfl, ?_⟩
    unfold AuthServiceImpl.CreateAccount
    simp [Run.invoke, h1]
  by_cases he : errorsIs err Error.ErrUserNotFound = true
  swap
  · left
    refine ⟨[Call.FindUserByEmail req.Email], "failed to check existing email", err, w1, ?_,
      by simp, by simp⟩
    unfold AuthServiceImpl.CreateAccount
    simp [Run.invoke, h1, he]
  rcases h2 : s.passwordHasher.Hash req.Password w1 with ⟨e2 | hashed, w2⟩
  · left
    refine ⟨[Call.FindUserByEmail req.Email, Call.Hash req.Password],
      "failed to hash password", e2, w2, ?_, by simp, by simp⟩
    unfold AuthServiceImpl.CreateAccount
    simp [Run.invoke, h1, he, h2]
  rcases h3 : s.authRepository.CreateUser
      { ID := (uuidNew w2).1, Name := req.Name, Email := req.Email, Password := hashed,
        Avatar := req.Avatar } (uuidNew w2).2 with ⟨_ | e3, w3⟩
  · right
    right
    exact ⟨err, w1, hashed, w2, w3, rfl, he, h2, h3,
      CreateAccount_of_created amb uuidNew s req t err w1 w2 w3 hashed h1 he h2 h3⟩
  · left
    refine ⟨[Call.FindUserByEmail req.Email, Call.Hash req.Password,
        Call.uuidNew (uuidNew w2).1,
        Call.CreateUser
          { ID := (uuidNew w2).1, Name := req.Name, Email := req.Email, Password := hashed,
            Avatar := req.Avatar }],
      "failed to create user", e3, w3, ?_, by simp, by simp⟩
    unfold AuthServiceImpl.CreateAccount
    simp [Run.invoke, Run.uuidNew, h1, he, h2, h3]

/-- The ways `Login` can go: the lookup fails, the user is deactivated, the password is
rejected, or it ends as `startSession` for the id of the user. -/
theorem Login_cases {σ : Type} (amb : Ambient σ) (uuidNew : σ → UUID × σ)
    (s : AuthServiceImpl σ) (req : LoginRequest) (t : Run σ) :
    (∃ made e w, AuthServiceImpl.Login amb uuidNew s req t =
        (.error e, { calls := t.calls ++ made, world := w }) ∧
      ∀ x, Call.CreateSession x ∉ made) ∨
    (∃ user w1 w2, s.authRepository.FindUserByEmail req.Email t.world = (.ok user, w1) ∧
      user.DeletedAt = none ∧
      s.passwordHasher.Check req.Password user.Password w1 = (none, w2) ∧
      AuthServiceImpl.Login amb uuidNew s req t =
        AuthServiceImpl.startSession amb uuidNew s user.ID
          { calls := t.calls ++
              [Call.FindUserByEmail req.Email, Call.Check req.Password user.Password],
            world := w2 }) := by
  rcases h1 : s.authRepository.FindUserByEmail req.Email t.world with ⟨err | user, w1⟩
  · left
    by_cases he : errorsIs err Error.ErrUserNotFound = true
    · refine ⟨[Call.FindUserByEmail req.Email], Error.ErrInvalidCredentials, w1, ?_, by simp⟩
      unfold AuthServiceImpl.Login
      simp [Run.invoke, h1, he]
    · refine ⟨[Call.FindUserByEmail req.Email], .wrapped "failed to find user" err, w1, ?_,
        by simp⟩
      unfold AuthServiceImpl.Login
      simp [Run.invoke, h1, he]
  by_cases hd : user.DeletedAt = none
  swap
  · left
    refine ⟨[Call.FindUserByEmail req.Email], Error.ErrUserDeactivated, w1, ?_, by simp⟩
    unfold AuthServiceImpl.Login
    simp [Run.invoke, h1, hd]
  rcases h2 : s.passwordHasher.Check req.Password user.Password w1 with ⟨_ | e2, w2⟩
  · right
    exact ⟨user, w1, w2, rfl, hd, h2, Login_of_checked amb uuidNew s req t user w1 w2 h1 hd h2⟩
  · left
    refine ⟨[Call.FindUserByEmail req.Email, Call.Check req.Password user.Password],
      Error.ErrInvalidCredentials, w2, ?_, by simp⟩
    unfold AuthServiceImpl.Login
    simp [Run.invoke, h1, hd, h2]

/-- The ways `ReactivateAccount` can go: the lookup fails, the user is not deactivated, the
password is rejected, the update fails, or it ends as `startSession` for the id of the
user. -/
theorem ReactivateAccount_cases {σ : Type} (amb : Ambient σ) (uuidNew : σ → UUID × σ)
    (s : AuthServiceImpl σ) (req : LoginRequest) (t : Run σ) :
    (∃ made e w, AuthServiceImpl.ReactivateAccount amb uuidNew s req t =
        (.error e, { calls := t.calls ++ made, world := w }) ∧
      ∀ x, Call.CreateSession x ∉ made) ∨
    (∃ user w1 w2 w3, s.authRepository.FindUserByEmail req.Email t.world = (.ok user, w1) ∧
      user.DeletedAt ≠ none ∧
      s.passwordHasher.Check req.Password user.Password w1 = (none, w2) ∧
      s.authRepository.UpdateUser { user with DeletedAt := none } w2 = (none, w3) ∧
      AuthServiceImpl.ReactivateAccount amb uuidNew s req t =
        AuthServiceImpl.startSession amb uuidNew s user.ID
          { calls := t.calls ++
              [Call.FindUserByEmail req.Email, Call.Check req.Password user.Password,
               Call.UpdateUser { user with DeletedAt := none }],
            world := w3 }) := by
  rcases h1 : s.authRepository.FindUserByEmail req.Email t.world with ⟨err | user, w1⟩
  · left
    by_cases he : errorsIs err Error.ErrUserNotFound = true
    · refine ⟨[Call.FindUserByEmail req.Email], Error.ErrInvalidCredentials, w1, ?_, by simp⟩
      unfold AuthServiceImpl.ReactivateAccount
      simp [Run.invoke, h1, he]
    · refine ⟨[Call.FindUserByEmail req.Email], .wrapped "failed to find user" err, w1, ?_,
        by simp⟩
      unfold AuthServiceImpl.ReactivateAccount
      simp [Run.invoke, h1, he]
  by_cases hd : user.DeletedAt = none
  · left
    refine ⟨[Call.FindUserByEmail req.Email], Error.ErrUserNotDeactivated, w1, ?_, by simp⟩
    unfold AuthServiceImpl.ReactivateAccount
    simp [Run.invoke, h1, hd]
  rcases h2 : s.passwordHasher.Check req.Password user.Password w1 with ⟨_ | e2, w2⟩
  swap
  · left
    refine ⟨[Call.FindUserByEmail req.Email, Call.Check req.Password user.Password],
      Error.ErrInvalidCredentials, w2, ?_, by simp⟩
    unfold AuthServiceImpl.ReactivateAccount
    simp [Run.invoke, h1, hd, h2]
  rcases h3 : s.authRepository.UpdateUser { user with DeletedAt := none } w2 with ⟨_ | e3, w3⟩
  · right
    exact ⟨user, w1, w2, w3, rfl, hd, h2, h3,
      ReactivateAccount_of_updated amb uuidNew s req t user w1 w2 w3 h1 hd h2 h3⟩
  · left
    refine ⟨[Call.FindUserByEmail req.Email, Call.Check req.Password user.Password,
        Call.UpdateUser { user with DeletedAt := none }],
      .wrapped "failed to reactivate user" e3, w3, ?_, by simp⟩
    unfold AuthServiceImpl.ReactivateAccount
    simp [Run.invoke, h1, hd, h2, h3]

/-- The ways the end of `CreateAccount`, `Login` or `ReactivateAccount` can fail: at
`CreateSession`, or after it at one of the two token generations. Each time the error is
returned wrapped and the world is the one the failing call left. -/
theorem startSession_error_cases {σ : Type} (amb : Ambient σ) (uuidNew : σ → UUID × σ)
    (s : AuthServiceImpl σ) (userID : UUID) (t t2 : Run σ) (e : Error)
    (h : AuthServiceImpl.startSession amb uuidNew s userID t = (.error e, t2)) :
    (∃ e1, s.sessionRepository.CreateSession
        { ID := (uuidNew t.world).1, UserID := userID,
          ExpiresAt := Time.Add (amb.timeNow (uuidNew t.world).2).1
            (minutes amb.Env.Token.RefreshTokenExpiry) }
        (amb.timeNow (uuidNew t.world).2).2 = (some e1, t2.world) ∧
      e = .wrapped "failed to create session" e1) ∨
    (∃ w2, s.sessionRepository.CreateSession
        { ID := (uuidNew t.world).1, UserID := userID,
          ExpiresAt := Time.Add (amb.timeNow (uuidNew t.world).2).1
            (minutes amb.Env.Token.RefreshTokenExpiry) }
        (amb.timeNow (uuidNew t.world).2).2 = (none, w2) ∧
      ((∃ e2, s.tokenProvider.GenerateAccessToken (amb.uuidString (uuidNew t.world).1) w2 =
          (.error e2, t2.world) ∧
        e = .wrapped "failed to generate access token" e2) ∨
       (∃ accessToken w3 e3,
        s.tokenProvider.GenerateAccessToken (amb.uuidString (uuidNew t.world).1) w2 =
          (.ok accessToken, w3) ∧
        s.tokenProvider.GenerateRefreshToken (amb.uuidString userID)
          (amb.uuidString (uuidNew t.world).1) w3 = (.error e3, t2.world) ∧
        e = .wrapped "failed to generate refresh token" e3))) := by
  unfold AuthServiceImpl.startSession at h
  simp only [Run.invoke, Run.uuidNew, Run.timeNow] at h
  rcases h1 : s.sessionRepository.CreateSession
      { ID := (uuidNew t.world).1, UserID := userID,
        ExpiresAt := Time.Add (amb.timeNow (uuidNew t.world).2).1
          (minutes amb.Env.Token.RefreshTokenExpiry) }
      (amb.timeNow (uuidNew t.world).2).2 with ⟨_ | e1, w2⟩
  swap
  · rw [h1] at h
    simp only [Prod.mk.injEq, Except.error.injEq] at h
    left
    exact ⟨e1, by rw [← h.2], h.1.symm⟩
  rw [h1] at h
  simp only at h
  right
  refine ⟨w2, rfl, ?_⟩
  rcases h2 : s.tokenProvider.GenerateAccessToken (amb.uuidString (uuidNew t.world).1) w2 with
    ⟨e2 | accessToken, w3⟩
  · rw [h2] at h
    simp only [Prod.mk.injEq, Except.error.injEq] at h
    left
    exact ⟨e2, by rw [← h.2], h.1.symm⟩
  rw [h2] at h
  simp only at h
  right
  rcases h3 : s.tokenProvider.GenerateRefreshToken (amb.uuidString userID)
      (amb.uuidString (uuidNew t.world).1) w3 with ⟨e3 | refreshToken, w4⟩
  · rw [h3] at h
    simp only [Prod.mk.injEq, Except.error.injEq] at h
    exact ⟨accessToken, w3, e3, rfl, by rw [← h.2, h3], h.1.symm⟩
  · rw [h3] at h
    simp at h

/-- A `CreateUser` that reports no error has stored a row with the id and the email of the
user. -/
theorem CreateUser_ok (user : User) (w w2 : World)
    (h : AuthRepositoryImpl.CreateUser user w = (none, w2)) :
    ∃ r ∈ w2.user, r.ID = user.ID ∧ r.Email = user.Email := by
  unfold AuthRepositoryImpl.CreateUser SQLiteStorage.InsertUser at h
  rcases hn : World.timeNow w with ⟨now, wn⟩
  rw [hn] at h
  simp only at h
  rcases hx : World.exec wn with ⟨_ | e, wx⟩
  · rw [hx] at h
    simp only at h
    by_cases hid : (wx.user.any fun r => decide (r.ID = user.ID)) = true
    · rw [if_pos hid] at h
      simp at h
    · rw [if_neg hid] at h
      by_cases hem : (wx.user.any fun r => decide (r.Email = user.Email)) = true
      · rw [if_pos hem] at h
        simp at h
      · rw [if_neg hem] at h
        simp only [Prod.mk.injEq, true_and] at h
        rw [← h]
        exact ⟨_, List.mem_append_right _ (List.mem_singleton.mpr rfl), rfl, rfl⟩
  · rw [hx] at h
    simp at h

/-- The method `CreateSession` returns what `Insert` returns. -/
theorem CreateSession_eq (session : Session) (w : World) :
    SessionRepositoryImpl.CreateSession session w = SQLiteStorage.InsertSession session w := by
  unfold SessionRepositoryImpl.CreateSession
  rcases SQLiteStorage.InsertSession session w with ⟨_ | e, w2⟩ <;> rfl

/-- The statement of `CreateSession` leaves the table `user` as it is, and the table `session`
too when it fails; when it succeeds a row with the ids of the session is stored. -/
theorem CreateSession_tables (session : Session) (w : World) :
    (SessionRepositoryImpl.CreateSession session w).2.user = w.user ∧
    (∀ e, (SessionRepositoryImpl.CreateSession session w).1 = some e →
      (SessionRepositoryImpl.CreateSession session w).2.session = w.session) ∧
    ((SessionRepositoryImpl.CreateSession session w).1 = none →
      ∃ r ∈ (SessionRepositoryImpl.CreateSession session w).2.session,
        r.ID = session.ID ∧ r.UserID = session.UserID) := by
  have ht := World.timeNow_tables w
  have he := World.exec_tables (World.timeNow w).2
  rw [CreateSession_eq]
  unfold SQLiteStorage.InsertSession
  rcases hn : World.timeNow w with ⟨now, wn⟩
  rw [hn] at ht he
  simp only at ht he ⊢
  rcases hx : World.exec wn with ⟨_ | e, wx⟩
  · rw [hx] at he
    simp only at he ⊢
    by_cases hid : (wx.session.any fun r => decide (r.ID = session.ID)) = true
    · rw [if_pos hid]
      exact ⟨by rw [he.2, ht.2], fun _ _ => by rw [he.1, ht.1], fun h => by simp at h⟩
    · rw [if_neg hid]
      refine ⟨by rw [he.2, ht.2], fun e h => by simp at h, fun _ => ?_⟩
      exact ⟨_, List.mem_append_right _ (List.mem_singleton.mpr rfl), rfl, rfl⟩
  · rw [hx] at he
    simp only at he ⊢
    exact ⟨by rw [he.2, ht.2], fun _ _ => by rw [he.1, ht.1], fun h => by simp at h⟩

/-- Over the SQLite repositories, `CreateAccount` answers `ErrEmailAlreadyExists` when a row
with the email is stored and the lookup reaches the database. -/
theorem CreateAccount_email_taken (amb : Ambient World) (uuidNew : World → UUID × World)
    (tp : TokenProvider World) (hasher : PasswordHasher World) (req : CreateAccountRequest)
    (t : Run World) (hexec : (World.exec t.world).1 = none)
    (hrow : ∃ r ∈ t.world.user, r.Email = req.Email) :
    (AuthServiceImpl.CreateAccount amb uuidNew
      { authRepository := NewAuthRepository, sessionRepository := NewSessionRepository,
        tokenProvider := tp, passwordHasher := hasher } req t).1 =
      .error Error.ErrEmailAlreadyExists := by
  have he := (World.exec_tables t.world).2
  have hfind : ∃ user w1, AuthRepositoryImpl.FindUserByEmail req.Email t.world =
      (.ok user, w1) := by
    unfold AuthRepositoryImpl.FindUserByEmail SQLiteStorage.FindByEmail
    rcases hx : World.exec t.world with ⟨_ | e, wx⟩
    · rw [hx] at he
      simp only at he ⊢
      cases hf : List.find? (fun r => decide (r.Email = req.Email)) wx.user with
      | none =>
        obtain ⟨r, hr, hre⟩ := hrow
        rw [he] at hf
        have := List.find?_eq_none.mp hf r hr
        simp [hre] at this
      | some dest => exact ⟨dest, wx, rfl⟩
    · rw [hx] at hexec
      simp at hexec
  obtain ⟨user, w1, h1⟩ := hfind
  unfold AuthServiceImpl.CreateAccount
  simp only [Run.invoke, NewAuthRepository, h1]

/-! ### Properties of `SessionAuth` -/

/-- C1: the handler invokes `next` if and only if the request passes every stage: both cookies
present and non-empty, both tokens parsed, the session id a UUID, session and user found, both
new tokens generated. When it does, the calls it made are exactly the eight of a rotation, in
order: refresh verification, the issuance of both tokens and `UpdateSessionExpiry` among them. -/
theorem SessionAuth_next_iff {σ : Type} (amb : Ambient σ) (tp : TokenProvider σ)
    (sr : SessionRepository σ) (ar : AuthRepository σ) (c : Context σ) :
    ((SessionAuth amb tp sr ar c).1 = Outcome.next ↔ ∃ p, TokensIssued amb tp sr ar c p) ∧
    ((SessionAuth amb tp sr ar c).1 = Outcome.next →
      ∃ p, TokensIssued amb tp sr ar c p ∧
        (SessionAuth amb tp sr ar c).2.calls = c.calls ++
          [Call.ParseAccessToken p.cookie.Value, Call.FindSessionByID p.sessionID,
           Call.ParseRefreshToken p.refreshCookie.Value, Call.FindUserByID p.session.UserID,
           Call.GenerateAccessToken (amb.uuidString p.session.ID),
           Call.GenerateRefreshToken (amb.uuidString p.user.ID) (amb.uuidString p.session.ID),
           Call.timeNow (amb.timeNow p.w6).1,
           Call.UpdateSessionExpiry p.sessionID
             (Time.Add (amb.timeNow p.w6).1 (minutes amb.Env.Token.RefreshTokenExpiry))]) := by
  refine ⟨⟨SessionAuth_next_inv amb tp sr ar c, ?_⟩, ?_⟩
  · rintro ⟨p, hp⟩
    rw [SessionAuth_of_tokensIssued amb tp sr ar c p hp]
  · intro h
    obtain ⟨p, hp⟩ := SessionAuth_next_inv amb tp sr ar c h
    refine ⟨p, hp, ?_⟩
    rw [SessionAuth_of_tokensIssued amb tp sr ar c p hp]
    rfl

/-- C1 on the sample request: it is handed to `next`, so it has passed every stage. -/
theorem SessionAuth_next_iff_witness :
    (SessionAuth sampleAmbient sampleTokenProvider NewSessionRepository NewAuthRepository
        (sampleContext (some "valid-token") (some "valid-refresh") sampleWorld)).1 =
      Outcome.next ∧
    ∃ p, TokensIssued sampleAmbient sampleTokenProvider NewSessionRepository NewAuthRepository
      (sampleContext (some "valid-token") (some "valid-refresh") sampleWorld) p :=
  ⟨by decide,
   (SessionAuth_next_iff sampleAmbient sampleTokenProvider NewSessionRepository NewAuthRepository
      (sampleContext (some "valid-token") (some "valid-refresh") sampleWorld)).1.mp (by decide)⟩

/-- C2: on every outcome `next`, the new access token was generated for the found session's
id and the new refresh token for the found user's id and that session id; the two cookies
written carry exactly these two tokens; no `CreateSession` call was made; and the values
`user_id`, `email`, `name`, `avatar`, `session_id` handed on are those of the found user and
the found session. -/
theorem SessionAuth_next_result {σ : Type} (amb : Ambient σ) (tp : TokenProvider σ)
    (sr : SessionRepository σ) (ar : AuthRepository σ) (c : Context σ)
    (h : (SessionAuth amb tp sr ar c).1 = Outcome.next) :
    ∃ p made, TokensIssued amb tp sr ar c p ∧
      (SessionAuth amb tp sr ar c).2.calls = c.calls ++ made ∧
      Call.GenerateAccessToken (amb.uuidString p.session.ID) ∈ made ∧
      Call.GenerateRefreshToken (amb.uuidString p.user.ID) (amb.uuidString p.session.ID) ∈ made ∧
      (∀ session, Call.CreateSession session ∉ made) ∧
      (SessionAuth amb tp sr ar c).2.cookies = c.cookies ++
        [{ Name := "access_token", Value := p.newAccessToken, Path := "/",
           MaxAge := wrapInt64 (amb.Env.Token.AccessTokenExpiry * 60), HttpOnly := true,
           Secure := decide (amb.Env.Env = "production"), SameSite := SameSiteStrictMode },
         { Name := "refresh_token", Value := p.newRefreshToken, Path := "/",
           MaxAge := wrapInt64 (amb.Env.Token.RefreshTokenExpiry * 60), HttpOnly := true,
           Secure := decide (amb.Env.Env = "production"), SameSite := SameSiteStrictMode }] ∧
      (SessionAuth amb tp sr ar c).2.store = c.store ++
        [("user_id", amb.uuidString p.user.ID), ("email", p.user.Email), ("name", p.user.Name),
         ("avatar", p.user.Avatar), ("session_id", amb.uuidString p.session.ID)] ∧
      (SessionAuth amb tp sr ar c).2.Get "user_id" = some (amb.uuidString p.user.ID) ∧
      (SessionAuth amb tp sr ar c).2.Get "email" = some p.user.Email ∧
      (SessionAuth amb tp sr ar c).2.Get "name" = some p.user.Name ∧
      (SessionAuth amb tp sr ar c).2.Get "avatar" = some p.user.Avatar ∧
      (SessionAuth amb tp sr ar c).2.Get "session_id" = some (amb.uuidString p.session.ID) := by
  obtain ⟨p, hp⟩ := SessionAuth_next_inv amb tp sr ar c h
  refine ⟨p,
    [Call.ParseAccessToken p.cookie.Value, Call.FindSessionByID p.sessionID,
     Call.ParseRefreshToken p.refreshCookie.Value, Call.FindUserByID p.session.UserID,
     Call.GenerateAccessToken (amb.uuidString p.session.ID),
     Call.GenerateRefreshToken (amb.uuidString p.user.ID) (amb.uuidString p.session.ID),
     Call.timeNow (p.now amb), Call.UpdateSessionExpiry p.sessionID (p.newExpiry amb)], hp, ?_⟩
  rw [SessionAuth_of_tokensIssued amb tp sr ar c p hp]
  refine ⟨rfl, ?_, ?_, ?_, rfl, rfl, ?_, ?_, ?_, ?_, ?_⟩ <;>
    simp [rotated, Context.Get]

/-- C2 on the sample request with both valid tokens. -/
theorem SessionAuth_next_result_witness :
    ∃ p made, TokensIssued sampleAmbient sampleTokenProvider NewSessionRepository
        NewAuthRepository (sampleContext (some "valid-token") (some "valid-refresh") sampleWorld)
        p ∧
      (sampleRun (some "valid-token") (some "valid-refresh") sampleWorld).2.calls = [] ++ made ∧
      Call.GenerateAccessToken (sampleUUIDString p.session.ID) ∈ made ∧
      Call.GenerateRefreshToken (sampleUUIDString p.user.ID) (sampleUUIDString p.session.ID) ∈
        made :=
  match SessionAuth_next_result sampleAmbient sampleTokenProvider NewSessionRepository
      NewAuthRepository (sampleContext (some "valid-token") (some "valid-refresh") sampleWorld)
      (by decide) with
  | ⟨p, made, hp, hcalls, ha, hr, _⟩ => ⟨p, made, hp, hcalls, ha, hr⟩

/-- C3, amended: in a rotation on the SQLite repository the session found is the stored row;
the expiry handed to `UpdateSessionExpiry` is the clock reading `now` plus
`time.Duration(RefreshTokenExpiry) * time.Minute`, which is `RefreshTokenExpiry` minutes when
the product fits an `int64`; when the update reaches the database, that value is the expiry of
every row with the session's id afterwards; and it is strictly later than the previous expiry
whenever that one was written as an earlier reading plus the same lifetime. -/
theorem SessionAuth_rotation_expiry (cfg : Config) (uuidParse : String → Except Error UUID)
    (uuidString : UUID → String) (tp : TokenProvider World) (ar : AuthRepository World)
    (c : Context World) (p : Steps World)
    (h : TokensIssued (World.ambient cfg uuidParse uuidString) tp NewSessionRepository ar c p) :
    p.w1.session.find? (fun r => r.ID = p.sessionID) = some p.session ∧
    (SessionAuth (World.ambient cfg uuidParse uuidString) tp NewSessionRepository ar c).2.calls =
      c.calls ++
        [Call.ParseAccessToken p.cookie.Value, Call.FindSessionByID p.sessionID,
         Call.ParseRefreshToken p.refreshCookie.Value, Call.FindUserByID p.session.UserID,
         Call.GenerateAccessToken (uuidString p.session.ID),
         Call.GenerateRefreshToken (uuidString p.user.ID) (uuidString p.session.ID),
         Call.timeNow (World.timeNow p.w6).1,
         Call.UpdateSessionExpiry p.sessionID
           ((World.timeNow p.w6).1 + minutes cfg.Token.RefreshTokenExpiry)] ∧
    ((World.exec (World.timeNow p.w6).2).1 = none →
      ∀ r ∈ (SessionAuth (World.ambient cfg uuidParse uuidString) tp NewSessionRepository ar
          c).2.world.session,
        r.ID = p.sessionID →
          r.ExpiresAt = (World.timeNow p.w6).1 + minutes cfg.Token.RefreshTokenExpiry) ∧
    (-(2 ^ 63) ≤ cfg.Token.RefreshTokenExpiry * Minute ∧
        cfg.Token.RefreshTokenExpiry * Minute < 2 ^ 63 →
      minutes cfg.Token.RefreshTokenExpiry = cfg.Token.RefreshTokenExpiry * Minute) ∧
    ∀ t0 : Time, t0 < (World.timeNow p.w6).1 →
      p.session.ExpiresAt = t0 + minutes cfg.Token.RefreshTokenExpiry →
        p.session.ExpiresAt < (World.timeNow p.w6).1 + minutes cfg.Token.RefreshTokenExpiry := by
  have hfound := (FindSessionByID_ok p.sessionID p.w1 p.w2 p.session h.1.1.1.2).2
  rw [SessionAuth_of_tokensIssued _ tp NewSessionRepository ar c p h]
  refine ⟨hfound, rfl, ?_, ?_, ?_⟩
  · intro hexec r hr hid
    simp only [rotated, NewSessionRepository, SessionRepositoryImpl.UpdateSessionExpiry,
      World.ambient, Steps.newExpiry, Steps.now, Time.Add] at hr
    rcases hx : World.exec (World.timeNow p.w6).2 with ⟨_ | e, wx⟩
    · rw [hx] at hr
      simp only [List.mem_map] at hr
      obtain ⟨r0, -, hr0⟩ := hr
      by_cases h0 : r0.ID = p.sessionID
      · rw [if_pos h0] at hr0
        rw [← hr0]
      · rw [if_neg h0] at hr0
        rw [hr0] at h0
        exact absurd hid h0
    · rw [hx] at hexec
      simp at hexec
  · rintro ⟨hlo, hhi⟩
    exact wrapInt64_of_fits _ hlo hhi
  · intro t0 ht hprev
    rw [hprev]
    exact Int.add_lt_add_right ht _

/-- C3 as amended, on the sample rotation: the session found is the stored row, the expiry
handed to `UpdateSessionExpiry` is `sampleNow` plus 10080 minutes, and it is later than the
stored expiry, which is the reading 10020 minutes before `sampleNow` plus 10080 minutes. -/
theorem SessionAuth_rotation_expiry_witness :
    sampleWorld.session.find? (fun r => r.ID = sampleSessionID) = some sampleSession ∧
    (sampleRun (some "valid-token") (some "valid-refresh") sampleWorld).2.calls =
      [Call.ParseAccessToken "valid-token", Call.FindSessionByID sampleSessionID,
       Call.ParseRefreshToken "valid-refresh", Call.FindUserByID sampleUserID,
       Call.GenerateAccessToken "00000000-0000-0000-0000-000000000001",
       Call.GenerateRefreshToken "00000000-0000-0000-0000-000000000002"
         "00000000-0000-0000-0000-000000000001",
       Call.timeNow sampleNow,
       Call.UpdateSessionExpiry sampleSessionID (sampleNow + 10080 * Minute)] ∧
    sampleSession.ExpiresAt < sampleNow + 10080 * Minute :=
  have h := SessionAuth_rotation_expiry {} sampleUUIDParse sampleUUIDString sampleTokenProvider
    NewAuthRepository (sampleContext (some "valid-token") (some "valid-refresh") sampleWorld)
    sampleSteps sample_tokensIssued
  ⟨h.1, h.2.1, h.2.2.2.2 (sampleNow - 10020 * Minute) (by decide) (by decide)⟩

/-- C3 as stated fails: the stored session expires at `sampleNow` plus 20000 minutes, the
rotation at the reading `sampleNow` passes every stage and writes `sampleNow` plus 10080
minutes, which is not later than the previous expiry. -/
theorem SessionAuth_rotation_moves_expiry_back :
    (sampleRun (some "valid-token") (some "valid-refresh") worldWithLongSession).1 =
      Outcome.next ∧
    worldWithLongSession.session.map Session.ExpiresAt = [sampleNow + 20000 * Minute] ∧
    Call.UpdateSessionExpiry sampleSessionID (sampleNow + 10080 * Minute) ∈
      (sampleRun (some "valid-token") (some "valid-refresh") worldWithLongSession).2.calls ∧
    (sampleRun (some "valid-token") (some "valid-refresh")
      worldWithLongSession).2.world.session.map Session.ExpiresAt =
      [sampleNow + 10080 * Minute] ∧
    ¬ (sampleNow + 20000 * Minute < sampleNow + 10080 * Minute) := by
  decide

/-- C4: when the session is found and the non-empty `refresh_token` cookie fails
`ParseRefreshToken`, the handler calls `DeleteSession` with the session id parsed from the
access token, clears both cookies and answers 401 without invoking `next`. The result of
`DeleteSession` is not looked at: only the world it leaves appears in the outcome. -/
theorem SessionAuth_refresh_invalid {σ : Type} (amb : Ambient σ) (tp : TokenProvider σ)
    (sr : SessionRepository σ) (ar : AuthRepository σ) (c : Context σ) (p : Steps σ)
    (h : SessionFound amb tp sr c p)
    (hcookie : c.request.Cookie "refresh_token" = some p.refreshCookie)
    (hvalue : p.refreshCookie.Value ≠ "") (err : Error) (w3 : σ)
    (hparse : tp.ParseRefreshToken p.refreshCookie.Value p.w2 = (.error err, w3)) :
    SessionAuth amb tp sr ar c =
      (Outcome.json 401
        { Type_ := "urn:auth-session-api/auth/unauthorized", Title := "Unauthorized",
          Status := 401, Detail := "Authentication required", Instance := c.request.path },
       { request := c.request,
         cookies := c.cookies ++
           [{ Name := "access_token", Value := "", Path := "/", MaxAge := -1, HttpOnly := true },
            { Name := "refresh_token", Value := "", Path := "/", MaxAge := -1,
              HttpOnly := true }],
         store := c.store,
         calls := c.calls ++
           [Call.ParseAccessToken p.cookie.Value, Call.FindSessionByID p.sessionID,
            Call.ParseRefreshToken p.refreshCookie.Value, Call.DeleteSession p.sessionID],
         world := (sr.DeleteSession p.sessionID w3).2 }) := by
  obtain ⟨⟨h1, h2, h3, h4⟩, h5⟩ := h
  simp [SessionAuth, Context.invoke, h1, h2, h3, h4, h5, hcookie, hvalue, hparse,
    unauthorizedResponse_eq, clearAuthCookies_eq]

/-- C4 on the sample request with an expired refresh token: 401, both cookies cleared, and the
sample session deleted from the table. -/
theorem SessionAuth_refresh_invalid_witness :
    (sampleRun (some "valid-token") (some "expired-refresh") sampleWorld).1 =
      Outcome.json 401
        { Type_ := "urn:auth-session-api/auth/unauthorized", Title := "Unauthorized",
          Status := 401, Detail := "Authentication required", Instance := "/v1/auth/logout" } ∧
    (sampleRun (some "valid-token") (some "expired-refresh") sampleWorld).2.world.session =
      [] := by
  have h := SessionAuth_refresh_invalid sampleAmbient sampleTokenProvider NewSessionRepository
    NewAuthRepository (sampleContext (some "valid-token") (some "expired-refresh") sampleWorld)
    sampleStepsExpired
    (by unfold SessionFound AccessVerified; exact ⟨⟨rfl, by decide, rfl, rfl⟩, rfl⟩)
    rfl (by decide) (Error.other "expired") sampleWorld rfl
  rw [sampleRun, h]
  exact ⟨rfl, by decide⟩

/-- C5: when the session is found and the `refresh_token` cookie is absent or empty, the handler
clears both cookies and answers 401 without invoking `next`; the only calls made are
`ParseAccessToken` and `FindSessionByID`, and the world handed back is the one in which
`FindSessionByID` found the session. On the SQLite repository a successful lookup leaves the
table as it was, with the record in it. -/
theorem SessionAuth_missing_refresh {σ : Type} (amb : Ambient σ) (tp : TokenProvider σ)
    (sr : SessionRepository σ) (ar : AuthRepository σ) (c : Context σ) (p : Steps σ)
    (h : SessionFound amb tp sr c p)
    (hmissing : c.request.Cookie "refresh_token" = none ∨
      ∃ k, c.request.Cookie "refresh_token" = some k ∧ k.Value = "") :
    SessionAuth amb tp sr ar c =
      (Outcome.json 401
        { Type_ := "urn:auth-session-api/auth/unauthorized", Title := "Unauthorized",
          Status := 401, Detail := "Authentication required", Instance := c.request.path },
       { request := c.request,
         cookies := c.cookies ++
           [{ Name := "access_token", Value := "", Path := "/", MaxAge := -1, HttpOnly := true },
            { Name := "refresh_token", Value := "", Path := "/", MaxAge := -1,
              HttpOnly := true }],
         store := c.store,
         calls := c.calls ++
           [Call.ParseAccessToken p.cookie.Value, Call.FindSessionByID p.sessionID],
         world := p.w2 }) ∧
    ∀ (id : UUID) (w w2 : World) (session : Session),
      NewSessionRepository.FindSessionByID id w = (.ok session, w2) →
        w2.session = w.session ∧ session ∈ w2.session ∧ session.ID = id := by
  obtain ⟨⟨h1, h2, h3, h4⟩, h5⟩ := h
  constructor
  · rcases hmissing with h6 | ⟨k, h6, h7⟩
    · simp [SessionAuth, Context.invoke, h1, h2, h3, h4, h5, h6, unauthorizedResponse_eq,
        clearAuthCookies_eq]
    · simp [SessionAuth, Context.invoke, h1, h2, h3, h4, h5, h6, h7, unauthorizedResponse_eq,
        clearAuthCookies_eq]
  · intro id w w2 session hfind
    obtain ⟨hs, hf⟩ := FindSessionByID_ok id w w2 session hfind
    refine ⟨hs, ?_, ?_⟩
    · rw [hs]
      exact List.mem_of_find?_eq_some hf
    · simpa using List.find?_some hf

/-- C5 on the sample request without a refresh cookie: 401, and the sample session is still
the one row of the table. -/
theorem SessionAuth_missing_refresh_witness :
    (sampleRun (some "valid-token") none sampleWorld).1 =
      Outcome.json 401
        { Type_ := "urn:auth-session-api/auth/unauthorized", Title := "Unauthorized",
          Status := 401, Detail := "Authentication required", Instance := "/v1/auth/logout" } ∧
    (sampleRun (some "valid-token") none sampleWorld).2.world.session = [sampleSession] := by
  have h := (SessionAuth_missing_refresh sampleAmbient sampleTokenProvider NewSessionRepository
    NewAuthRepository (sampleContext (some "valid-token") none sampleWorld) sampleSteps
    (by unfold SessionFound AccessVerified; exact ⟨⟨rfl, by decide, rfl, rfl⟩, rfl⟩)
    (Or.inl rfl)).1
  rw [sampleRun, h]
  exact ⟨rfl, rfl⟩

/-- C6: when the access token verifies, its session id is a UUID and `FindSessionByID` reports
`ErrSessionNotFound`, the handler clears both cookies (empty value, `MaxAge` -1) and answers
401 without invoking `next`; nothing is assumed about the refresh cookie, and the only calls
made are `ParseAccessToken` and `FindSessionByID`. -/
theorem SessionAuth_session_gone {σ : Type} (amb : Ambient σ) (tp : TokenProvider σ)
    (sr : SessionRepository σ) (ar : AuthRepository σ) (c : Context σ) (p : Steps σ)
    (h : AccessVerified amb tp c p) (err : Error) (w2 : σ)
    (hfind : sr.FindSessionByID p.sessionID p.w1 = (.error err, w2))
    (hgone : errorsIs err Error.ErrSessionNotFound = true) :
    SessionAuth amb tp sr ar c =
      (Outcome.json 401
        { Type_ := "urn:auth-session-api/auth/unauthorized", Title := "Unauthorized",
          Status := 401, Detail := "Authentication required", Instance := c.request.path },
       { request := c.request,
         cookies := c.cookies ++
           [{ Name := "access_token", Value := "", Path := "/", MaxAge := -1, HttpOnly := true },
            { Name := "refresh_token", Value := "", Path := "/", MaxAge := -1,
              HttpOnly := true }],
         store := c.store,
         calls := c.calls ++
           [Call.ParseAccessToken p.cookie.Value, Call.FindSessionByID p.sessionID],
         world := w2 }) := by
  obtain ⟨h1, h2, h3, h4⟩ := h
  simp [SessionAuth, Context.invoke, h1, h2, h3, h4, hfind, hgone, unauthorizedResponse_eq,
    clearAuthCookies_eq]

/-- C6 on the sample request when the session is gone: 401 and both cookies cleared. -/
theorem SessionAuth_session_gone_witness :
    (sampleRun (some "valid-token") none worldWithoutSession).1 =
      Outcome.json 401
        { Type_ := "urn:auth-session-api/auth/unauthorized", Title := "Unauthorized",
          Status := 401, Detail := "Authentication required", Instance := "/v1/auth/logout" } ∧
    (sampleRun (some "valid-token") none worldWithoutSession).2.cookies =
      [{ Name := "access_token", Value := "", Path := "/", MaxAge := -1, HttpOnly := true },
       { Name := "refresh_token", Value := "", Path := "/", MaxAge := -1, HttpOnly := true }] := by
  have h := SessionAuth_session_gone sampleAmbient sampleTokenProvider NewSessionRepository
    NewAuthRepository (sampleContext (some "valid-token") none worldWithoutSession)
    (sampleStepsOn worldWithoutSession)
    (by unfold AccessVerified; exact ⟨rfl, by decide, rfl, rfl⟩)
    Error.ErrSessionNotFound worldWithoutSession rfl (by decide)
  rw [sampleRun, h]
  exact ⟨rfl, rfl⟩

/-- C7: once `DeleteSession` has removed a session, a later request presenting an access token
for it is never handed to `next`, as long as no row with that id has been put back; when the
lookup reaches the database the answer is 401 with both cookies cleared, after the two calls
`ParseAccessToken` and `FindSessionByID`. -/
theorem SessionAuth_after_delete (cfg : Config) (uuidParse : String → Except Error UUID)
    (uuidString : UUID → String) (tp : TokenProvider World) (ar : AuthRepository World)
    (w w2 : World) (sessionID : UUID) (removed : Session)
    (hdelete : SessionRepositoryImpl.DeleteSession sessionID w = (.ok removed, w2))
    (later : World) (hlater : ∀ r ∈ later.session, r.ID = sessionID → r ∈ w2.session)
    (request : Request) (cookie : Cookie) (claims : AccessTokenClaims)
    (hcookie : request.Cookie "access_token" = some cookie) (hvalue : cookie.Value ≠ "")
    (hparse : tp.ParseAccessToken cookie.Value later = (.ok claims, later))
    (huuid : uuidParse claims.SessionID = .ok sessionID) :
    (SessionAuth (World.ambient cfg uuidParse uuidString) tp NewSessionRepository ar
        { request := request, world := later }).1 ≠ Outcome.next ∧
    ((World.exec later).1 = none →
      SessionAuth (World.ambient cfg uuidParse uuidString) tp NewSessionRepository ar
          { request := request, world := later } =
        (Outcome.json 401
          { Type_ := "urn:auth-session-api/auth/unauthorized", Title := "Unauthorized",
            Status := 401, Detail := "Authentication required", Instance := request.path },
         { request := request,
           cookies :=
             [{ Name := "access_token", Value := "", Path := "/", MaxAge := -1,
                HttpOnly := true },
              { Name := "refresh_token", Value := "", Path := "/", MaxAge := -1,
                HttpOnly := true }],
           store := [],
           calls := [Call.ParseAccessToken cookie.Value, Call.FindSessionByID sessionID],
           world := (World.exec later).2 })) := by
  have habsent : ∀ r ∈ later.session, r.ID ≠ sessionID := fun r hr hid =>
    DeleteSession_ok sessionID w w2 removed hdelete r (hlater r hr hid) hid
  obtain ⟨⟨err, w3, hfind⟩, hgone⟩ := FindSessionByID_absent sessionID later habsent
  have hp : ∀ w3 : World, AccessVerified (World.ambient cfg uuidParse uuidString) tp
      { request := request, world := later }
      { sampleSteps with cookie := cookie, accessClaims := claims, w1 := later,
                         sessionID := sessionID, w2 := w3 } :=
    fun _ => ⟨hcookie, hvalue, hparse, huuid⟩
  constructor
  · rw [SessionAuth_of_find_error _ tp NewSessionRepository ar _ _ (hp w3) err w3 hfind]
    split <;> simp [unauthorizedResponse_eq, internalErrorResponse_eq]
  · intro hexec
    rw [SessionAuth_of_find_error _ tp NewSessionRepository ar _ _ (hp later) _ _ (hgone hexec)]
    simp [unauthorizedResponse_eq, clearAuthCookies_eq, errorsIs]

/-- C7 on the sample data: `DeleteSession` removes the sample session, and the sample request
presenting its access token again is answered 401 and not handed to `next`. -/
theorem SessionAuth_after_delete_witness :
    SessionRepositoryImpl.DeleteSession sampleSessionID sampleWorld =
      (.ok sampleSession, worldWithoutSession) ∧
    (SessionAuth sampleAmbient sampleTokenProvider NewSessionRepository NewAuthRepository
        { request := sampleRequest (some "valid-token") (some "valid-refresh"),
          world := worldWithoutSession }).1 ≠ Outcome.next ∧
    (SessionAuth sampleAmbient sampleTokenProvider NewSessionRepository NewAuthRepository
        { request := sampleRequest (some "valid-token") (some "valid-refresh"),
          world := worldWithoutSession }).1 =
      Outcome.json 401
        { Type_ := "urn:auth-session-api/auth/unauthorized", Title := "Unauthorized",
          Status := 401, Detail := "Authentication required", Instance := "/v1/auth/logout" } :=
  have h := SessionAuth_after_delete {} sampleUUIDParse sampleUUIDString sampleTokenProvider
    NewAuthRepository sampleWorld worldWithoutSession sampleSessionID sampleSession rfl
    worldWithoutSession (fun _ hr _ => hr)
    (sampleRequest (some "valid-token") (some "valid-refresh"))
    { Name := "access_token", Value := "valid-token" }
    { SessionID := "00000000-0000-0000-0000-000000000001" } rfl (by decide) rfl rfl
  ⟨rfl, h.1, congrArg Prod.fst (h.2 rfl)⟩

/-- C8: when access, session and refresh verification pass and `FindUserByID` reports
`ErrUserNotFound`, the handler answers 401 without invoking `next`; it writes no cookie, and
after `FindUserByID` it makes no call: no `DeleteSession`, no `UpdateSessionExpiry`, no token
generation. -/
theorem SessionAuth_owner_missing {σ : Type} (amb : Ambient σ) (tp : TokenProvider σ)
    (sr : SessionRepository σ) (ar : AuthRepository σ) (c : Context σ) (p : Steps σ)
    (h : RefreshVerified amb tp sr c p) (err : Error) (w4 : σ)
    (hfind : ar.FindUserByID p.session.UserID p.w3 = (.error err, w4))
    (hmissing : errorsIs err Error.ErrUserNotFound = true) :
    SessionAuth amb tp sr ar c =
      (Outcome.json 401
        { Type_ := "urn:auth-session-api/auth/unauthorized", Title := "Unauthorized",
          Status := 401, Detail := "Authentication required", Instance := c.request.path },
       { request := c.request,
         cookies := c.cookies,
         store := c.store,
         calls := c.calls ++
           [Call.ParseAccessToken p.cookie.Value, Call.FindSessionByID p.sessionID,
            Call.ParseRefreshToken p.refreshCookie.Value, Call.FindUserByID p.session.UserID],
         world := w4 }) := by
  obtain ⟨⟨⟨h1, h2, h3, h4⟩, h5⟩, h6, h7, h8⟩ := h
  simp [SessionAuth, Context.invoke, h1, h2, h3, h4, h5, h6, h7, h8, hfind, hmissing,
    unauthorizedResponse_eq]

/-- C8 on the sample request when the owner of the session is missing: 401, no cookie written,
the session row untouched. -/
theorem SessionAuth_owner_missing_witness :
    (sampleRun (some "valid-token") (some "valid-refresh") worldWithoutUser).1 =
      Outcome.json 401
        { Type_ := "urn:auth-session-api/auth/unauthorized", Title := "Unauthorized",
          Status := 401, Detail := "Authentication required", Instance := "/v1/auth/logout" } ∧
    (sampleRun (some "valid-token") (some "valid-refresh") worldWithoutUser).2.cookies = [] ∧
    (sampleRun (some "valid-token") (some "valid-refresh") worldWithoutUser).2.world.session =
      [sampleSession] := by
  have h := SessionAuth_owner_missing sampleAmbient sampleTokenProvider NewSessionRepository
    NewAuthRepository (sampleContext (some "valid-token") (some "valid-refresh") worldWithoutUser)
    (sampleStepsOn worldWithoutUser)
    (by
      unfold RefreshVerified SessionFound AccessVerified
      exact ⟨⟨⟨rfl, by decide, rfl, rfl⟩, rfl⟩, rfl, by decide, rfl⟩)
    Error.ErrUserNotFound worldWithoutUser rfl (by decide)
  rw [sampleRun, h]
  exact ⟨rfl, rfl, rfl⟩

/-- C9: when every stage passes and `UpdateSessionExpiry` fails, the handler still writes the
two new cookies, stores the identity and invokes `next`; the world it hands on is the one the
failed update left. Whatever `UpdateSessionExpiry` is put in its place (one that succeeds
included), the outcome, the cookies, the stored values and the calls are the same. -/
theorem SessionAuth_update_failure_ignored {σ : Type} (amb : Ambient σ) (tp : TokenProvider σ)
    (sr : SessionRepository σ) (ar : AuthRepository σ) (c : Context σ) (p : Steps σ)
    (h : TokensIssued amb tp sr ar c p) (err : Error) (w7 : σ)
    (hfail : sr.UpdateSessionExpiry p.sessionID
      (Time.Add (amb.timeNow p.w6).1 (minutes amb.Env.Token.RefreshTokenExpiry))
      (amb.timeNow p.w6).2 = (some err, w7)) :
    SessionAuth amb tp sr ar c =
      (Outcome.next,
       { request := c.request,
         cookies := c.cookies ++
           [{ Name := "access_token", Value := p.newAccessToken, Path := "/",
              MaxAge := wrapInt64 (amb.Env.Token.AccessTokenExpiry * 60), HttpOnly := true,
              Secure := decide (amb.Env.Env = "production"), SameSite := SameSiteStrictMode },
            { Name := "refresh_token", Value := p.newRefreshToken, Path := "/",
              MaxAge := wrapInt64 (amb.Env.Token.RefreshTokenExpiry * 60), HttpOnly := true,
              Secure := decide (amb.Env.Env = "production"), SameSite := SameSiteStrictMode }],
         store := c.store ++
           [("user_id", amb.uuidString p.user.ID), ("email", p.user.Email),
            ("name", p.user.Name), ("avatar", p.user.Avatar),
            ("session_id", amb.uuidString p.session.ID)],
         calls := c.calls ++
           [Call.ParseAccessToken p.cookie.Value, Call.FindSessionByID p.sessionID,
            Call.ParseRefreshToken p.refreshCookie.Value, Call.FindUserByID p.session.UserID,
            Call.GenerateAccessToken (amb.uuidString p.session.ID),
            Call.GenerateRefreshToken (amb.uuidString p.user.ID) (amb.uuidString p.session.ID),
            Call.timeNow (amb.timeNow p.w6).1,
            Call.UpdateSessionExpiry p.sessionID
              (Time.Add (amb.timeNow p.w6).1 (minutes amb.Env.Token.RefreshTokenExpiry))],
         world := w7 }) ∧
    ∀ update : UUID → Time → σ → Option Error × σ,
      (SessionAuth amb tp { sr with UpdateSessionExpiry := update } ar c).1 =
        (SessionAuth amb tp sr ar c).1 ∧
      (SessionAuth amb tp { sr with UpdateSessionExpiry := update } ar c).2.cookies =
        (SessionAuth amb tp sr ar c).2.cookies ∧
      (SessionAuth amb tp { sr with UpdateSessionExpiry := update } ar c).2.store =
        (SessionAuth amb tp sr ar c).2.store ∧
      (SessionAuth amb tp { sr with UpdateSessionExpiry := update } ar c).2.calls =
        (SessionAuth amb tp sr ar c).2.calls := by
  rw [SessionAuth_of_tokensIssued amb tp sr ar c p h]
  constructor
  · simp only [rotated, Steps.now, Steps.newExpiry, hfail]
  · intro update
    have h2 : TokensIssued amb tp { sr with UpdateSessionExpiry := update } ar c p := h
    rw [SessionAuth_of_tokensIssued amb tp _ ar c p h2]
    exact ⟨rfl, rfl, rfl, rfl⟩

/-- C9 on the sample request when the third statement, the update of the expiry, fails: the
request is handed to `next` with the new cookies, and the stored expiry is not extended. -/
theorem SessionAuth_update_failure_ignored_witness :
    (sampleRun (some "valid-token") (some "valid-refresh")
      (worldWithFaults [none, none, some (Error.other "database is locked")])).1 =
      Outcome.next ∧
    (sampleRun (some "valid-token") (some "valid-refresh")
      (worldWithFaults [none, none, some (Error.other "database is locked")])).2.world.session =
      [sampleSession] := by
  have h := (SessionAuth_update_failure_ignored sampleAmbient sampleTokenProvider
    NewSessionRepository NewAuthRepository
    (sampleContext (some "valid-token") (some "valid-refresh")
      (worldWithFaults [none, none, some (Error.other "database is locked")]))
    { sampleSteps with
        w1 := worldWithFaults [none, none, some (Error.other "database is locked")],
        w2 := worldWithFaults [none, some (Error.other "database is locked")],
        w3 := worldWithFaults [none, some (Error.other "database is locked")],
        w4 := worldWithFaults [some (Error.other "database is locked")],
        w5 := worldWithFaults [some (Error.other "database is locked")],
        w6 := worldWithFaults [some (Error.other "database is locked")] }
    (by
      unfold TokensIssued OwnerFound RefreshVerified SessionFound AccessVerified
      exact ⟨⟨⟨⟨⟨rfl, by decide, rfl, rfl⟩, rfl⟩, rfl, by decide, rfl⟩, rfl⟩, rfl, rfl⟩)
    (Error.wrapped "failed to update session expiry" (Error.other "database is locked"))
    (worldWithFaults []) rfl).1
  rw [sampleRun, h]
  exact ⟨rfl, rfl⟩

/-- C10: when `FindSessionByID` or `FindUserByID` fails with an error that is not the
not-found one, or `GenerateAccessToken` fails, or `GenerateRefreshToken` fails after a
successful `GenerateAccessToken`, the handler answers 500 with the generic body without
invoking `next`; it writes no cookie and stores no value, and no `UpdateSessionExpiry` is among
the calls it made. -/
theorem SessionAuth_internal_failure {σ : Type} (amb : Ambient σ) (tp : TokenProvider σ)
    (sr : SessionRepository σ) (ar : AuthRepository σ) (c : Context σ) (p : Steps σ)
    (err : Error) (w : σ)
    (h : (AccessVerified amb tp c p ∧ sr.FindSessionByID p.sessionID p.w1 = (.error err, w) ∧
            errorsIs err Error.ErrSessionNotFound = false) ∨
         (RefreshVerified amb tp sr c p ∧
            ar.FindUserByID p.session.UserID p.w3 = (.error err, w) ∧
            errorsIs err Error.ErrUserNotFound = false) ∨
         (OwnerFound amb tp sr ar c p ∧
            tp.GenerateAccessToken (amb.uuidString p.session.ID) p.w4 = (.error err, w)) ∨
         (OwnerFound amb tp sr ar c p ∧
            tp.GenerateAccessToken (amb.uuidString p.session.ID) p.w4 =
              (.ok p.newAccessToken, p.w5) ∧
            tp.GenerateRefreshToken (amb.uuidString p.user.ID) (amb.uuidString p.session.ID)
              p.w5 = (.error err, w))) :
    (SessionAuth amb tp sr ar c).1 =
      Outcome.json 500
        { Type_ := "urn:auth-session-api/auth/internal-error", Title := "Internal Server Error",
          Status := 500, Detail := "An unexpected error occurred",
          Instance := c.request.path } ∧
    (SessionAuth amb tp sr ar c).2.cookies = c.cookies ∧
    (SessionAuth amb tp sr ar c).2.store = c.store ∧
    ∃ made, (SessionAuth amb tp sr ar c).2.calls = c.calls ++ made ∧
      ∀ id t, Call.UpdateSessionExpiry id t ∉ made := by
  rcases h with ⟨⟨h1, h2, h3, h4⟩, h5, h6⟩ | ⟨⟨⟨⟨h1, h2, h3, h4⟩, h5⟩, h6, h7, h8⟩, h9, h10⟩ |
    ⟨⟨⟨⟨⟨h1, h2, h3, h4⟩, h5⟩, h6, h7, h8⟩, h9⟩, h10⟩ |
    ⟨⟨⟨⟨⟨h1, h2, h3, h4⟩, h5⟩, h6, h7, h8⟩, h9⟩, h10, h11⟩
  · refine ⟨?_, ?_, ?_, [Call.ParseAccessToken p.cookie.Value,
      Call.FindSessionByID p.sessionID], ?_, ?_⟩ <;>
      simp [SessionAuth, Context.invoke, h1, h2, h3, h4, h5, h6, internalErrorResponse_eq]
  · refine ⟨?_, ?_, ?_, [Call.ParseAccessToken p.cookie.Value,
      Call.FindSessionByID p.sessionID, Call.ParseRefreshToken p.refreshCookie.Value,
      Call.FindUserByID p.session.UserID], ?_, ?_⟩ <;>
      simp [SessionAuth, Context.invoke, h1, h2, h3, h4, h5, h6, h7, h8, h9, h10,
        internalErrorResponse_eq]
  · refine ⟨?_, ?_, ?_, [Call.ParseAccessToken p.cookie.Value,
      Call.FindSessionByID p.sessionID, Call.ParseRefreshToken p.refreshCookie.Value,
      Call.FindUserByID p.session.UserID,
      Call.GenerateAccessToken (amb.uuidString p.session.ID)], ?_, ?_⟩ <;>
      simp [SessionAuth, Context.invoke, h1, h2, h3, h4, h5, h6, h7, h8, h9, h10,
        internalErrorResponse_eq]
  · refine ⟨?_, ?_, ?_, [Call.ParseAccessToken p.cookie.Value,
      Call.FindSessionByID p.sessionID, Call.ParseRefreshToken p.refreshCookie.Value,
      Call.FindUserByID p.session.UserID,
      Call.GenerateAccessToken (amb.uuidString p.session.ID),
      Call.GenerateRefreshToken (amb.uuidString p.user.ID) (amb.uuidString p.session.ID)],
      ?_, ?_⟩ <;>
      simp [SessionAuth, Context.invoke, h1, h2, h3, h4, h5, h6, h7, h8, h9, h10, h11,
        internalErrorResponse_eq]

/-- C10 on the sample request when the lookup of the session fails in the database: 500 and no
cookie written. -/
theorem SessionAuth_internal_failure_witness :
    (sampleRun (some "valid-token") (some "valid-refresh")
      (worldWithFaults [some (Error.other "database is locked")])).1 =
      Outcome.json 500
        { Type_ := "urn:auth-session-api/auth/internal-error", Title := "Internal Server Error",
          Status := 500, Detail := "An unexpected error occurred",
          Instance := "/v1/auth/logout" } ∧
    (sampleRun (some "valid-token") (some "valid-refresh")
      (worldWithFaults [some (Error.other "database is locked")])).2.cookies = [] := by
  have h := SessionAuth_internal_failure sampleAmbient sampleTokenProvider NewSessionRepository
    NewAuthRepository
    (sampleContext (some "valid-token") (some "valid-refresh")
      (worldWithFaults [some (Error.other "database is locked")]))
    (sampleStepsOn (worldWithFaults [some (Error.other "database is locked")]))
    (Error.other "database is locked") (worldWithFaults [])
    (Or.inl ⟨by unfold AccessVerified; exact ⟨rfl, by decide, rfl, rfl⟩, rfl, by decide⟩)
  exact ⟨h.1, h.2.1⟩

/-- C11: when the `access_token` cookie is absent or empty, or `ParseAccessToken` fails, or
the session id of the claims is not a UUID, the handler answers 401 without invoking `next`,
writes no cookie and stores no value; the only call it can have made is `ParseAccessToken`,
so no repository is called, and with the cookie absent or empty it has made no call at all. -/
theorem SessionAuth_access_rejected {σ : Type} (amb : Ambient σ) (tp : TokenProvider σ)
    (sr : SessionRepository σ) (ar : AuthRepository σ) (c : Context σ) (p : Steps σ)
    (h : Rejected amb tp sr ar c p Rejection.MissingAccessToken ∨
         Rejected amb tp sr ar c p Rejection.InvalidAccessToken ∨
         Rejected amb tp sr ar c p Rejection.MalformedSessionRef) :
    (SessionAuth amb tp sr ar c).1 =
      Outcome.json 401
        { Type_ := "urn:auth-session-api/auth/unauthorized", Title := "Unauthorized",
          Status := 401, Detail := "Authentication required", Instance := c.request.path } ∧
    (SessionAuth amb tp sr ar c).2.cookies = c.cookies ∧
    (SessionAuth amb tp sr ar c).2.store = c.store ∧
    ((SessionAuth amb tp sr ar c).2.calls = c.calls ∨
      (SessionAuth amb tp sr ar c).2.calls =
        c.calls ++ [Call.ParseAccessToken p.cookie.Value]) ∧
    (Rejected amb tp sr ar c p Rejection.MissingAccessToken →
      (SessionAuth amb tp sr ar c).2.calls = c.calls) := by
  have hmissing := SessionAuth_of_rejected amb tp sr ar c p Rejection.MissingAccessToken
  rcases h with h | h | h
  · obtain ⟨h1, h2, h3, h4⟩ := hmissing h
    exact ⟨h1, by simpa [Rejection.cookies] using h2, h3,
      Or.inl (by simpa [Rejection.calls] using h4),
      fun _ => by simpa [Rejection.calls] using h4⟩
  · obtain ⟨h1, h2, h3, h4⟩ := SessionAuth_of_rejected amb tp sr ar c p _ h
    exact ⟨h1, by simpa [Rejection.cookies] using h2, h3,
      Or.inr (by simpa [Rejection.calls] using h4),
      fun hm => by simpa [Rejection.calls] using (hmissing hm).2.2.2⟩
  · obtain ⟨h1, h2, h3, h4⟩ := SessionAuth_of_rejected amb tp sr ar c p _ h
    exact ⟨h1, by simpa [Rejection.cookies] using h2, h3,
      Or.inr (by simpa [Rejection.calls] using h4),
      fun hm => by simpa [Rejection.calls] using (hmissing hm).2.2.2⟩

/-- C11 on the sample request with the access token `bad-token`, which the sample provider
does not parse: 401, no cookie, and `ParseAccessToken` as the only call. -/
theorem SessionAuth_access_rejected_witness :
    (sampleRun (some "bad-token") none sampleWorld).1 =
      Outcome.json 401
        { Type_ := "urn:auth-session-api/auth/unauthorized", Title := "Unauthorized",
          Status := 401, Detail := "Authentication required", Instance := "/v1/auth/logout" } ∧
    (sampleRun (some "bad-token") none sampleWorld).2.cookies = [] ∧
    (sampleRun (some "bad-token") none sampleWorld).2.calls =
      [Call.ParseAccessToken "bad-token"] :=
  have h := SessionAuth_access_rejected sampleAmbient sampleTokenProvider NewSessionRepository
    NewAuthRepository (sampleContext (some "bad-token") none sampleWorld)
    { sampleSteps with cookie := { Name := "access_token", Value := "bad-token" } }
    (Or.inr (Or.inl ⟨rfl, by decide, Error.other "invalid", rfl⟩))
  ⟨h.1, h.2.1, by decide⟩

/-- C12, amended: for every kind of rejection the status and the problem-details body are the
same, a function of the request path alone; the cookies written are the two clearing cookies
when the rejection is `SessionGone`, `MissingRefreshToken` or `RefreshInvalid`, and none when
it is one of the other four. -/
theorem SessionAuth_rejections_alike {σ : Type} (amb : Ambient σ) (tp : TokenProvider σ)
    (sr : SessionRepository σ) (ar : AuthRepository σ) (c : Context σ) (p : Steps σ)
    (kind : Rejection) (h : Rejected amb tp sr ar c p kind) :
    (SessionAuth amb tp sr ar c).1 =
      Outcome.json 401
        { Type_ := "urn:auth-session-api/auth/unauthorized", Title := "Unauthorized",
          Status := 401, Detail := "Authentication required", Instance := c.request.path } ∧
    (kind = Rejection.SessionGone ∨ kind = Rejection.MissingRefreshToken ∨
        kind = Rejection.RefreshInvalid →
      (SessionAuth amb tp sr ar c).2.cookies = c.cookies ++
        [{ Name := "access_token", Value := "", Path := "/", MaxAge := -1, HttpOnly := true },
         { Name := "refresh_token", Value := "", Path := "/", MaxAge := -1,
           HttpOnly := true }]) ∧
    (kind = Rejection.MissingAccessToken ∨ kind = Rejection.InvalidAccessToken ∨
        kind = Rejection.MalformedSessionRef ∨ kind = Rejection.OwnerMissing →
      (SessionAuth amb tp sr ar c).2.cookies = c.cookies) := by
  obtain ⟨h1, h2, -, -⟩ := SessionAuth_of_rejected amb tp sr ar c p kind h
  refine ⟨h1, ?_, ?_⟩
  · rintro (rfl | rfl | rfl) <;> simpa [Rejection.cookies] using h2
  · rintro (rfl | rfl | rfl | rfl) <;> simpa [Rejection.cookies] using h2

/-- C12 as amended, on the sample request without a refresh cookie: the 401 body and the two
clearing cookies. -/
theorem SessionAuth_rejections_alike_witness :
    (sampleRun (some "valid-token") none sampleWorld).1 =
      Outcome.json 401
        { Type_ := "urn:auth-session-api/auth/unauthorized", Title := "Unauthorized",
          Status := 401, Detail := "Authentication required", Instance := "/v1/auth/logout" } ∧
    (sampleRun (some "valid-token") none sampleWorld).2.cookies =
      [{ Name := "access_token", Value := "", Path := "/", MaxAge := -1, HttpOnly := true },
       { Name := "refresh_token", Value := "", Path := "/", MaxAge := -1, HttpOnly := true }] :=
  have h := SessionAuth_rejections_alike sampleAmbient sampleTokenProvider NewSessionRepository
    NewAuthRepository (sampleContext (some "valid-token") none sampleWorld) sampleSteps
    Rejection.MissingRefreshToken
    ⟨by unfold SessionFound AccessVerified; exact ⟨⟨rfl, by decide, rfl, rfl⟩, rfl⟩, Or.inl rfl⟩
  ⟨h.1, h.2.1 (Or.inr (Or.inl rfl))⟩

/-- C12 as stated fails: on the same path a request without access token and a request with a
valid access token but no refresh token are both answered with the same 401 body, the first
with no cookie written and the second with the two clearing cookies. -/
theorem SessionAuth_rejections_differ_in_cookies :
    (sampleRun none none sampleWorld).1 = (sampleRun (some "valid-token") none sampleWorld).1 ∧
    (sampleRun none none sampleWorld).2.cookies = [] ∧
    (sampleRun (some "valid-token") none sampleWorld).2.cookies =
      [{ Name := "access_token", Value := "", Path := "/", MaxAge := -1, HttpOnly := true },
       { Name := "refresh_token", Value := "", Path := "/", MaxAge := -1, HttpOnly := true }] ∧
    (sampleRun none none sampleWorld).2.cookies ≠
      (sampleRun (some "valid-token") none sampleWorld).2.cookies := by
  decide

/-! ### Properties of the token provider -/

/-- C13: when the provider's keypair matches (what the private key signs decodes back and
verifies under the public key), the access token generated for `sid` is parsed back into
claims with `SessionID = sid`, at any time; and the refresh token generated for `uid` and
`sid` is parsed back into claims with `UserID = uid` and `SessionID = sid` whenever the clock
reading of the parse is a second or more before the reading of the issuance plus the refresh
lifetime, as it is right after the issuance for every positive lifetime. -/
theorem JWTProvider_round_trip (lib : JWTLibrary) (j : JWTProvider) (sid uid : String)
    (w w2 : World) (accessToken refreshToken : String)
    (haccess : Issued lib j (j.accessClaims sid (World.timeNow w).1) accessToken)
    (hrefresh : Issued lib j (j.refreshClaims uid sid (World.timeNow w).1) refreshToken)
    (hsoon : (World.timeNow w2).1 + 1000000000 ≤ (World.timeNow w).1 + j.refreshTokenExpiry) :
    j.GenerateAccessToken lib sid w = (.ok accessToken, (World.timeNow w).2) ∧
    j.ParseAccessToken lib accessToken w2 = (.ok { SessionID := sid }, w2) ∧
    j.GenerateRefreshToken lib uid sid w = (.ok refreshToken, (World.timeNow w).2) ∧
    j.ParseRefreshToken lib refreshToken w2 =
      (.ok { UserID := uid, SessionID := sid }, (World.timeNow w2).2) := by
  obtain ⟨sigA, hsignA, rfl, hcorrectA⟩ := haccess
  obtain ⟨sigR, hsignR, rfl, hcorrectR⟩ := hrefresh
  have hpA := (parseToken_of_correctlySigned lib j _ _ "RS256" hcorrectA w2).1
  have hpR := (parseToken_of_correctlySigned lib j _ _ "RS256" hcorrectR w2).2
  have hvalid := validateClaims_refreshClaims j uid sid _ _ hsoon
  simp only [hvalid] at hpR
  refine ⟨?_, ?_, ?_, ?_⟩
  · simp [JWTProvider.GenerateAccessToken, Token.SignedString, NewWithClaims, SigningMethodRS256,
      SigningMethod.Alg, headerOf] at hsignA ⊢
    simp [hsignA]
  · unfold JWTProvider.ParseAccessToken
    rw [hpA]
    simp [JWTProvider.accessClaims, List.lookup]
  · simp [JWTProvider.GenerateRefreshToken, Token.SignedString, NewWithClaims,
      SigningMethodRS256, SigningMethod.Alg, headerOf] at hsignR ⊢
    simp [hsignR]
  · unfold JWTProvider.ParseRefreshToken
    rw [hpR]
    simp [JWTProvider.refreshClaims, List.lookup]

/-- C13 on the sample provider: the tokens issued at `sampleNow` for the sample session and
user are parsed back, right after the issuance, into the ids they were issued for. -/
theorem JWTProvider_round_trip_witness :
    sampleJWT.GenerateAccessToken sampleLib "00000000-0000-0000-0000-000000000001"
      sampleWorld = (.ok "RS256.access.signed", sampleWorld) ∧
    sampleJWT.ParseAccessToken sampleLib "RS256.access.signed" sampleWorld =
      (.ok { SessionID := "00000000-0000-0000-0000-000000000001" }, sampleWorld) ∧
    sampleJWT.GenerateRefreshToken sampleLib "00000000-0000-0000-0000-000000000002"
      "00000000-0000-0000-0000-000000000001" sampleWorld =
      (.ok "RS256.refresh.signed", sampleWorld) ∧
    sampleJWT.ParseRefreshToken sampleLib "RS256.refresh.signed" sampleWorld =
      (.ok { UserID := "00000000-0000-0000-0000-000000000002",
             SessionID := "00000000-0000-0000-0000-000000000001" }, sampleWorld) :=
  JWTProvider_round_trip sampleLib sampleJWT "00000000-0000-0000-0000-000000000001"
    "00000000-0000-0000-0000-000000000002" sampleWorld sampleWorld "RS256.access.signed"
    "RS256.refresh.signed"
    ⟨"signed", rfl, by decide, rfl, ⟨"RS256", rfl, rfl⟩, rfl⟩
    ⟨"signed", rfl, by decide, rfl, ⟨"RS256", rfl, rfl⟩, rfl⟩
    (by decide)

/-- C14, amended: of a token correctly signed under an RSA method, `ParseRefreshToken` returns
an error whenever the `exp` claim is a number other than 0 whose date is earlier than the
clock reading, and `ParseAccessToken` returns the claims whenever `sub` is a string, whatever
the `exp` claim and the clock. -/
theorem JWTProvider_expiry (lib : JWTLibrary) (j : JWTProvider) (tokenString : String)
    (seg : Segments) (alg : String)
    (h : CorrectlySigned lib j tokenString seg (SigningMethod.RSA alg)) (w : World) :
    (∀ n, List.lookup "exp" seg.Claims = some (Value.number n) → n ≠ 0 →
      timeUnix n < (World.timeNow w).1 →
        ∃ err, j.ParseRefreshToken lib tokenString w = (.error err, (World.timeNow w).2)) ∧
    (∀ sub, List.lookup "sub" seg.Claims = some (Value.string sub) →
      j.ParseAccessToken lib tokenString w = (.ok { SessionID := sub }, w)) := by
  obtain ⟨hskip, hchecked⟩ := parseToken_of_correctlySigned lib j tokenString seg alg h w
  constructor
  · intro n hexp hn hlt
    have hb : Time.Before (World.timeNow w).1 (timeUnix n) = false := by
      simp only [Time.Before, decide_eq_false_iff_not]
      exact not_lt.mpr (le_of_lt hlt)
    have hval : validateClaims seg.Claims (World.timeNow w).1 = some ErrTokenExpired := by
      simp [validateClaims, parseNumericDate, hexp, hn, hb]
    rw [hval] at hchecked
    unfold JWTProvider.ParseRefreshToken
    rw [hchecked]
    exact ⟨_, rfl⟩
  · intro sub hsub
    unfold JWTProvider.ParseAccessToken
    rw [hskip]
    simp [hsub]

/-- C14 as amended, on the sample refresh token read 10081 minutes after its issuance, a
minute after its `exp`: `ParseRefreshToken` returns an error. -/
theorem JWTProvider_expiry_witness :
    ∃ err, sampleJWT.ParseRefreshToken sampleLib "RS256.refresh.signed"
        { sampleWorld with clock := sampleNow + 10081 * Minute } =
      (.error err, { sampleWorld with clock := sampleNow + 10081 * Minute }) :=
  (JWTProvider_expiry sampleLib sampleJWT "RS256.refresh.signed"
    { Header := headerOf "RS256", Claims := sampleRefreshClaims,
      signingString := "RS256.refresh", Signature := "signed" } "RS256"
    ⟨rfl, ⟨"RS256", rfl, rfl⟩, rfl⟩
    { sampleWorld with clock := sampleNow + 10081 * Minute }).1 1765008000 rfl (by decide)
    (by decide)

/-- C14 as stated fails: the token is correctly signed, its `exp` claim is the number 0,
the first second of 1970 and so earlier than the clock reading, and `ParseRefreshToken`
returns its claims. -/
theorem JWTProvider_accepts_zero_exp :
    sampleLib.decode "RS256.zero.signed" =
      .ok { Header := headerOf "RS256", Claims := zeroExpClaims,
            signingString := "RS256.zero", Signature := "signed" } ∧
    sampleLib.verify SigningMethodRS256 sampleJWT.publicKey "RS256.zero" "signed" = none ∧
    List.lookup "exp" zeroExpClaims = some (Value.number 0) ∧
    timeUnix 0 < (World.timeNow sampleWorld).1 ∧
    sampleJWT.ParseRefreshToken sampleLib "RS256.zero.signed" sampleWorld =
      (.ok { UserID := "00000000-0000-0000-0000-000000000002",
             SessionID := "00000000-0000-0000-0000-000000000001" }, sampleWorld) :=
  ⟨rfl, rfl, rfl, by decide, rfl⟩

/-- C15, what the code does: of a token correctly signed under an RSA method,
`ParseAccessToken` panics when `sub` is not a string, and `ParseRefreshToken` panics when the
claims pass the validation and `sub` or `session_id` is not a string. -/
theorem JWTProvider_parse_panics (lib : JWTLibrary) (j : JWTProvider) (tokenString : String)
    (seg : Segments) (alg : String)
    (h : CorrectlySigned lib j tokenString seg (SigningMethod.RSA alg)) (w : World) :
    ((∀ sub, List.lookup "sub" seg.Claims ≠ some (Value.string sub)) →
      j.ParseAccessToken lib tokenString w = (.panic, w)) ∧
    (validateClaims seg.Claims (World.timeNow w).1 = none →
      (∀ sub, List.lookup "sub" seg.Claims ≠ some (Value.string sub)) ∨
        (∀ sessionID, List.lookup "session_id" seg.Claims ≠ some (Value.string sessionID)) →
      j.ParseRefreshToken lib tokenString w = (.panic, (World.timeNow w).2)) := by
  obtain ⟨hskip, hchecked⟩ := parseToken_of_correctlySigned lib j tokenString seg alg h w
  constructor
  · intro hsub
    unfold JWTProvider.ParseAccessToken
    rw [hskip]
    rcases hl : List.lookup "sub" seg.Claims with _ | v
    · simp [hl]
    · cases v with
      | string sub => exact absurd hl (hsub sub)
      | number n => simp [hl]
      | other => simp [hl]
  · intro hval hmissing
    rw [hval] at hchecked
    unfold JWTProvider.ParseRefreshToken
    rw [hchecked]
    rcases hl : List.lookup "sub" seg.Claims with _ | v
    · simp [hl]
    · cases v with
      | number n => simp [hl]
      | other => simp [hl]
      | string sub =>
        rcases hmissing with hsub | hsession
        · exact absurd hl (hsub sub)
        · rcases hi : List.lookup "session_id" seg.Claims with _ | v2
          · simp [hl, hi]
          · cases v2 with
            | string sessionID => exact absurd hi (hsession sessionID)
            | number n => simp [hl, hi]
            | other => simp [hl, hi]

/-- C15 at the failing input: the sample access token, with the claims `sub`, `iat` and `exp`
only, is handed to `ParseRefreshToken` before it expires, and the call panics. -/
theorem JWTProvider_parse_panics_witness :
    sampleJWT.ParseRefreshToken sampleLib "RS256.access.signed" sampleWorld =
      (.panic, sampleWorld) :=
  (JWTProvider_parse_panics sampleLib sampleJWT "RS256.access.signed"
    { Header := headerOf "RS256", Claims := sampleAccessClaims,
      signingString := "RS256.access", Signature := "signed" } "RS256"
    ⟨rfl, ⟨"RS256", rfl, rfl⟩, rfl⟩ sampleWorld).2 (by decide)
    (Or.inr (fun _ => by simp [sampleAccessClaims, List.lookup]))

/-- C16, amended: `parseToken` rejects every token whose header does not name RS256, RS384 or
RS512, the methods of type `*jwt.SigningMethodRSA`: so those naming `none`, an HMAC method
or no method at all. It does so whatever the signature, and the verification is not
consulted: with any other verification in its place the result is the same. The key function
returns the public key for the methods of these three names and for no other. -/
theorem parseToken_rejects_other_methods (lib : JWTLibrary) (j : JWTProvider)
    (tokenString : String) (seg : Segments) (hdecode : lib.decode tokenString = .ok seg)
    (hother : ∀ alg, List.lookup "alg" seg.Header = some (Value.string alg) →
      alg ≠ "RS256" ∧ alg ≠ "RS384" ∧ alg ≠ "RS512")
    (skipClaimsValidation : Bool) (w : World) :
    (∃ err, j.parseToken lib tokenString skipClaimsValidation w = (.error err, w)) ∧
    (∀ verify : SigningMethod → PublicKey → String → String → Option Error,
      j.parseToken { lib with verify := verify } tokenString skipClaimsValidation w =
        j.parseToken lib tokenString skipClaimsValidation w) ∧
    (∀ token key, j.keyFunc token = .ok key →
      key = j.publicKey ∧ ∃ alg, token.Method = SigningMethod.RSA alg) ∧
    (∀ name alg, GetSigningMethod name = some (SigningMethod.RSA alg) →
      name = alg ∧ (alg = "RS256" ∨ alg = "RS384" ∨ alg = "RS512")) := by
  have hkey : ∀ token key, j.keyFunc token = .ok key →
      key = j.publicKey ∧ ∃ alg, token.Method = SigningMethod.RSA alg := by
    intro token key hk
    unfold JWTProvider.keyFunc at hk
    cases hm : token.Method <;> simp [hm] at hk
    exact ⟨hk.symm, _, rfl⟩
  have hnames : ∀ name alg, GetSigningMethod name = some (SigningMethod.RSA alg) →
      name = alg ∧ (alg = "RS256" ∨ alg = "RS384" ∨ alg = "RS512") := by
    intro name alg hg
    unfold GetSigningMethod at hg
    split_ifs at hg with h1 h2 h3 h4 h5 h6 <;> simp at hg
    subst hg
    exact ⟨rfl, h2⟩
  have hrun : ∀ lib2 : JWTLibrary, lib2.decode = lib.decode →
      ∃ err, j.parseToken lib2 tokenString skipClaimsValidation w = (.error err, w) ∧
        j.parseToken lib tokenString skipClaimsValidation w = (.error err, w) := by
    intro lib2 hd
    rcases hl : List.lookup "alg" seg.Header with _ | v
    · simp [JWTProvider.parseToken, jwtParse, hd, hdecode, hl]
    · cases v with
      | number n => simp [JWTProvider.parseToken, jwtParse, hd, hdecode, hl]
      | other => simp [JWTProvider.parseToken, jwtParse, hd, hdecode, hl]
      | string alg =>
        obtain ⟨h1, h2, h3⟩ := hother alg hl
        cases hg : GetSigningMethod alg with
        | none => simp [JWTProvider.parseToken, jwtParse, hd, hdecode, hl, hg]
        | some method =>
          cases method with
          | RSA a =>
            obtain ⟨rfl, h⟩ := hnames alg a hg
            rcases h with h | h | h
            · exact absurd h h1
            · exact absurd h h2
            · exact absurd h h3
          | HMAC a =>
            simp [JWTProvider.parseToken, jwtParse, hd, hdecode, hl, hg, JWTProvider.keyFunc]
          | RSAPSS a =>
            simp [JWTProvider.parseToken, jwtParse, hd, hdecode, hl, hg, JWTProvider.keyFunc]
          | ECDSA a =>
            simp [JWTProvider.parseToken, jwtParse, hd, hdecode, hl, hg, JWTProvider.keyFunc]
          | Ed25519 =>
            simp [JWTProvider.parseToken, jwtParse, hd, hdecode, hl, hg, JWTProvider.keyFunc]
          | None =>
            simp [JWTProvider.parseToken, jwtParse, hd, hdecode, hl, hg, JWTProvider.keyFunc]
  refine ⟨?_, ?_, hkey, hnames⟩
  · obtain ⟨err, -, h⟩ := hrun lib rfl
    exact ⟨err, h⟩
  · intro verify
    obtain ⟨err, h1, h2⟩ := hrun { lib with verify := verify } rfl
    rw [h1, h2]

/-- C16 as amended, on the sample token whose header names `none` and whose signature is
empty: `parseToken` returns an error. -/
theorem parseToken_rejects_other_methods_witness :
    ∃ err, sampleJWT.parseToken sampleLib "none.access." true sampleWorld =
      (.error err, sampleWorld) :=
  (parseToken_rejects_other_methods sampleLib sampleJWT "none.access."
    { Header := headerOf "none", Claims := sampleAccessClaims,
      signingString := "none.access", Signature := "" } rfl
    (fun alg h => by
      have ha : alg = "none" := by
        simpa [headerOf, List.lookup] using h.symm
      subst ha
      decide)
    true sampleWorld).1

/-- C16 as stated fails: the header of the token names RS384, which is not RS256, the key
function hands out the public key for it, and `parseToken` accepts the token. -/
theorem parseToken_accepts_RS384 :
    sampleLib.decode "RS384.access.signed" =
      .ok { Header := headerOf "RS384", Claims := sampleAccessClaims,
            signingString := "RS384.access", Signature := "signed" } ∧
    List.lookup "alg" (headerOf "RS384") = some (Value.string "RS384") ∧
    "RS384" ≠ "RS256" ∧
    sampleJWT.keyFunc
      { Raw := "RS384.access.signed", Method := SigningMethod.RSA "RS384",
        Header := headerOf "RS384", Claims := sampleAccessClaims, Signature := "signed" } =
      .ok sampleJWT.publicKey ∧
    sampleJWT.parseToken sampleLib "RS384.access.signed" true sampleWorld =
      (.ok { Raw := "RS384.access.signed", Method := SigningMethod.RSA "RS384",
             Header := headerOf "RS384", Claims := sampleAccessClaims, Signature := "signed",
             Valid := true }, sampleWorld) :=
  ⟨rfl, rfl, by decide, rfl, rfl⟩

/-- C17, amended: when the configured lifetimes in minutes fit a `time.Duration`, the access
token issued at the clock reading `now` is the signature over exactly the claims `sub` (the
session id), `iat` (`now` in Unix seconds) and `exp` (`iat` plus `AccessTokenExpiry` times 60),
and the refresh token the signature over exactly `sub` (the user id), `session_id`, `iat` and
`exp` (`iat` plus `RefreshTokenExpiry` times 60). -/
theorem JWTProvider_issued_claims (lib : JWTLibrary) (cfg : Config) (privateKey : PrivateKey)
    (publicKey : PublicKey) (sid uid : String) (w : World)
    (haccess : -(2 ^ 63) ≤ cfg.Token.AccessTokenExpiry * Minute ∧
      cfg.Token.AccessTokenExpiry * Minute < 2 ^ 63)
    (hrefresh : -(2 ^ 63) ≤ cfg.Token.RefreshTokenExpiry * Minute ∧
      cfg.Token.RefreshTokenExpiry * Minute < 2 ^ 63) :
    (NewJWTProvider cfg privateKey publicKey).GenerateAccessToken lib sid w =
      (match (NewWithClaims SigningMethodRS256
          [("sub", Value.string sid),
           ("iat", Value.number (Time.Unix (World.timeNow w).1)),
           ("exp", Value.number
             (Time.Unix (World.timeNow w).1 + cfg.Token.AccessTokenExpiry * 60))]).SignedString
          lib privateKey with
        | .error err => .error (.wrapped "failed to sign access token" err)
        | .ok signed => .ok signed,
       (World.timeNow w).2) ∧
    (NewJWTProvider cfg privateKey publicKey).GenerateRefreshToken lib uid sid w =
      (match (NewWithClaims SigningMethodRS256
          [("sub", Value.string uid),
           ("session_id", Value.string sid),
           ("iat", Value.number (Time.Unix (World.timeNow w).1)),
           ("exp", Value.number
             (Time.Unix (World.timeNow w).1 + cfg.Token.RefreshTokenExpiry * 60))]).SignedString
          lib privateKey with
        | .error err => .error (.wrapped "failed to sign refresh token" err)
        | .ok signed => .ok signed,
       (World.timeNow w).2) := by
  have hA : Time.Unix (Time.Add (World.timeNow w).1 (minutes cfg.Token.AccessTokenExpiry)) =
      Time.Unix (World.timeNow w).1 + cfg.Token.AccessTokenExpiry * 60 := by
    have hm : minutes cfg.Token.AccessTokenExpiry =
        cfg.Token.AccessTokenExpiry * 60 * 1000000000 := by
      unfold minutes
      rw [wrapInt64_of_fits _ haccess.1 haccess.2]
      unfold Minute
      ring
    rw [hm]
    exact Unix_add_seconds _ _
  have hR : Time.Unix (Time.Add (World.timeNow w).1 (minutes cfg.Token.RefreshTokenExpiry)) =
      Time.Unix (World.timeNow w).1 + cfg.Token.RefreshTokenExpiry * 60 := by
    have hm : minutes cfg.Token.RefreshTokenExpiry =
        cfg.Token.RefreshTokenExpiry * 60 * 1000000000 := by
      unfold minutes
      rw [wrapInt64_of_fits _ hrefresh.1 hrefresh.2]
      unfold Minute
      ring
    rw [hm]
    exact Unix_add_seconds _ _
  constructor
  · unfold JWTProvider.GenerateAccessToken JWTProvider.accessClaims NewJWTProvider
    simp only [hA]
    cases (NewWithClaims SigningMethodRS256 _).SignedString lib privateKey <;> rfl
  · unfold JWTProvider.GenerateRefreshToken JWTProvider.refreshClaims NewJWTProvider
    simp only [hR]
    cases (NewWithClaims SigningMethodRS256 _).SignedString lib privateKey <;> rfl

/-- C17 as amended, on the sample provider with the default lifetimes of 60 and 10080
minutes: the tokens issued at `sampleNow`, 1764403200 in Unix seconds, are the signatures over
claims with `exp` 3600 and 604800 seconds later. -/
theorem JWTProvider_issued_claims_witness :
    sampleJWT.GenerateAccessToken sampleLib "00000000-0000-0000-0000-000000000001"
        sampleWorld =
      ((NewWithClaims SigningMethodRS256
          [("sub", Value.string "00000000-0000-0000-0000-000000000001"),
           ("iat", Value.number 1764403200),
           ("exp", Value.number 1764406800)]).SignedString sampleLib ⟨1⟩, sampleWorld) ∧
    sampleJWT.GenerateRefreshToken sampleLib "00000000-0000-0000-0000-000000000002"
        "00000000-0000-0000-0000-000000000001" sampleWorld =
      ((NewWithClaims SigningMethodRS256
          [("sub", Value.string "00000000-0000-0000-0000-000000000002"),
           ("session_id", Value.string "00000000-0000-0000-0000-000000000001"),
           ("iat", Value.number 1764403200),
           ("exp", Value.number 1765008000)]).SignedString sampleLib ⟨1⟩, sampleWorld) :=
  have h := JWTProvider_issued_claims sampleLib {} ⟨1⟩ ⟨1⟩
    "00000000-0000-0000-0000-000000000001" "00000000-0000-0000-0000-000000000002" sampleWorld
    (by decide) (by decide)
  ⟨h.1.trans rfl, h.2.trans rfl⟩

/-- C17 as stated fails: with `AccessTokenExpiry` set to 200000000 minutes the product with
`time.Minute` wraps around, and the access token issued at `sampleNow` is the signature over
claims whose `exp` lies before `iat`, not 200000000 times 60 seconds after it. -/
theorem JWTProvider_long_lifetime_wraps :
    longLivedJWT.accessTokenExpiry = -6446744073709551616 ∧
    longLivedJWT.GenerateAccessToken sampleLib "00000000-0000-0000-0000-000000000001"
        sampleWorld =
      ((NewWithClaims SigningMethodRS256
          [("sub", Value.string "00000000-0000-0000-0000-000000000001"),
           ("iat", Value.number 1764403200),
           ("exp", Value.number (-4682340874))]).SignedString sampleLib ⟨1⟩, sampleWorld) ∧
    (-4682340874 : Int) - 1764403200 ≠ 200000000 * 60 :=
  ⟨by decide, rfl, by decide⟩

/-! ### Properties of the session repository -/

/-- C18, amended: when the lookup reaches the database, `FindSessionByID` fails with
`ErrSessionNotFound` if and only if no row has the id or the row's `ExpiresAt` is not the zero
time and is strictly before the clock reading; otherwise it returns the stored row as it is.
In both cases the table is left as it was, so the row of an expired session is still there. -/
theorem FindSessionByID_not_found_iff (id : UUID) (w : World)
    (hexec : (World.exec w).1 = none) :
    ((SessionRepositoryImpl.FindSessionByID id w).1 = .error Error.ErrSessionNotFound ↔
      (∀ r ∈ w.session, r.ID ≠ id) ∨
      ∃ r, w.session.find? (fun r => r.ID = id) = some r ∧ r.ExpiresAt ≠ 0 ∧
        r.ExpiresAt < (World.timeNow w).1) ∧
    (∀ r, w.session.find? (fun r => r.ID = id) = some r →
      r.ExpiresAt = 0 ∨ (World.timeNow w).1 ≤ r.ExpiresAt →
        (SessionRepositoryImpl.FindSessionByID id w).1 = .ok r) ∧
    (SessionRepositoryImpl.FindSessionByID id w).2.session = w.session := by
  have hr := FindSessionByID_reached id w hexec
  refine ⟨?_, ?_, ?_⟩
  · rw [hr]
    cases hf : List.find? (fun r => decide (r.ID = id)) w.session with
    | none =>
      simp only [true_iff]
      left
      intro r hm
      simpa using List.find?_eq_none.mp hf r hm
    | some r =>
      have hid : r.ID = id := by simpa using List.find?_some hf
      have hmem : r ∈ w.session := List.mem_of_find?_eq_some hf
      simp only
      constructor
      · intro h
        right
        refine ⟨r, rfl, ?_⟩
        by_contra hc
        rw [if_neg hc] at h
        cases h
      · rintro (h | ⟨r2, h2, h3⟩)
        · exact absurd hid (h r hmem)
        · cases h2
          rw [if_pos h3]
  · intro r hf hlive
    rw [hr, hf]
    simp only
    rw [if_neg]
    rintro ⟨h0, hlt⟩
    rcases hlive with h | h
    · exact h0 h
    · exact absurd hlt (not_lt.mpr h)
  · rcases hres : SessionRepositoryImpl.FindSessionByID id w with ⟨_ | session, w2⟩
    · unfold SessionRepositoryImpl.FindSessionByID SQLiteStorage.FindByID at hres
      have he := (World.exec_tables w).1
      rcases hx : World.exec w with ⟨_ | e, wx⟩
      · rw [hx] at hres he
        simp only at hres he
        cases hf : List.find? (fun r => decide (r.ID = id)) wx.session with
        | none =>
          simp only [hf] at hres
          split at hres <;>
            · simp only [Prod.mk.injEq] at hres
              rw [← hres.2, he]
        | some dest =>
          simp only [hf] at hres
          have ht := (World.timeNow_tables wx).1
          split at hres
          · simp at hres
          · split at hres
            · simp only [Prod.mk.injEq] at hres
              rw [← hres.2, ht, he]
            · simp at hres
      · rw [hx] at hexec
        simp at hexec
    · exact (FindSessionByID_ok id w w2 session hres).1

/-- C18 as amended, on the sample world: the sample session, which expires an hour after the
clock reading, is returned as it is stored. -/
theorem FindSessionByID_not_found_iff_witness :
    (SessionRepositoryImpl.FindSessionByID sampleSessionID sampleWorld).1 = .ok sampleSession ∧
    (SessionRepositoryImpl.FindSessionByID sampleSessionID sampleWorld).2.session =
      [sampleSession] :=
  have h := FindSessionByID_not_found_iff sampleSessionID sampleWorld rfl
  ⟨h.2.1 sampleSession rfl (Or.inr (by decide)), h.2.2⟩

/-- C18 as stated fails: the stored session expires exactly at the clock reading, so its
`ExpiresAt` is at or before now, and `FindSessionByID` returns it. -/
theorem FindSessionByID_returns_session_expiring_now :
    worldWithSessionExpiringNow.session =
      [{ sampleSession with ExpiresAt := sampleNow }] ∧
    (World.timeNow worldWithSessionExpiringNow).1 = sampleNow ∧
    (SessionRepositoryImpl.FindSessionByID sampleSessionID worldWithSessionExpiringNow).1 =
      .ok { sampleSession with ExpiresAt := sampleNow } ∧
    (SessionRepositoryImpl.FindSessionByID sampleSessionID worldWithSessionExpiringNow).1 ≠
      .error Error.ErrSessionNotFound := by
  refine ⟨rfl, rfl, rfl, ?_⟩
  intro h
  cases h

/-- C19: when its statement reaches the database, `DeleteExpiredSessions` removes exactly the
rows whose stored text is at or before the text of the local clock reading, leaves the other
rows as they were and in the same order, and returns the number of rows removed: 0 without
error when there is none. A row whose offset is the one of the reading is removed exactly when
its `ExpiresAt` is at or before the reading, so in a zone without changes the table left is the
one of the rows that expire after the reading. With unique ids, a later lookup of a removed
row's id, on the table the sweep left, reports `ErrSessionNotFound`. Across a change of
offset the texts do not compare as the instants: in Berlin at 02:30 before the clocks go back,
the sweep removes a session that expires 45 minutes later, at 02:15 after they went back,
while `FindSessionByID` at the same reading returns it. -/
theorem DeleteExpiredSessions_removes_expired (w : World)
    (hexec : (World.exec (World.timeNow w).2).1 = none) :
    (SessionRepositoryImpl.DeleteExpiredSessions w).2.session =
      w.session.filter (fun r =>
        ¬ TimeText.le (w.location.stored r.ExpiresAt)
          (w.location.text (World.timeNow w).1)) ∧
    (SessionRepositoryImpl.DeleteExpiredSessions w).1 =
      .ok ((w.session.filter (fun r =>
        TimeText.le (w.location.stored r.ExpiresAt)
          (w.location.text (World.timeNow w).1))).length : Int) ∧
    (w.session.length : Int) =
      ((SessionRepositoryImpl.DeleteExpiredSessions w).2.session.length : Int) +
        ((w.session.filter (fun r =>
          TimeText.le (w.location.stored r.ExpiresAt)
            (w.location.text (World.timeNow w).1))).length : Int) ∧
    (∀ r ∈ w.session, r.ExpiresAt ≠ 0 →
      w.location.offsetAt r.ExpiresAt = w.location.offsetAt (World.timeNow w).1 →
      (r ∈ (SessionRepositoryImpl.DeleteExpiredSessions w).2.session ↔
        (World.timeNow w).1 < r.ExpiresAt)) ∧
    (w.location.changes = [] → (∀ r ∈ w.session, r.ExpiresAt ≠ 0) →
      (SessionRepositoryImpl.DeleteExpiredSessions w).2.session =
        w.session.filter (fun r => decide ((World.timeNow w).1 < r.ExpiresAt)) ∧
      (SessionRepositoryImpl.DeleteExpiredSessions w).1 =
        .ok ((w.session.filter
          (fun r => decide (r.ExpiresAt ≤ (World.timeNow w).1))).length : Int)) ∧
    ((∀ r ∈ w.session, TimeText.le (w.location.stored r.ExpiresAt)
        (w.location.text (World.timeNow w).1) = false) →
      (SessionRepositoryImpl.DeleteExpiredSessions w).1 = .ok 0 ∧
      (SessionRepositoryImpl.DeleteExpiredSessions w).2.session = w.session) ∧
    ((w.session.map Session.ID).Nodup →
      ∀ r ∈ w.session, r ∉ (SessionRepositoryImpl.DeleteExpiredSessions w).2.session →
        ∀ later : World,
          later.session = (SessionRepositoryImpl.DeleteExpiredSessions w).2.session →
          (World.exec later).1 = none →
            (SessionRepositoryImpl.FindSessionByID r.ID later).1 =
              .error Error.ErrSessionNotFound) ∧
    (berlinSession.ExpiresAt = (World.timeNow berlinWorld).1 + 45 * Minute ∧
      (SessionRepositoryImpl.FindSessionByID berlinSession.ID berlinWorld).1 =
        .ok berlinSession ∧
      (SessionRepositoryImpl.DeleteExpiredSessions berlinWorld).1 = .ok 1 ∧
      (SessionRepositoryImpl.DeleteExpiredSessions berlinWorld).2.session = []) := by
  obtain ⟨hcount, hleft, -⟩ := DeleteExpiredSessions_ok w hexec
  have hmem : ∀ r, r ∈ (SessionRepositoryImpl.DeleteExpiredSessions w).2.session ↔
      r ∈ w.session ∧ TimeText.le (w.location.stored r.ExpiresAt)
        (w.location.text (World.timeNow w).1) = false := by
    intro r
    rw [hleft, List.mem_filter]
    simp
  have hsame : ∀ r : Session, r.ExpiresAt ≠ 0 →
      w.location.offsetAt r.ExpiresAt = w.location.offsetAt (World.timeNow w).1 →
      TimeText.le (w.location.stored r.ExpiresAt) (w.location.text (World.timeNow w).1) =
        decide (r.ExpiresAt ≤ (World.timeNow w).1) := by
    intro r h0 hoff
    unfold Location.stored
    rw [if_neg h0]
    exact TimeText.le_text_of_same_offset w.location _ _ hoff
  refine ⟨hleft, hcount, ?_, ?_, ?_, ?_, ?_, by decide, rfl, rfl, by decide⟩
  · rw [hleft]
    have hsplit := List.length_eq_length_filter_add (l := w.session)
      (fun r => TimeText.le (w.location.stored r.ExpiresAt)
        (w.location.text (World.timeNow w).1))
    have hneg : w.session.filter (fun r =>
        ¬ TimeText.le (w.location.stored r.ExpiresAt)
          (w.location.text (World.timeNow w).1)) =
        w.session.filter (fun r =>
          !TimeText.le (w.location.stored r.ExpiresAt)
            (w.location.text (World.timeNow w).1)) := by
      apply List.filter_congr
      intro r _
      cases TimeText.le (w.location.stored r.ExpiresAt)
        (w.location.text (World.timeNow w).1) <;> simp
    rw [hneg]
    omega
  · intro r hr h0 hoff
    rw [hmem r, hsame r h0 hoff]
    simp [hr]
  · intro hfixed hnonzero
    have hoff : ∀ t u : Time, w.location.offsetAt t = w.location.offsetAt u := by
      intro t u
      unfold Location.offsetAt
      rw [hfixed]
      rfl
    constructor
    · rw [hleft]
      apply List.filter_congr
      intro r hr
      rw [hsame r (hnonzero r hr) (hoff _ _)]
      simp
    · have hfilter : w.session.filter (fun r =>
          TimeText.le (w.location.stored r.ExpiresAt)
            (w.location.text (World.timeNow w).1)) =
          w.session.filter (fun r => decide (r.ExpiresAt ≤ (World.timeNow w).1)) := by
        apply List.filter_congr
        intro r hr
        rw [hsame r (hnonzero r hr) (hoff _ _)]
      rw [hcount, hfilter]
  · intro hall
    have hnone : w.session.filter (fun r =>
        TimeText.le (w.location.stored r.ExpiresAt)
          (w.location.text (World.timeNow w).1)) = [] := by
      rw [List.filter_eq_nil_iff]
      intro r hr
      simp [hall r hr]
    have hkeep : w.session.filter (fun r =>
        ¬ TimeText.le (w.location.stored r.ExpiresAt)
          (w.location.text (World.timeNow w).1)) = w.session := by
      rw [List.filter_eq_self]
      intro r hr
      simp [hall r hr]
    rw [hcount, hleft, hnone, hkeep]
    exact ⟨rfl, rfl⟩
  · intro hnodup r hr hgone later hlater hlook
    have habsent : ∀ r2 ∈ later.session, r2.ID ≠ r.ID := by
      intro r2 hr2 hid
      rw [hlater] at hr2
      have hr2mem := ((hmem r2).mp hr2).1
      have : r2 = r := List.inj_on_of_nodup_map hnodup hr2mem hr hid
      rw [this] at hr2
      exact hgone hr2
    rw [(FindSessionByID_absent r.ID later habsent).2 hlook]

/-- C19 on the sample world, in UTC, with an expired session next to the live one: the sweep
returns 1 and leaves the live session, and a lookup of the expired session then reports not
found. -/
theorem DeleteExpiredSessions_removes_expired_witness :
    (SessionRepositoryImpl.DeleteExpiredSessions worldWithExpiredSession).2.session =
      [sampleSession] ∧
    (SessionRepositoryImpl.DeleteExpiredSessions worldWithExpiredSession).1 = .ok 1 ∧
    (SessionRepositoryImpl.FindSessionByID expiredSession.ID
      (SessionRepositoryImpl.DeleteExpiredSessions worldWithExpiredSession).2).1 =
      .error Error.ErrSessionNotFound :=
  have h := DeleteExpiredSessions_removes_expired worldWithExpiredSession rfl
  ⟨h.1.trans (by decide), h.2.1.trans (by rfl),
   h.2.2.2.2.2.2.1 (by decide) expiredSession (by decide) (by decide) _ rfl rfl⟩

/-- C20: when `DeleteExpiredSessions` is called twice in a row, both statements reaching the
database, no session is newly past its expiry at the second clock reading, and the rows the
first call left are stored with the offset that the zone has at both readings, the second call
returns 0 and leaves the table as the first call left it. Across a change of offset it does
not: in Berlin, of two sweeps at 02:10 and 02:20 before the clocks go back, the first returns 0
and the second removes a session that expires at 02:15 after they went back, 55 minutes after
the second sweep. -/
theorem DeleteExpiredSessions_twice (w : World)
    (hfirst : (World.exec (World.timeNow w).2).1 = none)
    (hsecond : (World.exec
      (World.timeNow (SessionRepositoryImpl.DeleteExpiredSessions w).2).2).1 = none)
    (hnone : ∀ r ∈ w.session, (World.timeNow w).1 < r.ExpiresAt →
      (World.timeNow (SessionRepositoryImpl.DeleteExpiredSessions w).2).1 < r.ExpiresAt)
    (hzone : ∀ r ∈ (SessionRepositoryImpl.DeleteExpiredSessions w).2.session,
      r.ExpiresAt ≠ 0 ∧
      w.location.offsetAt r.ExpiresAt = w.location.offsetAt (World.timeNow w).1 ∧
      w.location.offsetAt r.ExpiresAt =
        w.location.offsetAt
          (World.timeNow (SessionRepositoryImpl.DeleteExpiredSessions w).2).1) :
    ((SessionRepositoryImpl.DeleteExpiredSessions
      (SessionRepositoryImpl.DeleteExpiredSessions w).2).1 = .ok 0 ∧
     (SessionRepositoryImpl.DeleteExpiredSessions
      (SessionRepositoryImpl.DeleteExpiredSessions w).2).2.session =
      (SessionRepositoryImpl.DeleteExpiredSessions w).2.session) ∧
    ((SessionRepositoryImpl.DeleteExpiredSessions berlinWorldTwice).1 = .ok 0 ∧
     (World.timeNow berlinWorldTwice).1 < berlinSession.ExpiresAt ∧
     berlinSession.ExpiresAt =
       (World.timeNow (SessionRepositoryImpl.DeleteExpiredSessions berlinWorldTwice).2).1 +
         55 * Minute ∧
     (SessionRepositoryImpl.DeleteExpiredSessions
       (SessionRepositoryImpl.DeleteExpiredSessions berlinWorldTwice).2).1 = .ok 1 ∧
     (SessionRepositoryImpl.DeleteExpiredSessions
       (SessionRepositoryImpl.DeleteExpiredSessions berlinWorldTwice).2).2.session = []) := by
  refine ⟨?_, rfl, by decide, by decide, rfl, by decide⟩
  obtain ⟨-, hleft, hloc⟩ := DeleteExpiredSessions_ok w hfirst
  obtain ⟨hcount2, hleft2, -⟩ :=
    DeleteExpiredSessions_ok (SessionRepositoryImpl.DeleteExpiredSessions w).2 hsecond
  rw [hloc] at hcount2 hleft2
  have hall : ∀ r ∈ (SessionRepositoryImpl.DeleteExpiredSessions w).2.session,
      TimeText.le (w.location.stored r.ExpiresAt)
        (w.location.text
          (World.timeNow (SessionRepositoryImpl.DeleteExpiredSessions w).2).1) = false := by
    intro r hr
    obtain ⟨h0, hoff1, hoff2⟩ := hzone r hr
    have hr2 := hr
    rw [hleft, List.mem_filter] at hr2
    obtain ⟨hrmem, hkept⟩ := hr2
    unfold Location.stored at hkept ⊢
    rw [if_neg h0] at hkept ⊢
    rw [TimeText.le_text_of_same_offset w.location _ _ hoff1] at hkept
    rw [TimeText.le_text_of_same_offset w.location _ _ hoff2]
    have hlive : (World.timeNow w).1 < r.ExpiresAt := by simpa using hkept
    simpa using hnone r hrmem hlive
  have hnone2 : (SessionRepositoryImpl.DeleteExpiredSessions w).2.session.filter (fun r =>
      TimeText.le (w.location.stored r.ExpiresAt)
        (w.location.text
          (World.timeNow (SessionRepositoryImpl.DeleteExpiredSessions w).2).1)) = [] := by
    rw [List.filter_eq_nil_iff]
    intro r hr
    simp [hall r hr]
  have hkeep : (SessionRepositoryImpl.DeleteExpiredSessions w).2.session.filter (fun r =>
      ¬ TimeText.le (w.location.stored r.ExpiresAt)
        (w.location.text
          (World.timeNow (SessionRepositoryImpl.DeleteExpiredSessions w).2).1)) =
      (SessionRepositoryImpl.DeleteExpiredSessions w).2.session := by
    rw [List.filter_eq_self]
    intro r hr
    simp [hall r hr]
  rw [hcount2, hleft2, hnone2, hkeep]
  exact ⟨rfl, rfl⟩

/-- C20 on the sample world, in UTC, with an expired session: the first sweep returns 1, the
second returns 0 and leaves the table with the live session. -/
theorem DeleteExpiredSessions_twice_witness :
    (SessionRepositoryImpl.DeleteExpiredSessions worldWithExpiredSession).1 = .ok 1 ∧
    (SessionRepositoryImpl.DeleteExpiredSessions
      (SessionRepositoryImpl.DeleteExpiredSessions worldWithExpiredSession).2).1 = .ok 0 ∧
    (SessionRepositoryImpl.DeleteExpiredSessions
      (SessionRepositoryImpl.DeleteExpiredSessions worldWithExpiredSession).2).2.session =
      (SessionRepositoryImpl.DeleteExpiredSessions worldWithExpiredSession).2.session :=
  have h := (DeleteExpiredSessions_twice worldWithExpiredSession rfl rfl
    (fun _ _ hlive => hlive) (by decide)).1
  ⟨rfl, h.1, h.2⟩

/-! ### Properties of the session repository: deletion and update -/

/-- C21: when its statements reach the database, `DeleteSession` returns the first record with
the id and leaves the table without any record of that id, the records of other ids and the
table `user` as they were. When no record has the id it leaves both tables as they were and
fails with gorm's `ErrRecordNotFound` as the storage returned it: the error is not
`ErrSessionNotFound`, which `FindSessionByID` reports on the same store. -/
theorem DeleteSession_contract (id : UUID) (w : World) (hexec : (World.exec w).1 = none) :
    (∀ r, w.session.find? (fun x => x.ID = id) = some r →
      (World.exec (World.exec w).2).1 = none →
        (SessionRepositoryImpl.DeleteSession id w).1 = .ok r ∧
        (∀ x ∈ (SessionRepositoryImpl.DeleteSession id w).2.session, x.ID ≠ id) ∧
        (SessionRepositoryImpl.DeleteSession id w).2.session =
          w.session.filter (fun x => x.ID ≠ id) ∧
        (SessionRepositoryImpl.DeleteSession id w).2.user = w.user) ∧
    ((∀ r ∈ w.session, r.ID ≠ id) →
      (SessionRepositoryImpl.DeleteSession id w).1 = .error Error.ErrRecordNotFound ∧
      errorsIs Error.ErrRecordNotFound Error.ErrSessionNotFound = false ∧
      (SessionRepositoryImpl.FindSessionByID id w).1 = .error Error.ErrSessionNotFound ∧
      (SessionRepositoryImpl.DeleteSession id w).2.session = w.session ∧
      (SessionRepositoryImpl.DeleteSession id w).2.user = w.user) := by
  have he := World.exec_tables w
  constructor
  · intro r hf hsecond
    have he2 := World.exec_tables (World.exec w).2
    unfold SessionRepositoryImpl.DeleteSession SQLiteStorage.FindOneAndDelete
    rcases hx : World.exec w with ⟨_ | e, wx⟩
    · rw [hx] at he he2 hsecond
      simp only at he he2 hsecond ⊢
      rw [he.1, hf]
      simp only
      rcases hy : World.exec wx with ⟨_ | e2, wy⟩
      · rw [hy] at he2
        simp only at he2 ⊢
        refine ⟨trivial, ?_, by rw [he2.1, he.1], by rw [he2.2, he.2]⟩
        intro x hm
        simpa using (List.mem_filter.mp hm).2
      · rw [hy] at hsecond
        simp at hsecond
    · rw [hx] at hexec
      simp at hexec
  · intro habsent
    have hnone : List.find? (fun r => decide (r.ID = id)) w.session = none := by
      rw [List.find?_eq_none]
      intro r hr
      simpa using habsent r hr
    refine ⟨?_, by decide, ?_, ?_, ?_⟩
    · unfold SessionRepositoryImpl.DeleteSession SQLiteStorage.FindOneAndDelete
      rcases hx : World.exec w with ⟨_ | e, wx⟩
      · rw [hx] at he
        simp only at he ⊢
        rw [he.1, hnone]
      · rw [hx] at hexec
        simp at hexec
    · rw [(FindSessionByID_absent id w habsent).2 hexec]
    · unfold SessionRepositoryImpl.DeleteSession SQLiteStorage.FindOneAndDelete
      rcases hx : World.exec w with ⟨_ | e, wx⟩
      · rw [hx] at he
        simp only at he ⊢
        rw [he.1, hnone]
        exact he.1
      · rw [hx] at hexec
        simp at hexec
    · unfold SessionRepositoryImpl.DeleteSession SQLiteStorage.FindOneAndDelete
      rcases hx : World.exec w with ⟨_ | e, wx⟩
      · rw [hx] at he
        simp only at he ⊢
        rw [he.1, hnone]
        exact he.2
      · rw [hx] at hexec
        simp at hexec

/-- C21 on the sample world: deleting the sample session returns it and empties the table;
deleting it from the world without it fails with `ErrRecordNotFound`, where the lookup reports
`ErrSessionNotFound`. -/
theorem DeleteSession_contract_witness :
    (SessionRepositoryImpl.DeleteSession sampleSessionID sampleWorld).1 = .ok sampleSession ∧
    (SessionRepositoryImpl.DeleteSession sampleSessionID sampleWorld).2.session = [] ∧
    (SessionRepositoryImpl.DeleteSession sampleSessionID worldWithoutSession).1 =
      .error Error.ErrRecordNotFound ∧
    (SessionRepositoryImpl.FindSessionByID sampleSessionID worldWithoutSession).1 =
      .error Error.ErrSessionNotFound :=
  have h := (DeleteSession_contract sampleSessionID sampleWorld rfl).1 sampleSession rfl rfl
  have h2 := (DeleteSession_contract sampleSessionID worldWithoutSession rfl).2
    (by decide)
  ⟨h.1, h.2.2.1.trans (by decide), h2.1, h2.2.2.1⟩

/-- C22, amended: when its statement reaches the database, `UpdateSessionExpiry` reports no
error and writes the given time into the `ExpiresAt` of every record with the id, whatever was
stored there, leaving the other fields of those records, the other records and the table `user`
as they were. When no record has the id it still reports no error, and the store is as it
was. -/
theorem UpdateSessionExpiry_result (id : UUID) (t : Time) (w : World)
    (hexec : (World.exec w).1 = none) :
    (SessionRepositoryImpl.UpdateSessionExpiry id t w).1 = none ∧
    (SessionRepositoryImpl.UpdateSessionExpiry id t w).2.session =
      w.session.map (fun r => if r.ID = id then { r with ExpiresAt := t } else r) ∧
    (∀ r ∈ w.session, r.ID = id →
      { ID := r.ID, UserID := r.UserID, CreatedAt := r.CreatedAt, UpdatedAt := r.UpdatedAt,
        ExpiresAt := t } ∈ (SessionRepositoryImpl.UpdateSessionExpiry id t w).2.session) ∧
    (∀ r ∈ (SessionRepositoryImpl.UpdateSessionExpiry id t w).2.session, r.ID = id →
      r.ExpiresAt = t) ∧
    (∀ r ∈ w.session, r.ID ≠ id →
      r ∈ (SessionRepositoryImpl.UpdateSessionExpiry id t w).2.session) ∧
    (SessionRepositoryImpl.UpdateSessionExpiry id t w).2.user = w.user ∧
    ((∀ r ∈ w.session, r.ID ≠ id) →
      (SessionRepositoryImpl.UpdateSessionExpiry id t w).2.session = w.session) := by
  have he := World.exec_tables w
  have hres : (SessionRepositoryImpl.UpdateSessionExpiry id t w).1 = none ∧
      (SessionRepositoryImpl.UpdateSessionExpiry id t w).2.session =
        w.session.map (fun r => if r.ID = id then { r with ExpiresAt := t } else r) ∧
      (SessionRepositoryImpl.UpdateSessionExpiry id t w).2.user = w.user := by
    unfold SessionRepositoryImpl.UpdateSessionExpiry
    rcases hx : World.exec w with ⟨_ | e, wx⟩
    · rw [hx] at he
      simp only at he ⊢
      exact ⟨trivial, by rw [he.1], he.2⟩
    · rw [hx] at hexec
      simp at hexec
  obtain ⟨h1, h2, h3⟩ := hres
  refine ⟨h1, h2, ?_, ?_, ?_, h3, ?_⟩
  · intro r hr hid
    rw [h2, List.mem_map]
    exact ⟨r, hr, by simp [hid]⟩
  · intro r hr hid
    rw [h2, List.mem_map] at hr
    obtain ⟨r0, -, hr0⟩ := hr
    by_cases h0 : r0.ID = id
    · rw [if_pos h0] at hr0
      rw [← hr0]
    · rw [if_neg h0] at hr0
      rw [hr0] at h0
      exact absurd hid h0
  · intro r hr hid
    rw [h2, List.mem_map]
    exact ⟨r, hr, by simp [hid]⟩
  · intro habsent
    rw [h2]
    conv_rhs => rw [← List.map_id w.session]
    apply List.map_congr_left
    intro r hr
    simp [habsent r hr]

/-- C22 as amended, on the sample world: the expiry of the sample session is overwritten, its
other fields kept; on the world without the session the call reports no error. -/
theorem UpdateSessionExpiry_result_witness :
    (SessionRepositoryImpl.UpdateSessionExpiry sampleSessionID 5 sampleWorld).2.session =
      [{ sampleSession with ExpiresAt := 5 }] ∧
    (SessionRepositoryImpl.UpdateSessionExpiry sampleSessionID 5 worldWithoutSession).1 = none :=
  ⟨(UpdateSessionExpiry_result sampleSessionID 5 sampleWorld rfl).2.1.trans (by decide),
   (UpdateSessionExpiry_result sampleSessionID 5 worldWithoutSession rfl).1⟩

/-- C22 as stated fails: no record of the world without the session has the id, the statement
reaches the database, and `UpdateSessionExpiry` returns no error and leaves the world as it
was. -/
theorem UpdateSessionExpiry_missing_row_no_error :
    (∀ r ∈ worldWithoutSession.session, r.ID ≠ sampleSessionID) ∧
    SessionRepositoryImpl.UpdateSessionExpiry sampleSessionID (sampleNow + 60 * Minute)
      worldWithoutSession = (none, worldWithoutSession) := by
  decide

/-! ### Properties of `SessionAuth`: the same token pair twice -/

/-- C23: on the SQLite store without database failures, with a token provider that has no
state of its own, a request that passes every stage is followed by a second request with the
same cookies, made on the world the first one left, no later than the expiry the first one
wrote and while both tokens still verify and new tokens can be generated. Both requests are
handed to `next`: the first rotation has left the session and its owner in place. The second
request reads the clock once, and afterwards the record of the session is still there with
`ExpiresAt` equal to that reading plus the refresh lifetime. -/
theorem SessionAuth_same_pair_twice (cfg : Config) (uuidParse : String → Except Error UUID)
    (uuidString : UUID → String)
    (ga : World → String → Except Error String)
    (gr : World → String → String → Except Error String)
    (pa : World → String → Except Error AccessTokenClaims)
    (pr : World → String → Except Error RefreshTokenClaims)
    (c : Context World) (p : Steps World) (w1 wl : World) (claims2 : RefreshTokenClaims)
    (access2 refresh2 : String)
    (hfaults : c.world.faults = [])
    (hfirst : TokensIssued (World.ambient cfg uuidParse uuidString)
      (TokenProvider.stateless ga gr pa pr) NewSessionRepository NewAuthRepository c p)
    (hw1 : (SessionAuth (World.ambient cfg uuidParse uuidString)
      (TokenProvider.stateless ga gr pa pr) NewSessionRepository NewAuthRepository
      c).2.world = w1)
    (hwl : (SessionRepositoryImpl.FindSessionByID p.sessionID w1).2 = wl)
    (hlive : ¬ p.newExpiry (World.ambient cfg uuidParse uuidString) < (World.timeNow w1).1)
    (hpa : pa w1 p.cookie.Value = .ok p.accessClaims)
    (hpr : pr wl p.refreshCookie.Value = .ok claims2)
    (hga : ga wl (uuidString p.session.ID) = .ok access2)
    (hgr : gr wl (uuidString p.user.ID) (uuidString p.session.ID) = .ok refresh2) :
    (SessionAuth (World.ambient cfg uuidParse uuidString)
      (TokenProvider.stateless ga gr pa pr) NewSessionRepository NewAuthRepository c).1 =
      Outcome.next ∧
    (SessionAuth (World.ambient cfg uuidParse uuidString)
      (TokenProvider.stateless ga gr pa pr) NewSessionRepository NewAuthRepository
      { request := c.request, world := w1 }).1 = Outcome.next ∧
    (SessionAuth (World.ambient cfg uuidParse uuidString)
      (TokenProvider.stateless ga gr pa pr) NewSessionRepository NewAuthRepository
      { request := c.request, world := w1 }).2.calls.filter
        (fun k => match k with
          | Call.timeNow _ => true
          | _ => false) = [Call.timeNow (World.timeNow wl).1] ∧
    (∃ r ∈ (SessionAuth (World.ambient cfg uuidParse uuidString)
      (TokenProvider.stateless ga gr pa pr) NewSessionRepository NewAuthRepository
      { request := c.request, world := w1 }).2.world.session, r.ID = p.sessionID) ∧
    (∀ r ∈ (SessionAuth (World.ambient cfg uuidParse uuidString)
      (TokenProvider.stateless ga gr pa pr) NewSessionRepository NewAuthRepository
      { request := c.request, world := w1 }).2.world.session, r.ID = p.sessionID →
        r.ExpiresAt =
          Time.Add (World.timeNow wl).1 (minutes cfg.Token.RefreshTokenExpiry)) := by
  have hrun1 := SessionAuth_of_tokensIssued _ _ _ _ c p hfirst
  obtain ⟨⟨⟨⟨⟨a1, a2, a3, a4⟩, a5⟩, a6, a7, a8⟩, a9⟩, a10, a11⟩ := hfirst
  simp only [TokenProvider.stateless, Prod.mk.injEq] at a3 a8 a10 a11
  have a5b : SessionRepositoryImpl.FindSessionByID p.sessionID c.world =
      (.ok p.session, p.w2) := by
    rw [a3.2]
    exact a5
  have hfound := FindSessionByID_ok p.sessionID c.world p.w2 p.session a5b
  have hworld2 := FindSessionByID_world p.sessionID c.world hfaults
  rw [a5b] at hworld2
  simp only at hworld2
  have a9b : AuthRepositoryImpl.FindUserByID p.session.UserID p.w2 = (.ok p.user, p.w4) := by
    rw [a8.2]
    exact a9
  rw [FindUserByID_no_faults _ _ hworld2.1] at a9b
  simp only [Prod.mk.injEq] at a9b
  obtain ⟨huser, hw4⟩ := a9b
  have hw6 : p.w6 = p.w2 := by rw [← a11.2, ← a10.2, ← hw4]
  -- the world the first request leaves
  have hupd := UpdateSessionExpiry_no_faults p.sessionID
    (p.newExpiry (World.ambient cfg uuidParse uuidString)) (World.timeNow p.w6).2
    ((World.timeNow_faults p.w6).trans (by rw [hw6]; exact hworld2.1))
  have hw1b : w1 = (SessionRepositoryImpl.UpdateSessionExpiry p.sessionID
      (p.newExpiry (World.ambient cfg uuidParse uuidString)) (World.timeNow p.w6).2).2 := by
    rw [← hw1, hrun1]
    rfl
  rw [← hw1b] at hupd
  obtain ⟨hs1, hu1, hf1, -⟩ := hupd
  rw [(World.timeNow_tables p.w6).1, hw6, hworld2.2.1] at hs1
  rw [(World.timeNow_tables p.w6).2, hw6, hworld2.2.2] at hu1
  -- the second lookup
  have hfind2 : w1.session.find? (fun r => r.ID = p.sessionID) =
      some { p.session with
        ExpiresAt := p.newExpiry (World.ambient cfg uuidParse uuidString) } := by
    rw [hs1, find?_map_expiry, hfound.2]
    rfl
  have hlook := FindSessionByID_no_faults p.sessionID w1 hf1
  rw [hfind2] at hlook
  simp only [if_neg hlive] at hlook
  have hlook2 : SessionRepositoryImpl.FindSessionByID p.sessionID w1 =
      (.ok { p.session with
        ExpiresAt := p.newExpiry (World.ambient cfg uuidParse uuidString) }, wl) := by
    rw [← hwl, hlook]
    split <;> rfl
  have hworldl := FindSessionByID_world p.sessionID w1 hf1
  rw [hwl] at hworldl
  obtain ⟨hfl, hsl, hul⟩ := hworldl
  have huser2 : AuthRepositoryImpl.FindUserByID p.session.UserID wl = (.ok p.user, wl) := by
    rw [FindUserByID_no_faults _ _ hfl, hul, hu1, ← hworld2.2.2]
    cases hq : List.find? (fun r => decide (r.ID = p.session.UserID ∧ r.DeletedAt = none))
        p.w2.user with
    | none => rw [hq] at huser; cases huser
    | some u =>
      rw [hq] at huser
      simp only [Except.ok.injEq] at huser
      rw [huser]
  have hsecond : TokensIssued (World.ambient cfg uuidParse uuidString)
      (TokenProvider.stateless ga gr pa pr) NewSessionRepository NewAuthRepository
      { request := c.request, world := w1 }
      { cookie := p.cookie, accessClaims := p.accessClaims, w1 := w1, sessionID := p.sessionID,
        session := { p.session with
          ExpiresAt := p.newExpiry (World.ambient cfg uuidParse uuidString) },
        w2 := wl, refreshCookie := p.refreshCookie, refreshClaims := claims2, w3 := wl,
        user := p.user, w4 := wl, newAccessToken := access2, w5 := wl,
        newRefreshToken := refresh2, w6 := wl } := by
    unfold TokensIssued OwnerFound RefreshVerified SessionFound AccessVerified
    simp only [TokenProvider.stateless, World.ambient]
    exact ⟨⟨⟨⟨⟨a1, a2, by rw [hpa], a4⟩, hlook2⟩, a6, a7, by rw [hpr]⟩, huser2⟩,
      by rw [hga], by rw [hgr]⟩
  have hrun2 := SessionAuth_of_tokensIssued _ _ _ _ _ _ hsecond
  have hupd2 := UpdateSessionExpiry_no_faults p.sessionID
    (Time.Add (World.timeNow wl).1 (minutes cfg.Token.RefreshTokenExpiry)) (World.timeNow wl).2
    ((World.timeNow_faults wl).trans hfl)
  have hfinal : (SessionAuth (World.ambient cfg uuidParse uuidString)
      (TokenProvider.stateless ga gr pa pr) NewSessionRepository NewAuthRepository
      { request := c.request, world := w1 }).2.world.session =
      w1.session.map (fun r => if r.ID = p.sessionID then
        { r with ExpiresAt :=
            Time.Add (World.timeNow wl).1 (minutes cfg.Token.RefreshTokenExpiry) }
        else r) := by
    rw [hrun2]
    have := hupd2.1
    rw [(World.timeNow_tables wl).1, hsl] at this
    exact this
  refine ⟨by rw [hrun1], by rw [hrun2], ?_, ?_, ?_⟩
  · rw [hrun2]
    simp [rotated, Steps.now, World.ambient]
  · rw [hfinal]
    have hmem := List.mem_of_find?_eq_some hfind2
    refine ⟨_, List.mem_map.mpr ⟨_, hmem, rfl⟩, ?_⟩
    have hid : p.session.ID = p.sessionID := by simpa using List.find?_some hfound.2
    simp [hid]
  · intro r hr hid
    rw [hfinal, List.mem_map] at hr
    obtain ⟨r0, -, hr0⟩ := hr
    by_cases h0 : r0.ID = p.sessionID
    · rw [if_pos h0] at hr0
      rw [← hr0]
    · rw [if_neg h0] at hr0
      rw [hr0] at h0
      exact absurd hid h0

/-- C23 on the sample world with a clock advancing by a minute at each reading: the request
with both valid tokens is handed to `next`, and so is the same request made again on the world
the first one left; the session then expires 10080 minutes after the fourth reading, the one
the second request took for its rotation. -/
theorem SessionAuth_same_pair_twice_witness :
    (sampleRun (some "valid-token") (some "valid-refresh") tickingWorld).1 = Outcome.next ∧
    (sampleRun (some "valid-token") (some "valid-refresh")
      (sampleRun (some "valid-token") (some "valid-refresh") tickingWorld).2.world).1 =
      Outcome.next ∧
    (sampleRun (some "valid-token") (some "valid-refresh")
      (sampleRun (some "valid-token") (some "valid-refresh")
        tickingWorld).2.world).2.world.session =
      [{ sampleSession with ExpiresAt := sampleNow + 4 * Minute + 10080 * Minute }] :=
  have h := SessionAuth_same_pair_twice {} sampleUUIDParse sampleUUIDString
    (fun _ _ => .ok "new-access") (fun _ _ _ => .ok "new-refresh")
    (fun _ tokenString =>
      if tokenString = "valid-token" then
        .ok { SessionID := "00000000-0000-0000-0000-000000000001" }
      else .error (.other "invalid"))
    (fun _ tokenString =>
      if tokenString = "valid-refresh" then
        .ok { UserID := "00000000-0000-0000-0000-000000000002",
              SessionID := "00000000-0000-0000-0000-000000000001" }
      else .error (.other "expired"))
    (sampleContext (some "valid-token") (some "valid-refresh") tickingWorld) tickingSteps
    (sampleRun (some "valid-token") (some "valid-refresh") tickingWorld).2.world
    (SessionRepositoryImpl.FindSessionByID sampleSessionID
      (sampleRun (some "valid-token") (some "valid-refresh") tickingWorld).2.world).2
    { UserID := "00000000-0000-0000-0000-000000000002",
      SessionID := "00000000-0000-0000-0000-000000000001" }
    "new-access" "new-refresh" rfl
    (by
      unfold TokensIssued OwnerFound RefreshVerified SessionFound AccessVerified
      exact ⟨⟨⟨⟨⟨rfl, by decide, rfl, rfl⟩, rfl⟩, rfl, by decide, rfl⟩, rfl⟩, rfl, rfl⟩)
    rfl rfl (by decide) rfl rfl rfl rfl
  ⟨h.1, h.2.1, by decide⟩

/-! ### Properties of the account service -/

/-- C24, amended: a successful `CreateAccount`, `Login` or `ReactivateAccount` makes the calls
of `sessionCalls` after the calls that establish the user, and no other `CreateSession`: one
session is created, with the id of that user as `UserID` and with `ExpiresAt` equal to the
clock reading plus `time.Duration(RefreshTokenExpiry) * time.Minute`, and the tokens returned
are the ones generated for the id of that session and the id of that user. The duration is
`RefreshTokenExpiry` minutes whenever that many nanoseconds fit 64 bits. When one of the three
returns one of the sentinel errors of `domain`, it has made no `CreateSession` call. -/
theorem service_creates_one_session {σ : Type} (amb : Ambient σ) (uuidNew : σ → UUID × σ)
    (s : AuthServiceImpl σ) (t t2 : Run σ) :
    (∀ req response,
      AuthServiceImpl.CreateAccount amb uuidNew s req t = (.ok response, t2) →
      ∃ user w sid now, user.Email = req.Email ∧ user.Name = req.Name ∧
        t2.calls = t.calls ++
          [Call.FindUserByEmail req.Email, Call.Hash req.Password, Call.uuidNew user.ID,
           Call.CreateUser user] ++ sessionCalls amb user.ID sid now ∧
        SessionStarted amb uuidNew s user.ID w sid now response t2.world) ∧
    (∀ req response, AuthServiceImpl.Login amb uuidNew s req t = (.ok response, t2) →
      ∃ user w1 w sid now,
        s.authRepository.FindUserByEmail req.Email t.world = (.ok user, w1) ∧
        t2.calls = t.calls ++
          [Call.FindUserByEmail req.Email, Call.Check req.Password user.Password] ++
          sessionCalls amb user.ID sid now ∧
        SessionStarted amb uuidNew s user.ID w sid now response t2.world) ∧
    (∀ req response,
      AuthServiceImpl.ReactivateAccount amb uuidNew s req t = (.ok response, t2) →
      ∃ user w1 w sid now,
        s.authRepository.FindUserByEmail req.Email t.world = (.ok user, w1) ∧
        t2.calls = t.calls ++
          [Call.FindUserByEmail req.Email, Call.Check req.Password user.Password,
           Call.UpdateUser { user with DeletedAt := none }] ++
          sessionCalls amb user.ID sid now ∧
        SessionStarted amb uuidNew s user.ID w sid now response t2.world) ∧
    (∀ req e, AuthServiceImpl.CreateAccount amb uuidNew s req t = (.error e, t2) →
      e ∈ domainErrors →
      ∃ made, t2.calls = t.calls ++ made ∧ ∀ x, Call.CreateSession x ∉ made) ∧
    (∀ req e, AuthServiceImpl.Login amb uuidNew s req t = (.error e, t2) →
      e ∈ domainErrors →
      ∃ made, t2.calls = t.calls ++ made ∧ ∀ x, Call.CreateSession x ∉ made) ∧
    (∀ req e, AuthServiceImpl.ReactivateAccount amb uuidNew s req t = (.error e, t2) →
      e ∈ domainErrors →
      ∃ made, t2.calls = t.calls ++ made ∧ ∀ x, Call.CreateSession x ∉ made) ∧
    (∀ now : Time, -(2 ^ 63) ≤ amb.Env.Token.RefreshTokenExpiry * Minute →
      amb.Env.Token.RefreshTokenExpiry * Minute < 2 ^ 63 →
      Time.Add now (minutes amb.Env.Token.RefreshTokenExpiry) =
        now + amb.Env.Token.RefreshTokenExpiry * Minute) := by
  refine ⟨?_, ?_, ?_, ?_, ?_, ?_, ?_⟩
  · intro req response h
    rcases CreateAccount_cases amb uuidNew s req t with
      ⟨made, msg, inner, w, hc, -, -⟩ | ⟨user, w1, -, hc⟩ |
      ⟨err, w1, hashed, w2, w3, -, -, -, -, hc⟩
    · rw [hc] at h
      simp at h
    · rw [hc] at h
      simp at h
    · rw [hc] at h
      obtain ⟨sid, now, hcalls, hs⟩ := startSession_ok amb uuidNew s _ _ _ _ h
      exact ⟨{ ID := (uuidNew w2).1, Name := req.Name, Email := req.Email, Password := hashed,
               Avatar := req.Avatar }, w3, sid, now, rfl, rfl, hcalls, hs⟩
  · intro req response h
    rcases Login_cases amb uuidNew s req t with
      ⟨made, e, w, hc, -⟩ | ⟨user, w1, w2, h1, -, -, hc⟩
    · rw [hc] at h
      simp at h
    · rw [hc] at h
      obtain ⟨sid, now, hcalls, hs⟩ := startSession_ok amb uuidNew s _ _ _ _ h
      exact ⟨user, w1, w2, sid, now, h1, hcalls, hs⟩
  · intro req response h
    rcases ReactivateAccount_cases amb uuidNew s req t with
      ⟨made, e, w, hc, -⟩ | ⟨user, w1, w2, w3, h1, -, -, -, hc⟩
    · rw [hc] at h
      simp at h
    · rw [hc] at h
      obtain ⟨sid, now, hcalls, hs⟩ := startSession_ok amb uuidNew s _ _ _ _ h
      exact ⟨user, w1, w3, sid, now, h1, hcalls, hs⟩
  · intro req e h he
    rcases CreateAccount_cases amb uuidNew s req t with
      ⟨made, msg, inner, w, hc, -, hno⟩ | ⟨user, w1, -, hc⟩ |
      ⟨err, w1, hashed, w2, w3, -, -, -, -, hc⟩
    · rw [hc] at h
      simp only [Prod.mk.injEq] at h
      rw [← h.2]
      exact ⟨made, rfl, hno⟩
    · rw [hc] at h
      simp only [Prod.mk.injEq] at h
      rw [← h.2]
      exact ⟨_, rfl, by simp⟩
    · rw [hc] at h
      exact absurd he (startSession_error amb uuidNew s _ _ _ _ h)
  · intro req e h he
    rcases Login_cases amb uuidNew s req t with
      ⟨made, e2, w, hc, hno⟩ | ⟨user, w1, w2, -, -, -, hc⟩
    · rw [hc] at h
      simp only [Prod.mk.injEq] at h
      rw [← h.2]
      exact ⟨made, rfl, hno⟩
    · rw [hc] at h
      exact absurd he (startSession_error amb uuidNew s _ _ _ _ h)
  · intro req e h he
    rcases ReactivateAccount_cases amb uuidNew s req t with
      ⟨made, e2, w, hc, hno⟩ | ⟨user, w1, w2, w3, -, -, -, -, hc⟩
    · rw [hc] at h
      simp only [Prod.mk.injEq] at h
      rw [← h.2]
      exact ⟨made, rfl, hno⟩
    · rw [hc] at h
      exact absurd he (startSession_error amb uuidNew s _ _ _ _ h)
  · intro now hlo hhi
    unfold Time.Add minutes
    rw [wrapInt64_of_fits _ hlo hhi]

/-- C24 as amended, over the SQLite repositories with the default lifetime of 10080 minutes:
the login of the registered user returns the two tokens and leaves one session, of that user,
expiring 10080 minutes after the clock reading; the calls are the ones the theorem gives. -/
theorem service_creates_one_session_witness :
    (AuthServiceImpl.Login sampleAmbient sampleUUIDNew sampleService
      { Email := "user@test.com", Password := "secret" }
      { world := worldWithRegisteredUser }).1 =
      .ok { AccessToken := "new-access", RefreshToken := "new-refresh" } ∧
    (AuthServiceImpl.Login sampleAmbient sampleUUIDNew sampleService
      { Email := "user@test.com", Password := "secret" }
      { world := worldWithRegisteredUser }).2.world.session =
      [{ ID := ⟨11⟩, UserID := sampleUserID, CreatedAt := sampleNow, UpdatedAt := sampleNow,
         ExpiresAt := sampleNow + 10080 * Minute }] ∧
    ∃ user w1 w sid now,
      sampleService.authRepository.FindUserByEmail "user@test.com" worldWithRegisteredUser =
        (.ok user, w1) ∧
      (AuthServiceImpl.Login sampleAmbient sampleUUIDNew sampleService
        { Email := "user@test.com", Password := "secret" }
        { world := worldWithRegisteredUser }).2.calls =
        [] ++ [Call.FindUserByEmail "user@test.com", Call.Check "secret" user.Password] ++
          sessionCalls sampleAmbient user.ID sid now ∧
      SessionStarted sampleAmbient sampleUUIDNew sampleService user.ID w sid now
        { AccessToken := "new-access", RefreshToken := "new-refresh" }
        (AuthServiceImpl.Login sampleAmbient sampleUUIDNew sampleService
          { Email := "user@test.com", Password := "secret" }
          { world := worldWithRegisteredUser }).2.world :=
  ⟨rfl, by decide,
   (service_creates_one_session sampleAmbient sampleUUIDNew sampleService
      { world := worldWithRegisteredUser }
      (AuthServiceImpl.Login sampleAmbient sampleUUIDNew sampleService
        { Email := "user@test.com", Password := "secret" }
        { world := worldWithRegisteredUser }).2).2.1
      { Email := "user@test.com", Password := "secret" }
      { AccessToken := "new-access", RefreshToken := "new-refresh" } rfl⟩

/-- C24 as stated fails: with `REFRESH_TOKEN_EXPIRY` set to 200000000 minutes the product with
`time.Minute` wraps around, and the session that a successful login creates at the clock
reading `sampleNow` expires before that reading, not 200000000 minutes after it. -/
theorem Login_long_lifetime_session_expired :
    (AuthServiceImpl.Login longRefreshAmbient sampleUUIDNew sampleService
      { Email := "user@test.com", Password := "secret" }
      { world := worldWithRegisteredUser }).1 =
      .ok { AccessToken := "new-access", RefreshToken := "new-refresh" } ∧
    (AuthServiceImpl.Login longRefreshAmbient sampleUUIDNew sampleService
      { Email := "user@test.com", Password := "secret" }
      { world := worldWithRegisteredUser }).2.calls.filter
        (fun k => match k with
          | Call.timeNow _ => true
          | _ => false) = [Call.timeNow sampleNow] ∧
    (AuthServiceImpl.Login longRefreshAmbient sampleUUIDNew sampleService
      { Email := "user@test.com", Password := "secret" }
      { world := worldWithRegisteredUser }).2.world.session =
      [{ ID := ⟨11⟩, UserID := sampleUserID, CreatedAt := sampleNow, UpdatedAt := sampleNow,
         ExpiresAt := sampleNow - 6446744073709551616 }] ∧
    (sampleNow - 6446744073709551616 : Int) ≠
      sampleNow + longRefreshAmbient.Env.Token.RefreshTokenExpiry * Minute :=
  ⟨rfl, by decide, by decide, by decide⟩

/-- C25: for a user id that parses, `DeleteUser` first calls `DeleteSessionsByUserID`; when that
fails it returns the error wrapped behind `failed to delete user sessions` and has made no
other call, so `AuthRepository.DeleteUser` is not called. When `DeleteUser` returns no error it
has called `DeleteSessionsByUserID` and then `AuthRepository.DeleteUser`, both without error;
over the SQLite repositories the table `session` is then the old one without the sessions of
that user, the sessions of other users being as they were. -/
theorem DeleteUser_sessions_first {σ : Type} (amb : Ambient σ) (s : AuthServiceImpl σ)
    (userID : String) (id : UUID) (t : Run σ) (hid : amb.uuidParse userID = .ok id) :
    (∀ err w1, s.sessionRepository.DeleteSessionsByUserID id t.world = (some err, w1) →
      AuthServiceImpl.DeleteUser amb s userID t =
        (some (.wrapped "failed to delete user sessions" err),
          { calls := t.calls ++ [Call.DeleteSessionsByUserID id], world := w1 }) ∧
      (Error.wrapped "failed to delete user sessions" err).Error =
        "failed to delete user sessions: " ++ err.Error ∧
      Call.DeleteUser id ∉ [Call.DeleteSessionsByUserID id]) ∧
    (∀ t2, AuthServiceImpl.DeleteUser amb s userID t = (none, t2) →
      t2.calls = t.calls ++ [Call.DeleteSessionsByUserID id, Call.DeleteUser id] ∧
      ∃ w1, s.sessionRepository.DeleteSessionsByUserID id t.world = (none, w1) ∧
        s.authRepository.DeleteUser id w1 = (none, t2.world)) ∧
    (∀ (amb2 : Ambient World) (tp : TokenProvider World) (hasher : PasswordHasher World)
      (r r2 : Run World), amb2.uuidParse userID = .ok id →
      AuthServiceImpl.DeleteUser amb2
        { authRepository := NewAuthRepository, sessionRepository := NewSessionRepository,
          tokenProvider := tp, passwordHasher := hasher } userID r = (none, r2) →
      (∀ x ∈ r2.world.session, x.UserID ≠ id) ∧
      r2.world.session = r.world.session.filter (fun x => x.UserID ≠ id) ∧
      (∀ x ∈ r.world.session, x.UserID ≠ id → x ∈ r2.world.session)) := by
  have hinv : ∀ {τ : Type} (a : Ambient τ) (sv : AuthServiceImpl τ) (r r2 : Run τ),
      a.uuidParse userID = .ok id →
      AuthServiceImpl.DeleteUser a sv userID r = (none, r2) →
      r2.calls = r.calls ++ [Call.DeleteSessionsByUserID id, Call.DeleteUser id] ∧
      ∃ w1, sv.sessionRepository.DeleteSessionsByUserID id r.world = (none, w1) ∧
        sv.authRepository.DeleteUser id w1 = (none, r2.world) := by
    intro τ a sv r r2 ha h
    unfold AuthServiceImpl.DeleteUser at h
    rw [ha] at h
    simp only [Run.invoke] at h
    rcases h1 : sv.sessionRepository.DeleteSessionsByUserID id r.world with ⟨_ | e1, w1⟩
    · rw [h1] at h
      simp only at h
      rcases h2 : sv.authRepository.DeleteUser id w1 with ⟨_ | e2, w2⟩
      · rw [h2] at h
        simp only [Prod.mk.injEq, true_and] at h
        rw [← h]
        exact ⟨by simp, w1, rfl, h2⟩
      · rw [h2] at h
        simp at h
    · rw [h1] at h
      simp at h
  refine ⟨?_, fun t2 h => hinv amb s t t2 hid h, ?_⟩
  · intro err w1 h1
    refine ⟨?_, rfl, by simp⟩
    unfold AuthServiceImpl.DeleteUser
    rw [hid]
    simp only [Run.invoke, h1]
  · intro amb2 tp hasher r r2 ha h
    obtain ⟨-, w1, h1, h2⟩ := hinv amb2 _ r r2 ha h
    have hs1 := DeleteSessionsByUserID_ok id r.world w1 h1
    have hs2 := AuthRepositoryImpl.DeleteUser_session id w1
    have h2b : AuthRepositoryImpl.DeleteUser id w1 = (none, r2.world) := h2
    rw [h2b] at hs2
    simp only at hs2
    have hfinal : r2.world.session = r.world.session.filter (fun x => x.UserID ≠ id) := by
      rw [hs2, hs1]
    refine ⟨?_, hfinal, ?_⟩
    · intro x hx
      rw [hfinal] at hx
      simpa using (List.mem_filter.mp hx).2
    · intro x hx hne
      rw [hfinal]
      exact List.mem_filter.mpr ⟨hx, by simpa using hne⟩

/-- C25 on the sample world with a session of another user: when the statement of
`DeleteSessionsByUserID` fails, `DeleteUser` reports it and the user is not deactivated; when
nothing fails, the session of the sample user is gone and the other session is left. -/
theorem DeleteUser_sessions_first_witness :
    (AuthServiceImpl.DeleteUser sampleAmbient sampleService
      "00000000-0000-0000-0000-000000000002"
      { world := { worldWithOtherSession with faults := [some (.other "db error")] } }).1 =
      some (.wrapped "failed to delete user sessions" (.other "db error")) ∧
    (AuthServiceImpl.DeleteUser sampleAmbient sampleService
      "00000000-0000-0000-0000-000000000002"
      { world := { worldWithOtherSession with
          faults := [some (.other "db error")] } }).2.world.user = [sampleUser] ∧
    (AuthServiceImpl.DeleteUser sampleAmbient sampleService
      "00000000-0000-0000-0000-000000000002"
      { world := worldWithOtherSession }).2.world.session = [otherSession] :=
  have h := DeleteUser_sessions_first sampleAmbient sampleService
    "00000000-0000-0000-0000-000000000002" sampleUserID
    { world := { worldWithOtherSession with faults := [some (.other "db error")] } } rfl
  have h2 := DeleteUser_sessions_first sampleAmbient sampleService
    "00000000-0000-0000-0000-000000000002" sampleUserID { world := worldWithOtherSession } rfl
  ⟨congrArg Prod.fst (h.1 _ _ rfl).1, by decide,
   (h2.2.2 sampleAmbient sampleTokenProvider sampleHasher { world := worldWithOtherSession } _
      rfl rfl).2.1.trans (by decide)⟩

/-- C26: when `FindUserByEmail` returns a user whose `DeletedAt` is set, `Login` returns
`ErrUserDeactivated` and no tokens, whatever the password of the request, having made no other
call: the hasher is not consulted and no session is created. When `FindUserByEmail` fails with
`ErrUserNotFound`, and when it returns an active user and `Check` rejects the password, `Login`
returns `ErrInvalidCredentials`, the same error in both cases. -/
theorem Login_rejections {σ : Type} (amb : Ambient σ) (uuidNew : σ → UUID × σ)
    (s : AuthServiceImpl σ) (req : LoginRequest) (t : Run σ) :
    (∀ user w1, s.authRepository.FindUserByEmail req.Email t.world = (.ok user, w1) →
      user.DeletedAt ≠ none →
      AuthServiceImpl.Login amb uuidNew s req t =
        (.error Error.ErrUserDeactivated,
          { calls := t.calls ++ [Call.FindUserByEmail req.Email], world := w1 })) ∧
    (∀ err w1, s.authRepository.FindUserByEmail req.Email t.world = (.error err, w1) →
      errorsIs err Error.ErrUserNotFound = true →
      AuthServiceImpl.Login amb uuidNew s req t =
        (.error Error.ErrInvalidCredentials,
          { calls := t.calls ++ [Call.FindUserByEmail req.Email], world := w1 })) ∧
    (∀ user w1 err w2, s.authRepository.FindUserByEmail req.Email t.world = (.ok user, w1) →
      user.DeletedAt = none →
      s.passwordHasher.Check req.Password user.Password w1 = (some err, w2) →
      AuthServiceImpl.Login amb uuidNew s req t =
        (.error Error.ErrInvalidCredentials,
          { calls := t.calls ++
              [Call.FindUserByEmail req.Email, Call.Check req.Password user.Password],
            world := w2 })) := by
  refine ⟨?_, ?_, ?_⟩
  · intro user w1 h1 hd
    unfold AuthServiceImpl.Login
    simp only [Run.invoke, h1]
    rw [if_pos hd]
  · intro err w1 h1 he
    unfold AuthServiceImpl.Login
    simp only [Run.invoke, h1]
    rw [if_pos he]
  · intro user w1 err w2 h1 hd h2
    unfold AuthServiceImpl.Login
    simp only [Run.invoke, h1]
    rw [if_neg (not_not.mpr hd)]
    simp [h2]

/-- C26 over the SQLite repositories: the deactivated user is refused with
`ErrUserDeactivated` even when the password is right, after the one call `FindUserByEmail`; an
unknown email and a wrong password of the registered user are both refused with
`ErrInvalidCredentials`. -/
theorem Login_rejections_witness :
    AuthServiceImpl.Login sampleAmbient sampleUUIDNew sampleService
      { Email := "user@test.com", Password := "secret" } { world := worldWithDeactivatedUser } =
      (.error Error.ErrUserDeactivated,
        { calls := [Call.FindUserByEmail "user@test.com"], world := worldWithDeactivatedUser }) ∧
    (AuthServiceImpl.Login sampleAmbient sampleUUIDNew sampleService
      { Email := "nobody@test.com", Password := "secret" }
      { world := worldWithRegisteredUser }).1 = .error Error.ErrInvalidCredentials ∧
    (AuthServiceImpl.Login sampleAmbient sampleUUIDNew sampleService
      { Email := "user@test.com", Password := "wrong" }
      { world := worldWithRegisteredUser }).1 = .error Error.ErrInvalidCredentials :=
  have h := Login_rejections sampleAmbient sampleUUIDNew sampleService
    { Email := "user@test.com", Password := "secret" } { world := worldWithDeactivatedUser }
  have h2 := Login_rejections sampleAmbient sampleUUIDNew sampleService
    { Email := "nobody@test.com", Password := "secret" } { world := worldWithRegisteredUser }
  have h3 := Login_rejections sampleAmbient sampleUUIDNew sampleService
    { Email := "user@test.com", Password := "wrong" } { world := worldWithRegisteredUser }
  ⟨h.1 deactivatedUser worldWithDeactivatedUser rfl (by decide),
   congrArg Prod.fst (h2.2.1 Error.ErrUserNotFound worldWithRegisteredUser rfl (by decide)),
   congrArg Prod.fst (h3.2.2 registeredUser worldWithRegisteredUser _ worldWithRegisteredUser
     rfl rfl rfl)⟩

/-! ### Properties of the cookies -/

/-- C27, amended: for every configuration, `setAuthCookies` of the middleware and of the
handler write the same two cookies, `access_token` and `refresh_token`, both HTTP-only and
`SameSite=Strict`; each is `Secure` exactly when `Env` is the string `production`; and the
`Max-Age` of each is its configured minutes times 60 as a Go `int`, which is that product
whenever it fits 64 bits. -/
theorem setAuthCookies_flags {σ : Type} (amb : Ambient σ) (c : Context σ)
    (response : AuthResponse) :
    handler.setAuthCookies amb c response = setAuthCookies amb c response ∧
    ∃ a r, (setAuthCookies amb c response).cookies = c.cookies ++ [a, r] ∧
      a.Name = "access_token" ∧ r.Name = "refresh_token" ∧
      a.Value = response.AccessToken ∧ r.Value = response.RefreshToken ∧
      a.HttpOnly = true ∧ r.HttpOnly = true ∧
      a.SameSite = SameSiteStrictMode ∧ r.SameSite = SameSiteStrictMode ∧
      (a.Secure = true ↔ amb.Env.Env = "production") ∧
      (r.Secure = true ↔ amb.Env.Env = "production") ∧
      a.MaxAge = wrapInt64 (amb.Env.Token.AccessTokenExpiry * 60) ∧
      r.MaxAge = wrapInt64 (amb.Env.Token.RefreshTokenExpiry * 60) ∧
      (-(2 ^ 63) ≤ amb.Env.Token.AccessTokenExpiry * 60 →
        amb.Env.Token.AccessTokenExpiry * 60 < 2 ^ 63 →
          a.MaxAge = amb.Env.Token.AccessTokenExpiry * 60) ∧
      (-(2 ^ 63) ≤ amb.Env.Token.RefreshTokenExpiry * 60 →
        amb.Env.Token.RefreshTokenExpiry * 60 < 2 ^ 63 →
          r.MaxAge = amb.Env.Token.RefreshTokenExpiry * 60) := by
  refine ⟨rfl,
    { Name := "access_token", Value := response.AccessToken, Path := "/",
      MaxAge := wrapInt64 (amb.Env.Token.AccessTokenExpiry * 60), HttpOnly := true,
      Secure := decide (amb.Env.Env = "production"), SameSite := SameSiteStrictMode },
    { Name := "refresh_token", Value := response.RefreshToken, Path := "/",
      MaxAge := wrapInt64 (amb.Env.Token.RefreshTokenExpiry * 60), HttpOnly := true,
      Secure := decide (amb.Env.Env = "production"), SameSite := SameSiteStrictMode },
    ?_, rfl, rfl, rfl, rfl, rfl, rfl, rfl, rfl, ?_, ?_, rfl, rfl, ?_, ?_⟩
  · simp [setAuthCookies, Context.SetCookie]
  · simp
  · simp
  · intro hlo hhi
    exact wrapInt64_of_fits _ hlo hhi
  · intro hlo hhi
    exact wrapInt64_of_fits _ hlo hhi

/-- C27 as amended, in production with the default lifetimes: both cookies are HTTP-only,
`Secure` and `SameSite=Strict`, with a `Max-Age` of 3600 and of 604800 seconds. -/
theorem setAuthCookies_flags_witness :
    (setAuthCookies productionAmbient (sampleContext none none sampleWorld)
      { AccessToken := "a", RefreshToken := "r" }).cookies =
      [{ Name := "access_token", Value := "a", Path := "/", MaxAge := 3600, HttpOnly := true,
         Secure := true, SameSite := SameSiteStrictMode },
       { Name := "refresh_token", Value := "r", Path := "/", MaxAge := 604800, HttpOnly := true,
         Secure := true, SameSite := SameSiteStrictMode }] ∧
    handler.setAuthCookies productionAmbient (sampleContext none none sampleWorld)
      { AccessToken := "a", RefreshToken := "r" } =
    setAuthCookies productionAmbient (sampleContext none none sampleWorld)
      { AccessToken := "a", RefreshToken := "r" } :=
  ⟨by decide,
   (setAuthCookies_flags productionAmbient (sampleContext none none sampleWorld)
      { AccessToken := "a", RefreshToken := "r" }).1⟩

/-- C27 as stated fails: the environment `staging` is not local development, and neither
cookie written by the middleware or by the handler is flagged `Secure`. -/
theorem setAuthCookies_staging_not_secure :
    stagingAmbient.Env.Env ≠ "development" ∧
    (∀ k ∈ (setAuthCookies stagingAmbient (sampleContext none none sampleWorld)
      { AccessToken := "a", RefreshToken := "r" }).cookies, k.Secure = false) ∧
    (∀ k ∈ (handler.setAuthCookies stagingAmbient (sampleContext none none sampleWorld)
      { AccessToken := "a", RefreshToken := "r" }).cookies, k.Secure = false) := by
  decide

/-! ### Properties of `SessionAuth`: the refresh token -/

/-- C28: two requests that differ only in the refresh token they present, each token verified
whenever the handler comes to parse it, get the same outcome, cookies (hence the same issued
tokens), identity values and final world, and the same calls but for the token passed to
`ParseRefreshToken`: the claims of the refresh token are not looked at. So on the sample world
a refresh token issued for another user and another session than the access token names is
accepted, and the session named by the access token is rotated. -/
theorem SessionAuth_discards_refresh_claims {σ : Type} (amb : Ambient σ)
    (tp : TokenProvider σ) (sr : SessionRepository σ) (ar : AuthRepository σ)
    (req1 req2 : Request) (cookies : List Cookie) (store : List (String × String))
    (calls : List Call) (w : σ) (k1 k2 : Cookie)
    (hacc : req2.Cookie "access_token" = req1.Cookie "access_token")
    (hpath : req2.path = req1.path)
    (hk1 : req1.Cookie "refresh_token" = some k1) (hk2 : req2.Cookie "refresh_token" = some k2)
    (hv1 : k1.Value ≠ "") (hv2 : k2.Value ≠ "")
    (hverify : ∀ p : Steps σ,
      SessionFound amb tp sr
        { request := req1, cookies := cookies, store := store, calls := calls, world := w } p →
      ∃ claims1 claims2 w3,
        tp.ParseRefreshToken k1.Value p.w2 = (.ok claims1, w3) ∧
        tp.ParseRefreshToken k2.Value p.w2 = (.ok claims2, w3)) :
    ((SessionAuth amb tp sr ar
        { request := req1, cookies := cookies, store := store, calls := calls, world := w }).1 =
      (SessionAuth amb tp sr ar
        { request := req2, cookies := cookies, store := store, calls := calls, world := w }).1 ∧
     (SessionAuth amb tp sr ar
        { request := req1, cookies := cookies, store := store, calls := calls,
          world := w }).2.cookies =
      (SessionAuth amb tp sr ar
        { request := req2, cookies := cookies, store := store, calls := calls,
          world := w }).2.cookies ∧
     (SessionAuth amb tp sr ar
        { request := req1, cookies := cookies, store := store, calls := calls,
          world := w }).2.store =
      (SessionAuth amb tp sr ar
        { request := req2, cookies := cookies, store := store, calls := calls,
          world := w }).2.store ∧
     (SessionAuth amb tp sr ar
        { request := req1, cookies := cookies, store := store, calls := calls,
          world := w }).2.world =
      (SessionAuth amb tp sr ar
        { request := req2, cookies := cookies, store := store, calls := calls,
          world := w }).2.world ∧
     (SessionAuth amb tp sr ar
        { request := req1, cookies := cookies, store := store, calls := calls,
          world := w }).2.calls.map Call.blankRefreshToken =
      (SessionAuth amb tp sr ar
        { request := req2, cookies := cookies, store := store, calls := calls,
          world := w }).2.calls.map Call.blankRefreshToken) ∧
    (foreignTokenProvider.ParseRefreshToken "foreign-refresh" sampleWorld =
        (.ok { UserID := "00000000-0000-0000-0000-000000000004",
               SessionID := "00000000-0000-0000-0000-000000000003" }, sampleWorld) ∧
     sampleUUIDString sampleSession.ID ≠ "00000000-0000-0000-0000-000000000003" ∧
     sampleUUIDString sampleSession.UserID ≠ "00000000-0000-0000-0000-000000000004" ∧
     (SessionAuth sampleAmbient foreignTokenProvider NewSessionRepository NewAuthRepository
        (sampleContext (some "valid-token") (some "foreign-refresh") sampleWorld)).1 =
       Outcome.next ∧
     (SessionAuth sampleAmbient foreignTokenProvider NewSessionRepository NewAuthRepository
        (sampleContext (some "valid-token") (some "foreign-refresh") sampleWorld)).2.world.session =
       [{ sampleSession with ExpiresAt := sampleNow + 10080 * Minute }]) := by
  refine ⟨?_, rfl, by decide, by decide, rfl, by decide⟩
  cases h1 : req1.Cookie "access_token" with
  | none =>
    have h1b := hacc.trans h1
    simp [SessionAuth, h1, h1b, unauthorizedResponse, hpath]
  | some cookie =>
  have h1b := hacc.trans h1
  by_cases h2 : cookie.Value = ""
  · simp [SessionAuth, h1, h1b, h2, unauthorizedResponse, hpath]
  rcases h3 : tp.ParseAccessToken cookie.Value w with ⟨_ | accessClaims, w1⟩
  · simp [SessionAuth, Context.invoke, h1, h1b, h2, h3, unauthorizedResponse, hpath]
  cases h4 : amb.uuidParse accessClaims.SessionID with
  | error e =>
    simp [SessionAuth, Context.invoke, h1, h1b, h2, h3, h4, unauthorizedResponse, hpath]
  | ok sessionID =>
  rcases h5 : sr.FindSessionByID sessionID w1 with ⟨err | session, w2⟩
  · by_cases he : errorsIs err Error.ErrSessionNotFound = true <;>
      simp [SessionAuth, Context.invoke, h1, h1b, h2, h3, h4, h5, he, unauthorizedResponse,
        internalErrorResponse, clearAuthCookies, Context.SetCookie, hpath]
  obtain ⟨claims1, claims2, w3, hp1, hp2⟩ := hverify
    { cookie := cookie, accessClaims := accessClaims, w1 := w1, sessionID := sessionID,
      session := session, w2 := w2, refreshCookie := k1, refreshClaims := ⟨"", ""⟩, w3 := w2,
      user := { ID := sessionID }, w4 := w2, newAccessToken := "", w5 := w2,
      newRefreshToken := "", w6 := w2 }
    ⟨⟨h1, h2, h3, h4⟩, h5⟩
  simp only at hp1 hp2
  rcases h9 : ar.FindUserByID session.UserID w3 with ⟨err | user, w4⟩
  · by_cases he : errorsIs err Error.ErrUserNotFound = true <;>
      simp [SessionAuth, Context.invoke, h1, h1b, h2, h3, h4, h5, hk1, hk2, hv1, hv2, hp1, hp2,
        h9, he, unauthorizedResponse, internalErrorResponse, hpath, Call.blankRefreshToken]
  rcases h10 : tp.GenerateAccessToken (amb.uuidString session.ID) w4 with
    ⟨_ | newAccessToken, w5⟩
  · simp [SessionAuth, Context.invoke, h1, h1b, h2, h3, h4, h5, hk1, hk2, hv1, hv2, hp1, hp2,
      h9, h10, internalErrorResponse, hpath, Call.blankRefreshToken]
  rcases h11 : tp.GenerateRefreshToken (amb.uuidString user.ID) (amb.uuidString session.ID) w5
    with ⟨_ | newRefreshToken, w6⟩
  · simp [SessionAuth, Context.invoke, h1, h1b, h2, h3, h4, h5, hk1, hk2, hv1, hv2, hp1, hp2,
      h9, h10, h11, internalErrorResponse, hpath, Call.blankRefreshToken]
  simp [SessionAuth, Context.invoke, h1, h1b, h2, h3, h4, h5, hk1, hk2, hv1, hv2, hp1, hp2,
    h9, h10, h11, Context.timeNow, setAuthCookies, Context.SetCookie, Context.Set,
    Call.blankRefreshToken]

/-- C28 on the sample world: the request with the refresh token of the session and the request
with the foreign refresh token get the same outcome, cookies, identity and final world. -/
theorem SessionAuth_discards_refresh_claims_witness :
    (SessionAuth sampleAmbient foreignTokenProvider NewSessionRepository NewAuthRepository
      (sampleContext (some "valid-token") (some "valid-refresh") sampleWorld)).1 =
    (SessionAuth sampleAmbient foreignTokenProvider NewSessionRepository NewAuthRepository
      (sampleContext (some "valid-token") (some "foreign-refresh") sampleWorld)).1 ∧
    (SessionAuth sampleAmbient foreignTokenProvider NewSessionRepository NewAuthRepository
      (sampleContext (some "valid-token") (some "valid-refresh") sampleWorld)).2.world =
    (SessionAuth sampleAmbient foreignTokenProvider NewSessionRepository NewAuthRepository
      (sampleContext (some "valid-token") (some "foreign-refresh") sampleWorld)).2.world :=
  have h := (SessionAuth_discards_refresh_claims sampleAmbient foreignTokenProvider
    NewSessionRepository NewAuthRepository
    (sampleRequest (some "valid-token") (some "valid-refresh"))
    (sampleRequest (some "valid-token") (some "foreign-refresh")) [] [] [] sampleWorld
    { Name := "refresh_token", Value := "valid-refresh" }
    { Name := "refresh_token", Value := "foreign-refresh" }
    rfl rfl rfl rfl (by decide) (by decide)
    (fun p _ => ⟨_, _, p.w2, rfl, rfl⟩)).1
  ⟨h.1, h.2.2.2.1⟩

/-! ### The two expiry tests of the session repository -/

/-- C29: at one clock reading (whose local date is after the start of year 1), with both
statements reaching the database, a stored record whose `ExpiresAt` is the reading itself or
the zero time is returned by `FindSessionByID` as a live session and removed by
`DeleteExpiredSessions`. For every other stored record whose offset is the one of the reading
the two agree: the lookup returns the record exactly when the sweep keeps it, and reports
`ErrSessionNotFound` otherwise. Across a change of offset they disagree on more: in Berlin at
02:30 before the clocks go back, a session that expires 45 minutes later, neither at the
reading nor at the zero time, is returned by the lookup and removed by the sweep. -/
theorem expiry_predicates_disagree (w : World) (r : Session)
    (hrow : w.session.find? (fun x => x.ID = r.ID) = some r)
    (hlookup : (World.exec w).1 = none)
    (hsweep : (World.exec (World.timeNow w).2).1 = none)
    (hclock : 0 < (World.timeNow w).1 +
      w.location.offsetAt (World.timeNow w).1 * 1000000000) :
    (r.ExpiresAt = (World.timeNow w).1 ∨ r.ExpiresAt = 0 →
      (SessionRepositoryImpl.FindSessionByID r.ID w).1 = .ok r ∧
      r ∉ (SessionRepositoryImpl.DeleteExpiredSessions w).2.session) ∧
    (r.ExpiresAt ≠ (World.timeNow w).1 → r.ExpiresAt ≠ 0 →
      w.location.offsetAt r.ExpiresAt = w.location.offsetAt (World.timeNow w).1 →
      ((SessionRepositoryImpl.FindSessionByID r.ID w).1 = .ok r ↔
        r ∈ (SessionRepositoryImpl.DeleteExpiredSessions w).2.session) ∧
      ((SessionRepositoryImpl.FindSessionByID r.ID w).1 = .error Error.ErrSessionNotFound ↔
        r ∉ (SessionRepositoryImpl.DeleteExpiredSessions w).2.session)) ∧
    (berlinSession.ExpiresAt ≠ (World.timeNow berlinWorld).1 ∧
      berlinSession.ExpiresAt ≠ 0 ∧
      berlinSession.ExpiresAt = (World.timeNow berlinWorld).1 + 45 * Minute ∧
      (SessionRepositoryImpl.FindSessionByID berlinSession.ID berlinWorld).1 =
        .ok berlinSession ∧
      berlinSession ∉ (SessionRepositoryImpl.DeleteExpiredSessions berlinWorld).2.session) := by
  have hfind := FindSessionByID_reached r.ID w hlookup
  rw [hrow] at hfind
  simp only at hfind
  have hleft := (DeleteExpiredSessions_ok w hsweep).2.1
  have hmem : r ∈ w.session := List.mem_of_find?_eq_some hrow
  have hkept : r ∈ (SessionRepositoryImpl.DeleteExpiredSessions w).2.session ↔
      TimeText.le (w.location.stored r.ExpiresAt) (w.location.text (World.timeNow w).1) =
        false := by
    rw [hleft, List.mem_filter]
    simp [hmem]
  refine ⟨?_, ?_, by decide, by decide, by decide, rfl, by decide⟩
  · intro hcase
    constructor
    · rw [hfind, if_neg]
      rintro ⟨h0, hlt⟩
      rcases hcase with h | h
      · rw [h] at hlt
        exact lt_irrefl _ hlt
      · exact h0 h
    · rw [hkept]
      by_cases h0 : r.ExpiresAt = 0
      · unfold Location.stored TimeText.le Location.text
        rw [if_pos h0]
        simp [hclock]
      · rcases hcase with h | h
        · unfold Location.stored
          rw [if_neg h0, h, TimeText.le_text_of_same_offset w.location _ _ rfl]
          simp
        · exact absurd h h0
  · intro hne h0 hoff
    have htext : TimeText.le (w.location.stored r.ExpiresAt)
        (w.location.text (World.timeNow w).1) = decide (r.ExpiresAt ≤ (World.timeNow w).1) := by
      unfold Location.stored
      rw [if_neg h0]
      exact TimeText.le_text_of_same_offset w.location _ _ hoff
    by_cases hlt : r.ExpiresAt < (World.timeNow w).1
    · rw [hfind, if_pos ⟨h0, hlt⟩, hkept, htext]
      simp [le_of_lt hlt]
    · have hgt : ¬ r.ExpiresAt ≤ (World.timeNow w).1 := by
        intro hle
        exact hlt (lt_of_le_of_ne hle hne)
      rw [hfind, if_neg (fun h => hlt h.2), hkept, htext]
      simp [hgt]

/-- C29 on the sample world, in UTC, whose session expires exactly at the clock reading: the
lookup returns the session, the sweep removes it. -/
theorem expiry_predicates_disagree_witness :
    (SessionRepositoryImpl.FindSessionByID sampleSessionID worldWithSessionExpiringNow).1 =
      .ok { sampleSession with ExpiresAt := sampleNow } ∧
    { sampleSession with ExpiresAt := sampleNow } ∉
      (SessionRepositoryImpl.DeleteExpiredSessions worldWithSessionExpiringNow).2.session :=
  (expiry_predicates_disagree worldWithSessionExpiringNow
    { sampleSession with ExpiresAt := sampleNow } rfl rfl rfl (by decide)).1 (Or.inl rfl)

/-! ### Properties of the account service: partial failure -/

/-- C30: over the SQLite repositories, with a token provider that has no state of its own,
whenever `CreateAccount` returns an error from `CreateSession`, `GenerateAccessToken` or
`GenerateRefreshToken`, hence no tokens, the world it leaves still holds a user row with the
email of the request: the user it created is not removed. A later `CreateAccount` with that
email whose lookup reaches the database is answered with `ErrEmailAlreadyExists`. When the
failure came from a token generation, a session row of that user is left as well. -/
theorem CreateAccount_not_atomic (cfg : Config) (uuidParse : String → Except Error UUID)
    (uuidString : UUID → String) (gen : World → UUID)
    (ga : World → String → Except Error String)
    (gr : World → String → String → Except Error String)
    (pa : World → String → Except Error AccessTokenClaims)
    (pr : World → String → Except Error RefreshTokenClaims)
    (hasher : PasswordHasher World) (req : CreateAccountRequest) (t t2 : Run World)
    (msg : String) (inner : Error)
    (hfail : AuthServiceImpl.CreateAccount (World.ambient cfg uuidParse uuidString)
      (fun w => (gen w, w))
      { authRepository := NewAuthRepository, sessionRepository := NewSessionRepository,
        tokenProvider := TokenProvider.stateless ga gr pa pr, passwordHasher := hasher }
      req t = (.error (.wrapped msg inner), t2))
    (hmsg : msg ∈ ["failed to create session", "failed to generate access token",
      "failed to generate refresh token"]) :
    (∃ u ∈ t2.world.user, u.Email = req.Email ∧
      (msg ≠ "failed to create session" → ∃ r ∈ t2.world.session, r.UserID = u.ID)) ∧
    (∀ (req2 : CreateAccountRequest) (calls : List Call), req2.Email = req.Email →
      (World.exec t2.world).1 = none →
      (AuthServiceImpl.CreateAccount (World.ambient cfg uuidParse uuidString)
        (fun w => (gen w, w))
        { authRepository := NewAuthRepository, sessionRepository := NewSessionRepository,
          tokenProvider := TokenProvider.stateless ga gr pa pr, passwordHasher := hasher }
        req2 { calls := calls, world := t2.world }).1 = .error Error.ErrEmailAlreadyExists) := by
  have hrow : ∃ u ∈ t2.world.user, u.Email = req.Email ∧
      (msg ≠ "failed to create session" → ∃ r ∈ t2.world.session, r.UserID = u.ID) := by
    rcases CreateAccount_cases (World.ambient cfg uuidParse uuidString) (fun w => (gen w, w))
        { authRepository := NewAuthRepository, sessionRepository := NewSessionRepository,
          tokenProvider := TokenProvider.stateless ga gr pa pr, passwordHasher := hasher }
        req t with
      ⟨made, msg2, inner2, w, hc, hm, -⟩ | ⟨user, w1, -, hc⟩ |
      ⟨err, w1, hashed, w2, w3, -, -, -, h3, hc⟩
    · rw [hc] at hfail
      simp only [Prod.mk.injEq, Except.error.injEq, Error.wrapped.injEq] at hfail
      rw [hfail.1.1] at hm
      simp only [List.mem_cons, List.mem_singleton, List.not_mem_nil, or_false] at hm hmsg
      rcases hm with h | h | h <;> rw [h] at hmsg <;> simp at hmsg
    · rw [hc] at hfail
      simp at hfail
    · rw [hc] at hfail
      obtain ⟨u, hu, huid, huemail⟩ := CreateUser_ok _ _ _ h3
      simp only at huid huemail
      have htn := World.timeNow_tables w3
      have hct := CreateSession_tables
        { ID := gen w3, UserID := gen w2,
          ExpiresAt := Time.Add (World.timeNow w3).1 (minutes cfg.Token.RefreshTokenExpiry) }
        (World.timeNow w3).2
      rcases startSession_error_cases _ _ _ _ _ _ _ hfail with
        ⟨e1, hcs, he⟩ | ⟨w4, hcs, ⟨e2, hg, he⟩ | ⟨accessToken, w5, e3, hg1, hg2, he⟩⟩
      · have hcs2 : SessionRepositoryImpl.CreateSession
            { ID := gen w3, UserID := gen w2,
              ExpiresAt := Time.Add (World.timeNow w3).1
                (minutes cfg.Token.RefreshTokenExpiry) }
            (World.timeNow w3).2 = (some e1, t2.world) := hcs
        rw [hcs2] at hct
        simp only at hct
        refine ⟨u, by rw [hct.1, htn.2]; exact hu, huemail, ?_⟩
        intro hne
        simp only [Error.wrapped.injEq] at he
        exact absurd he.1 hne
      · have hcs2 : SessionRepositoryImpl.CreateSession
            { ID := gen w3, UserID := gen w2,
              ExpiresAt := Time.Add (World.timeNow w3).1
                (minutes cfg.Token.RefreshTokenExpiry) }
            (World.timeNow w3).2 = (none, w4) := hcs
        rw [hcs2] at hct
        simp only at hct
        have hw : w4 = t2.world := by
          simp only [TokenProvider.stateless, Prod.mk.injEq] at hg
          exact hg.2
        rw [← hw]
        obtain ⟨r, hr, -, hruid⟩ := hct.2.2 trivial
        exact ⟨u, by rw [hct.1, htn.2]; exact hu, huemail,
          fun _ => ⟨r, hr, by rw [hruid, huid]⟩⟩
      · have hcs2 : SessionRepositoryImpl.CreateSession
            { ID := gen w3, UserID := gen w2,
              ExpiresAt := Time.Add (World.timeNow w3).1
                (minutes cfg.Token.RefreshTokenExpiry) }
            (World.timeNow w3).2 = (none, w4) := hcs
        rw [hcs2] at hct
        simp only at hct
        have hw : w4 = t2.world := by
          simp only [TokenProvider.stateless, Prod.mk.injEq] at hg1 hg2
          rw [hg1.2]
          exact hg2.2
        rw [← hw]
        obtain ⟨r, hr, -, hruid⟩ := hct.2.2 trivial
        exact ⟨u, by rw [hct.1, htn.2]; exact hu, huemail,
          fun _ => ⟨r, hr, by rw [hruid, huid]⟩⟩
  refine ⟨hrow, ?_⟩
  intro req2 calls hemail hexec
  obtain ⟨u, hu, huemail, -⟩ := hrow
  exact CreateAccount_email_taken _ _ _ _ req2 { calls := calls, world := t2.world } hexec
    ⟨u, hu, by rw [huemail, hemail]⟩

/-- C30 over the SQLite repositories: when the statement of `CreateSession` fails, the
registration returns the error and the new user is stored all the same, so that the same
registration made again is answered with `ErrEmailAlreadyExists`; when the token provider
cannot sign, the registration returns the error and leaves the user and its session. -/
theorem CreateAccount_not_atomic_witness :
    (AuthServiceImpl.CreateAccount sampleAmbient sampleUUIDNew sampleService sampleRegistration
      { world := { worldWithRegisteredUser with
          faults := [none, none, some (.other "db error")] } }).1 =
      .error (.wrapped "failed to create session"
        (.wrapped "failed to insert data" (.other "db error"))) ∧
    (AuthServiceImpl.CreateAccount sampleAmbient sampleUUIDNew sampleService sampleRegistration
      { world := { worldWithRegisteredUser with
          faults := [none, none, some (.other "db error")] } }).2.world.user.map User.Email =
      ["user@test.com", "new@test.com"] ∧
    (AuthServiceImpl.CreateAccount sampleAmbient sampleUUIDNew sampleService sampleRegistration
      { world :=
          (AuthServiceImpl.CreateAccount sampleAmbient sampleUUIDNew sampleService
            sampleRegistration
            { world := { worldWithRegisteredUser with
                faults := [none, none, some (.other "db error")] } }).2.world }).1 =
      .error Error.ErrEmailAlreadyExists ∧
    (AuthServiceImpl.CreateAccount sampleAmbient sampleUUIDNew brokenService sampleRegistration
      { world := worldWithRegisteredUser }).1 =
      .error (.wrapped "failed to generate access token" (.other "failed to sign token")) ∧
    (AuthServiceImpl.CreateAccount sampleAmbient sampleUUIDNew brokenService sampleRegistration
      { world := worldWithRegisteredUser }).2.world.session.map Session.UserID = [⟨11⟩] ∧
    (AuthServiceImpl.CreateAccount sampleAmbient sampleUUIDNew brokenService sampleRegistration
      { world := worldWithRegisteredUser }).2.world.user.map User.ID = [sampleUserID, ⟨11⟩] :=
  have h := CreateAccount_not_atomic {} sampleUUIDParse sampleUUIDString
    (fun w => ⟨10 + w.user.length + w.session.length⟩)
    (fun _ _ => .ok "new-access") (fun _ _ _ => .ok "new-refresh")
    (fun _ tokenString =>
      if tokenString = "valid-token" then
        .ok { SessionID := "00000000-0000-0000-0000-000000000001" }
      else .error (.other "invalid"))
    (fun _ tokenString =>
      if tokenString = "valid-refresh" then
        .ok { UserID := "00000000-0000-0000-0000-000000000002",
              SessionID := "00000000-0000-0000-0000-000000000001" }
      else .error (.other "expired"))
    sampleHasher sampleRegistration
    { world := { worldWithRegisteredUser with faults := [none, none, some (.other "db error")] } }
    (AuthServiceImpl.CreateAccount sampleAmbient sampleUUIDNew sampleService sampleRegistration
      { world := { worldWithRegisteredUser with
          faults := [none, none, some (.other "db error")] } }).2
    "failed to create session" (.wrapped "failed to insert data" (.other "db error")) rfl
    (by decide)
  ⟨rfl, by decide, h.2 sampleRegistration [] rfl rfl, rfl, by decide, by decide⟩

end Migos
